import Mathlib

/-!
# Boolector public API layer (`boolector.c`): argument validation and
# reference accounting

A shallow embedding of the API wrappers of `src/boolector.c`, followed by one
of the SAT manager of `src/src/btorsat.c` (see that section).  Every wrapper
has the same shape: it validates its arguments with the `BTOR_ABORT_*`
macros, bumps the external reference counter and then hands over to the
expression layer (`btor_*_exp`, file `btorexp.c`).

Modelling decisions.

* A `Btor *` is an `Option (Btor G)`; `none` is the null pointer.  The record
  holds the scalar fields the wrappers themselves write, and the expression
  graph as one component `graph : G` that only the expression layer touches.
* A `BtorNode *` is an `Option BtorRef`; a `BtorRef` is a polarity-tagged
  pointer, given by the tag and the fields of the node it points to at the
  time of the call.
* A call ends in one of three ways (`Outcome`): it returns (`ok`), it raises
  a usage error (`abort`, with the solver state at that moment), or it
  dereferences a null pointer (`fault`).
* Counters are C `int`s; they are modelled as mathematical integers, signed
  overflow being undefined behaviour in C.  Where a range check is the very
  point of the code (`boolector_concat`), 32-bit wrap-around is explicit.
* Tracing (`BTOR_TRAPI`) only writes to the trace file; the model keeps the
  read of `btor->apitrace` it starts with and drops the output.  The clone
  checks (`BTOR_CHKCLONE*`) leave a solver without an attached clone
  untouched (`if (!btor->clone) break;`); the wrappers are modelled for such
  a solver, and the section on clone checking adds the closing step of each
  wrapper for a solver with its `clone` field.
* The functions of the API that return no node (options, queries, dumps,
  assignments, teardown) are modelled in the same way, the functions of the
  solver core behind them being parameters (`CoreLayer`, `AuxLayer`).
* The example `examples/bubblesortmem/bubblesortmem.c` is modelled by the
  calls it makes on references, each returned reference being given a handle
  of its own (section on the example).
-/

namespace Boolector

/-! ## Data model -/

/-- Node of the expression graph, as far as the API layer reads it: the
reference count `refs`, the bit-width `len`, the index width `index_len`
(arrays only), the values of the kind tests `BTOR_IS_ARRAY_NODE`,
`BTOR_IS_PARAM_NODE` and `BTOR_IS_LAMBDA_NODE`, and the children `e[i]`, each
a tagged pointer (tag, node). -/
inductive BtorNode where
  | mk (id : Int) (refs : Int) (len : Int) (index_len : Int)
      (is_array is_param is_lambda : Bool) (e : List (Bool × BtorNode)) : BtorNode

namespace BtorNode

def id : BtorNode → Int
  | mk i _ _ _ _ _ _ _ => i

def refs : BtorNode → Int
  | mk _ r _ _ _ _ _ _ => r

def len : BtorNode → Int
  | mk _ _ l _ _ _ _ _ => l

def index_len : BtorNode → Int
  | mk _ _ _ il _ _ _ _ => il

def is_array : BtorNode → Bool
  | mk _ _ _ _ a _ _ _ => a

def is_param : BtorNode → Bool
  | mk _ _ _ _ _ p _ _ => p

def is_lambda : BtorNode → Bool
  | mk _ _ _ _ _ _ l _ => l

def e : BtorNode → List (Bool × BtorNode)
  | mk _ _ _ _ _ _ _ cs => cs

end BtorNode

/-- Polarity-tagged node pointer (non-null): `inverted` is the tag bit,
`node` the node at the real address. -/
structure BtorRef where
  inverted : Bool
  node : BtorNode

/-- The macro `BTOR_REAL_ADDR_NODE`: strips the tag. -/
def BTOR_REAL_ADDR_NODE (r : BtorRef) : BtorNode := r.node

/-- Solver instance, restricted to the fields written by the API wrappers
modelled here, plus the expression graph, plus the fields of the solver core
that the wrappers read: the flags `inc_enabled` and `model_gen` (a C `int`
used as a truth value), the count `btor_sat_btor_called` of solve calls and
the result `last_sat_result` of the last one, the option `rewrite_level` and
the flag `generate_model_for_all_reads`.  The defaults are the values of a
zero-initialised instance. -/
structure Btor (G : Type) where
  external_refs : Int
  dvn_id : Int
  dan_id : Int
  dpn_id : Int
  graph : G
  inc_enabled : Bool := false
  model_gen : Bool := false
  btor_sat_btor_called : Int := 0
  last_sat_result : Int := 0
  rewrite_level : Int := 0
  generate_model_for_all_reads : Bool := false

/-- Argument handed to a function of the expression layer. -/
inductive ExpArg where
  | node (r : BtorRef)
  | nodes (rs : List (Option BtorRef))
  | int (i : Int)
  | str (s : String)

/-- The expression layer (`btorexp.c`, not part of the API file), taken as a
parameter.  `btor_simplify_exp` resolves a reference through the forwarding
chain; `exp` stands for the constructors `btor_*_exp`, selected by name, which
work on the graph and return the new reference; `btor_release_exp` gives a
reference back.  None of them has access to the counters of the wrapper. -/
structure ExpLayer (G : Type) where
  btor_simplify_exp : G → BtorRef → BtorRef
  exp : String → G → List ExpArg → G × BtorRef
  btor_release_exp : G → BtorRef → G

/-- How an API call ends. -/
inductive Outcome (G : Type) (α : Type) where
  | ok (val : α) : Outcome G α
  | abort (st : Option (Btor G)) (msg : String) : Outcome G α
  | fault : Outcome G α

namespace Outcome

def bind {G α β : Type} (x : Outcome G α) (f : α → Outcome G β) : Outcome G β :=
  match x with
  | ok a => f a
  | abort st msg => abort st msg
  | fault => fault

instance {G : Type} : Monad (Outcome G) where
  pure := ok
  bind := bind

/-- The call passed every precondition check and returned. -/
def accepted {G α : Type} : Outcome G α → Bool
  | ok _ => true
  | _ => false

end Outcome

/-! ## The abort and trace macros -/

/-- The constant `INT_MAX` of `limits.h` for a 32-bit `int`. -/
def INT_MAX : Int := 2147483647

/-- Value of a 32-bit signed `int` computation whose mathematical result is
`x`: reduction modulo `2^32` into `[-2^31, 2^31)`. -/
def wrap32 (x : Int) : Int := (x + 2147483648) % 4294967296 - 2147483648

/-- Modelled from the spec: the macro `BTOR_ABORT_BOOLECTOR` of `btorabort.h`
(absent).  When the condition holds the call ends with a usage error. -/
def BTOR_ABORT_BOOLECTOR {G : Type} (btor : Btor G) (cond : Bool) (msg : String) :
    Outcome G Unit :=
  if cond then .abort (some btor) msg else .ok ()

/-- Modelled from the spec: the macro `BTOR_ABORT_ARG_NULL_BOOLECTOR` of
`btorabort.h` (absent), applied to the solver pointer itself. -/
def BTOR_ABORT_ARG_NULL_BOOLECTOR_btor {G : Type} (btor : Option (Btor G)) :
    Outcome G (Btor G) :=
  match btor with
  | none => .abort none "btor must not be NULL"
  | some b => .ok b

/-- Modelled from the spec: the macro `BTOR_ABORT_ARG_NULL_BOOLECTOR` of
`btorabort.h` (absent), applied to any other pointer argument. -/
def BTOR_ABORT_ARG_NULL_BOOLECTOR {G α : Type} (btor : Btor G) (arg : Option α) :
    Outcome G α :=
  match arg with
  | none => .abort (some btor) "argument must not be NULL"
  | some a => .ok a

/-- Modelled from the spec: the macro `BTOR_ABORT_REFS_NOT_POS_BOOLECTOR` of
`btorabort.h` (absent): the reference count of the node must be positive. -/
def BTOR_ABORT_REFS_NOT_POS_BOOLECTOR {G : Type} (btor : Btor G) (arg : BtorRef) :
    Outcome G Unit :=
  if (BTOR_REAL_ADDR_NODE arg).refs < 1 then
    .abort (some btor) "reference counter of argument must not be < 1"
  else .ok ()

/-- Modelled from the spec: the macro `BTOR_ABORT_ARRAY_BOOLECTOR` of
`btorabort.h` (absent): the argument must not be an array. -/
def BTOR_ABORT_ARRAY_BOOLECTOR {G : Type} (btor : Btor G) (arg : BtorRef) :
    Outcome G Unit :=
  if (BTOR_REAL_ADDR_NODE arg).is_array then
    .abort (some btor) "argument must not be an array"
  else .ok ()

/-- Modelled from the spec: the macro `BTOR_ABORT_BV_BOOLECTOR` of
`btorabort.h` (absent): the argument must not be a bit-vector. -/
def BTOR_ABORT_BV_BOOLECTOR {G : Type} (btor : Btor G) (arg : BtorRef) :
    Outcome G Unit :=
  if !(BTOR_REAL_ADDR_NODE arg).is_array then
    .abort (some btor) "argument must not be a bit-vector"
  else .ok ()

/-- Modelled from the spec: the macro `BTOR_ABORT_NE_BW` of `btorabort.h`
(absent): the two arguments must have the same bit-width. -/
def BTOR_ABORT_NE_BW {G : Type} (btor : Btor G) (arg1 arg2 : BtorRef) :
    Outcome G Unit :=
  if (BTOR_REAL_ADDR_NODE arg1).len ≠ (BTOR_REAL_ADDR_NODE arg2).len then
    .abort (some btor) "bit-width of arguments must not be unequal"
  else .ok ()

/-- The macro `BTOR_TRAPI`: reads `btor->apitrace` (a fault on a null solver
pointer) and writes the call to the trace file when one is set. -/
def BTOR_TRAPI {G : Type} (btor : Option (Btor G)) : Outcome G Unit :=
  match btor with
  | none => .fault
  | some _ => .ok ()

/-- The statement `btor->external_refs++`. -/
def inc_external_refs {G : Type} (btor : Btor G) : Btor G :=
  { btor with external_refs := btor.external_refs + 1 }

/-- Call of a constructor of the expression layer on the graph of `btor`. -/
def call_exp {G : Type} (x : ExpLayer G) (fn : String) (btor : Btor G)
    (args : List ExpArg) : Btor G × BtorRef :=
  let r := x.exp fn btor.graph args
  ({ btor with graph := r.1 }, r.2)

/-- The call `btor_simplify_exp (btor, exp)`. -/
def simplify {G : Type} (x : ExpLayer G) (btor : Btor G) (exp : BtorRef) : BtorRef :=
  x.btor_simplify_exp btor.graph exp

/-- Modelled from the spec: `btor_log_2_util` of `btorutil.c` (absent), the
halving loop behind it: the number of times `x` can be halved before it
drops to 1, with `fuel` bounding the iterations. -/
def log_2_loop : Nat → Nat → Nat
  | 0, _ => 0
  | fuel + 1, x => if x > 1 then log_2_loop fuel (x / 2) + 1 else 0

/-- Modelled from the spec: `btor_log_2_util` of `btorutil.c` (absent): the
binary logarithm (rounded down) of a positive `int`. -/
def btor_log_2_util (x : Int) : Int := (log_2_loop x.toNat x.toNat : Nat)

/-- Modelled from the spec: `btor_is_power_of_2_util` of `btorutil.c`
(absent): whether the positive `int` `x` is a power of two. -/
def btor_is_power_of_2_util (x : Int) : Bool :=
  decide (0 < x ∧ (2 : Int) ^ (log_2_loop x.toNat x.toNat) = x)

variable {G : Type}

/-! ## Solver-level query -/

def boolector_get_refs (btor : Option (Btor G)) : Outcome G (Btor G × Int) := do
  let b ← BTOR_ABORT_ARG_NULL_BOOLECTOR_btor btor
  BTOR_TRAPI (some b)
  let res := b.external_refs
  return (b, res)

/-! ## Constants and variables -/

def boolector_const (x : ExpLayer G) (btor : Option (Btor G))
    (bits : Option String) : Outcome G (Btor G × BtorRef) := do
  let b ← BTOR_ABORT_ARG_NULL_BOOLECTOR_btor btor
  BTOR_TRAPI (some b)
  let bits ← BTOR_ABORT_ARG_NULL_BOOLECTOR b bits
  BTOR_ABORT_BOOLECTOR b (bits.data.isEmpty) "bits must not be empty"
  let b := inc_external_refs b
  return call_exp x "btor_const_exp" b [.str bits]

def boolector_zero (x : ExpLayer G) (btor : Option (Btor G))
    (width : Int) : Outcome G (Btor G × BtorRef) := do
  let b ← BTOR_ABORT_ARG_NULL_BOOLECTOR_btor btor
  BTOR_TRAPI (some b)
  BTOR_ABORT_BOOLECTOR b (width < 1) "width must not be < 1"
  let b := inc_external_refs b
  return call_exp x "btor_zero_exp" b [.int width]

def boolector_false (x : ExpLayer G) (btor : Option (Btor G)) : Outcome G (Btor G × BtorRef) := do
  let b ← BTOR_ABORT_ARG_NULL_BOOLECTOR_btor btor
  BTOR_TRAPI (some b)
  let b := inc_external_refs b
  return call_exp x "btor_false_exp" b []

def boolector_ones (x : ExpLayer G) (btor : Option (Btor G))
    (width : Int) : Outcome G (Btor G × BtorRef) := do
  let b ← BTOR_ABORT_ARG_NULL_BOOLECTOR_btor btor
  BTOR_TRAPI (some b)
  BTOR_ABORT_BOOLECTOR b (width < 1) "width must not be < 1"
  let b := inc_external_refs b
  return call_exp x "btor_ones_exp" b [.int width]

def boolector_true (x : ExpLayer G) (btor : Option (Btor G)) : Outcome G (Btor G × BtorRef) := do
  let b ← BTOR_ABORT_ARG_NULL_BOOLECTOR_btor btor
  BTOR_TRAPI (some b)
  let b := inc_external_refs b
  return call_exp x "btor_true_exp" b []

def boolector_one (x : ExpLayer G) (btor : Option (Btor G))
    (width : Int) : Outcome G (Btor G × BtorRef) := do
  let b ← BTOR_ABORT_ARG_NULL_BOOLECTOR_btor btor
  BTOR_TRAPI (some b)
  BTOR_ABORT_BOOLECTOR b (width < 1) "width must not be < 1"
  let b := inc_external_refs b
  return call_exp x "btor_one_exp" b [.int width]

def boolector_unsigned_int (x : ExpLayer G) (btor : Option (Btor G))
    (u : Nat) (width : Int) : Outcome G (Btor G × BtorRef) := do
  let b ← BTOR_ABORT_ARG_NULL_BOOLECTOR_btor btor
  BTOR_TRAPI (some b)
  BTOR_ABORT_BOOLECTOR b (width < 1) "width must not be < 1"
  let b := inc_external_refs b
  return call_exp x "btor_unsigned_to_exp" b [.int u, .int width]

def boolector_int (x : ExpLayer G) (btor : Option (Btor G))
    (i : Int) (width : Int) : Outcome G (Btor G × BtorRef) := do
  let b ← BTOR_ABORT_ARG_NULL_BOOLECTOR_btor btor
  BTOR_TRAPI (some b)
  BTOR_ABORT_BOOLECTOR b (width < 1) "width must not be < 1"
  let b := inc_external_refs b
  return call_exp x "btor_int_to_exp" b [.int i, .int width]

def boolector_var (x : ExpLayer G) (btor : Option (Btor G))
    (width : Int) (symbol : Option String) : Outcome G (Btor G × BtorRef) := do
  let b ← BTOR_ABORT_ARG_NULL_BOOLECTOR_btor btor
  match symbol with
  | none =>
    -- sprintf (symb, "DVN%d", btor->dvn_id++)
    let symb := "DVN" ++ toString b.dvn_id
    let b := { b with dvn_id := b.dvn_id + 1 }
    BTOR_TRAPI (some b)
    BTOR_ABORT_BOOLECTOR b (width < 1) "width must not be < 1"
    let b := inc_external_refs b
    return call_exp x "btor_var_exp" b [.int width, .str symb]
  | some symbol =>
    BTOR_TRAPI (some b)
    BTOR_ABORT_BOOLECTOR b (width < 1) "width must not be < 1"
    let b := inc_external_refs b
    return call_exp x "btor_var_exp" b [.int width, .str symbol]

def boolector_array (x : ExpLayer G) (btor : Option (Btor G))
    (elem_width index_width : Int) (symbol : Option String) :
    Outcome G (Btor G × BtorRef) := do
  let b ← BTOR_ABORT_ARG_NULL_BOOLECTOR_btor btor
  match symbol with
  | none =>
    -- sprintf (symb, "DAN%d", btor->dan_id++)
    let symb := "DAN" ++ toString b.dan_id
    let b := { b with dan_id := b.dan_id + 1 }
    BTOR_TRAPI (some b)
    BTOR_ABORT_BOOLECTOR b (elem_width < 1) "elem_width must not be < 1"
    BTOR_ABORT_BOOLECTOR b (index_width < 1) "index_width must not be < 1"
    let b := inc_external_refs b
    return call_exp x "btor_array_exp" b [.int elem_width, .int index_width, .str symb]
  | some symbol =>
    BTOR_TRAPI (some b)
    BTOR_ABORT_BOOLECTOR b (elem_width < 1) "elem_width must not be < 1"
    BTOR_ABORT_BOOLECTOR b (index_width < 1) "index_width must not be < 1"
    let b := inc_external_refs b
    return call_exp x "btor_array_exp" b [.int elem_width, .int index_width, .str symbol]

/-! ## Unary operators, slice and extensions -/

def boolector_not (x : ExpLayer G) (btor : Option (Btor G))
    (exp : Option BtorRef) : Outcome G (Btor G × BtorRef) := do
  let b ← BTOR_ABORT_ARG_NULL_BOOLECTOR_btor btor
  BTOR_TRAPI (some b)
  let exp ← BTOR_ABORT_ARG_NULL_BOOLECTOR b exp
  BTOR_ABORT_REFS_NOT_POS_BOOLECTOR b exp
  let exp := simplify x b exp
  BTOR_ABORT_ARRAY_BOOLECTOR b exp
  let b := inc_external_refs b
  return call_exp x "btor_not_exp" b [.node exp]

def boolector_neg (x : ExpLayer G) (btor : Option (Btor G))
    (exp : Option BtorRef) : Outcome G (Btor G × BtorRef) := do
  let b ← BTOR_ABORT_ARG_NULL_BOOLECTOR_btor btor
  BTOR_TRAPI (some b)
  let exp ← BTOR_ABORT_ARG_NULL_BOOLECTOR b exp
  BTOR_ABORT_REFS_NOT_POS_BOOLECTOR b exp
  let exp := simplify x b exp
  BTOR_ABORT_ARRAY_BOOLECTOR b exp
  let b := inc_external_refs b
  return call_exp x "btor_neg_exp" b [.node exp]

def boolector_redor (x : ExpLayer G) (btor : Option (Btor G))
    (exp : Option BtorRef) : Outcome G (Btor G × BtorRef) := do
  let b ← BTOR_ABORT_ARG_NULL_BOOLECTOR_btor btor
  BTOR_TRAPI (some b)
  let exp ← BTOR_ABORT_ARG_NULL_BOOLECTOR b exp
  BTOR_ABORT_REFS_NOT_POS_BOOLECTOR b exp
  let exp := simplify x b exp
  BTOR_ABORT_ARRAY_BOOLECTOR b exp
  let b := inc_external_refs b
  return call_exp x "btor_redor_exp" b [.node exp]

def boolector_redxor (x : ExpLayer G) (btor : Option (Btor G))
    (exp : Option BtorRef) : Outcome G (Btor G × BtorRef) := do
  let b ← BTOR_ABORT_ARG_NULL_BOOLECTOR_btor btor
  BTOR_TRAPI (some b)
  let exp ← BTOR_ABORT_ARG_NULL_BOOLECTOR b exp
  BTOR_ABORT_REFS_NOT_POS_BOOLECTOR b exp
  let exp := simplify x b exp
  BTOR_ABORT_ARRAY_BOOLECTOR b exp
  let b := inc_external_refs b
  return call_exp x "btor_redxor_exp" b [.node exp]

def boolector_redand (x : ExpLayer G) (btor : Option (Btor G))
    (exp : Option BtorRef) : Outcome G (Btor G × BtorRef) := do
  let b ← BTOR_ABORT_ARG_NULL_BOOLECTOR_btor btor
  BTOR_TRAPI (some b)
  let exp ← BTOR_ABORT_ARG_NULL_BOOLECTOR b exp
  BTOR_ABORT_REFS_NOT_POS_BOOLECTOR b exp
  let exp := simplify x b exp
  BTOR_ABORT_ARRAY_BOOLECTOR b exp
  let b := inc_external_refs b
  return call_exp x "btor_redand_exp" b [.node exp]

def boolector_slice (x : ExpLayer G) (btor : Option (Btor G))
    (exp : Option BtorRef) (upper lower : Int) : Outcome G (Btor G × BtorRef) := do
  let b ← BTOR_ABORT_ARG_NULL_BOOLECTOR_btor btor
  BTOR_TRAPI (some b)
  let exp ← BTOR_ABORT_ARG_NULL_BOOLECTOR b exp
  BTOR_ABORT_REFS_NOT_POS_BOOLECTOR b exp
  let exp := simplify x b exp
  BTOR_ABORT_ARRAY_BOOLECTOR b exp
  BTOR_ABORT_BOOLECTOR b (lower < 0) "lower must not be negative"
  BTOR_ABORT_BOOLECTOR b (upper < lower) "upper must not be < lower"
  BTOR_ABORT_BOOLECTOR b (upper >= (BTOR_REAL_ADDR_NODE exp).len)
    "upper must not be >= width of exp"
  let b := inc_external_refs b
  return call_exp x "btor_slice_exp" b [.node exp, .int upper, .int lower]

def boolector_uext (x : ExpLayer G) (btor : Option (Btor G))
    (exp : Option BtorRef) (width : Int) : Outcome G (Btor G × BtorRef) := do
  let b ← BTOR_ABORT_ARG_NULL_BOOLECTOR_btor btor
  BTOR_TRAPI (some b)
  let exp ← BTOR_ABORT_ARG_NULL_BOOLECTOR b exp
  BTOR_ABORT_REFS_NOT_POS_BOOLECTOR b exp
  let exp := simplify x b exp
  BTOR_ABORT_ARRAY_BOOLECTOR b exp
  BTOR_ABORT_BOOLECTOR b (width < 0) "width must not be negative"
  let b := inc_external_refs b
  return call_exp x "btor_uext_exp" b [.node exp, .int width]

def boolector_sext (x : ExpLayer G) (btor : Option (Btor G))
    (exp : Option BtorRef) (width : Int) : Outcome G (Btor G × BtorRef) := do
  let b ← BTOR_ABORT_ARG_NULL_BOOLECTOR_btor btor
  BTOR_TRAPI (some b)
  let exp ← BTOR_ABORT_ARG_NULL_BOOLECTOR b exp
  BTOR_ABORT_REFS_NOT_POS_BOOLECTOR b exp
  let exp := simplify x b exp
  BTOR_ABORT_ARRAY_BOOLECTOR b exp
  BTOR_ABORT_BOOLECTOR b (width < 0) "width must not be negative"
  let b := inc_external_refs b
  return call_exp x "btor_sext_exp" b [.node exp, .int width]

/-! ## Binary operators -/

def boolector_implies (x : ExpLayer G) (btor : Option (Btor G))
    (e0 e1 : Option BtorRef) : Outcome G (Btor G × BtorRef) := do
  let b ← BTOR_ABORT_ARG_NULL_BOOLECTOR_btor btor
  BTOR_TRAPI (some b)
  let e0 ← BTOR_ABORT_ARG_NULL_BOOLECTOR b e0
  let e1 ← BTOR_ABORT_ARG_NULL_BOOLECTOR b e1
  BTOR_ABORT_REFS_NOT_POS_BOOLECTOR b e0
  BTOR_ABORT_REFS_NOT_POS_BOOLECTOR b e1
  let e0 := simplify x b e0
  let e1 := simplify x b e1
  BTOR_ABORT_ARRAY_BOOLECTOR b e0
  BTOR_ABORT_ARRAY_BOOLECTOR b e1
  BTOR_ABORT_BOOLECTOR b
    ((BTOR_REAL_ADDR_NODE e0).len != 1 || (BTOR_REAL_ADDR_NODE e1).len != 1)
    "bit-width of e0 and e1 have be 1"
  let b := inc_external_refs b
  return call_exp x "btor_implies_exp" b [.node e0, .node e1]

def boolector_iff (x : ExpLayer G) (btor : Option (Btor G))
    (e0 e1 : Option BtorRef) : Outcome G (Btor G × BtorRef) := do
  let b ← BTOR_ABORT_ARG_NULL_BOOLECTOR_btor btor
  BTOR_TRAPI (some b)
  let e0 ← BTOR_ABORT_ARG_NULL_BOOLECTOR b e0
  let e1 ← BTOR_ABORT_ARG_NULL_BOOLECTOR b e1
  BTOR_ABORT_REFS_NOT_POS_BOOLECTOR b e0
  BTOR_ABORT_REFS_NOT_POS_BOOLECTOR b e1
  let e0 := simplify x b e0
  let e1 := simplify x b e1
  BTOR_ABORT_ARRAY_BOOLECTOR b e0
  BTOR_ABORT_ARRAY_BOOLECTOR b e1
  BTOR_ABORT_BOOLECTOR b
    ((BTOR_REAL_ADDR_NODE e0).len != 1 || (BTOR_REAL_ADDR_NODE e1).len != 1)
    "bit-width of e0 and e1 must not be unequal to 1"
  let b := inc_external_refs b
  return call_exp x "btor_iff_exp" b [.node e0, .node e1]

def boolector_xor (x : ExpLayer G) (btor : Option (Btor G))
    (e0 e1 : Option BtorRef) : Outcome G (Btor G × BtorRef) := do
  let b ← BTOR_ABORT_ARG_NULL_BOOLECTOR_btor btor
  BTOR_TRAPI (some b)
  let e0 ← BTOR_ABORT_ARG_NULL_BOOLECTOR b e0
  let e1 ← BTOR_ABORT_ARG_NULL_BOOLECTOR b e1
  BTOR_ABORT_REFS_NOT_POS_BOOLECTOR b e0
  BTOR_ABORT_REFS_NOT_POS_BOOLECTOR b e1
  let e0 := simplify x b e0
  let e1 := simplify x b e1
  BTOR_ABORT_ARRAY_BOOLECTOR b e0
  BTOR_ABORT_ARRAY_BOOLECTOR b e1
  BTOR_ABORT_NE_BW b e0 e1
  let b := inc_external_refs b
  return call_exp x "btor_xor_exp" b [.node e0, .node e1]

def boolector_xnor (x : ExpLayer G) (btor : Option (Btor G))
    (e0 e1 : Option BtorRef) : Outcome G (Btor G × BtorRef) := do
  let b ← BTOR_ABORT_ARG_NULL_BOOLECTOR_btor btor
  BTOR_TRAPI (some b)
  let e0 ← BTOR_ABORT_ARG_NULL_BOOLECTOR b e0
  let e1 ← BTOR_ABORT_ARG_NULL_BOOLECTOR b e1
  BTOR_ABORT_REFS_NOT_POS_BOOLECTOR b e0
  BTOR_ABORT_REFS_NOT_POS_BOOLECTOR b e1
  let e0 := simplify x b e0
  let e1 := simplify x b e1
  BTOR_ABORT_ARRAY_BOOLECTOR b e0
  BTOR_ABORT_ARRAY_BOOLECTOR b e1
  BTOR_ABORT_NE_BW b e0 e1
  let b := inc_external_refs b
  return call_exp x "btor_xnor_exp" b [.node e0, .node e1]

def boolector_and (x : ExpLayer G) (btor : Option (Btor G))
    (e0 e1 : Option BtorRef) : Outcome G (Btor G × BtorRef) := do
  let b ← BTOR_ABORT_ARG_NULL_BOOLECTOR_btor btor
  BTOR_TRAPI (some b)
  let e0 ← BTOR_ABORT_ARG_NULL_BOOLECTOR b e0
  let e1 ← BTOR_ABORT_ARG_NULL_BOOLECTOR b e1
  BTOR_ABORT_REFS_NOT_POS_BOOLECTOR b e0
  BTOR_ABORT_REFS_NOT_POS_BOOLECTOR b e1
  let e0 := simplify x b e0
  let e1 := simplify x b e1
  BTOR_ABORT_ARRAY_BOOLECTOR b e0
  BTOR_ABORT_ARRAY_BOOLECTOR b e1
  BTOR_ABORT_NE_BW b e0 e1
  let b := inc_external_refs b
  return call_exp x "btor_and_exp" b [.node e0, .node e1]

def boolector_nand (x : ExpLayer G) (btor : Option (Btor G))
    (e0 e1 : Option BtorRef) : Outcome G (Btor G × BtorRef) := do
  let b ← BTOR_ABORT_ARG_NULL_BOOLECTOR_btor btor
  BTOR_TRAPI (some b)
  let e0 ← BTOR_ABORT_ARG_NULL_BOOLECTOR b e0
  let e1 ← BTOR_ABORT_ARG_NULL_BOOLECTOR b e1
  BTOR_ABORT_REFS_NOT_POS_BOOLECTOR b e0
  BTOR_ABORT_REFS_NOT_POS_BOOLECTOR b e1
  let e0 := simplify x b e0
  let e1 := simplify x b e1
  BTOR_ABORT_ARRAY_BOOLECTOR b e0
  BTOR_ABORT_ARRAY_BOOLECTOR b e1
  BTOR_ABORT_NE_BW b e0 e1
  let b := inc_external_refs b
  return call_exp x "btor_nand_exp" b [.node e0, .node e1]

def boolector_or (x : ExpLayer G) (btor : Option (Btor G))
    (e0 e1 : Option BtorRef) : Outcome G (Btor G × BtorRef) := do
  let b ← BTOR_ABORT_ARG_NULL_BOOLECTOR_btor btor
  BTOR_TRAPI (some b)
  let e0 ← BTOR_ABORT_ARG_NULL_BOOLECTOR b e0
  let e1 ← BTOR_ABORT_ARG_NULL_BOOLECTOR b e1
  BTOR_ABORT_REFS_NOT_POS_BOOLECTOR b e0
  BTOR_ABORT_REFS_NOT_POS_BOOLECTOR b e1
  let e0 := simplify x b e0
  let e1 := simplify x b e1
  BTOR_ABORT_ARRAY_BOOLECTOR b e0
  BTOR_ABORT_ARRAY_BOOLECTOR b e1
  BTOR_ABORT_NE_BW b e0 e1
  let b := inc_external_refs b
  return call_exp x "btor_or_exp" b [.node e0, .node e1]

def boolector_nor (x : ExpLayer G) (btor : Option (Btor G))
    (e0 e1 : Option BtorRef) : Outcome G (Btor G × BtorRef) := do
  let b ← BTOR_ABORT_ARG_NULL_BOOLECTOR_btor btor
  BTOR_TRAPI (some b)
  let e0 ← BTOR_ABORT_ARG_NULL_BOOLECTOR b e0
  let e1 ← BTOR_ABORT_ARG_NULL_BOOLECTOR b e1
  BTOR_ABORT_REFS_NOT_POS_BOOLECTOR b e0
  BTOR_ABORT_REFS_NOT_POS_BOOLECTOR b e1
  let e0 := simplify x b e0
  let e1 := simplify x b e1
  BTOR_ABORT_ARRAY_BOOLECTOR b e0
  BTOR_ABORT_ARRAY_BOOLECTOR b e1
  BTOR_ABORT_NE_BW b e0 e1
  let b := inc_external_refs b
  return call_exp x "btor_nor_exp" b [.node e0, .node e1]

def boolector_eq (x : ExpLayer G) (btor : Option (Btor G))
    (e0 e1 : Option BtorRef) : Outcome G (Btor G × BtorRef) := do
  let b ← BTOR_ABORT_ARG_NULL_BOOLECTOR_btor btor
  BTOR_TRAPI (some b)
  let e0 ← BTOR_ABORT_ARG_NULL_BOOLECTOR b e0
  let e1 ← BTOR_ABORT_ARG_NULL_BOOLECTOR b e1
  BTOR_ABORT_REFS_NOT_POS_BOOLECTOR b e0
  BTOR_ABORT_REFS_NOT_POS_BOOLECTOR b e1
  let e0 := simplify x b e0
  let e1 := simplify x b e1
  let real_e0 := BTOR_REAL_ADDR_NODE e0
  let real_e1 := BTOR_REAL_ADDR_NODE e1
  let is_array_e0 := real_e0.is_array
  let is_array_e1 := real_e1.is_array
  BTOR_ABORT_BOOLECTOR b (is_array_e0 != is_array_e1)
    "array must not be compared to bit-vector"
  -- the conjuncts real_e0 && real_e1 of the source hold: both pointers are non-null here
  BTOR_ABORT_BOOLECTOR b (!is_array_e0 && real_e0.len != real_e1.len)
    "bit-vectors must not have unequal bit-width"
  BTOR_ABORT_BOOLECTOR b (is_array_e0 && real_e0.len != real_e1.len)
    "arrays must not have unequal element bit-width"
  BTOR_ABORT_BOOLECTOR b (is_array_e0 && real_e0.index_len != real_e1.index_len)
    "arrays must not have unequal index bit-width"
  let b := inc_external_refs b
  return call_exp x "btor_eq_exp" b [.node e0, .node e1]

def boolector_ne (x : ExpLayer G) (btor : Option (Btor G))
    (e0 e1 : Option BtorRef) : Outcome G (Btor G × BtorRef) := do
  let b ← BTOR_ABORT_ARG_NULL_BOOLECTOR_btor btor
  BTOR_TRAPI (some b)
  let e0 ← BTOR_ABORT_ARG_NULL_BOOLECTOR b e0
  let e1 ← BTOR_ABORT_ARG_NULL_BOOLECTOR b e1
  BTOR_ABORT_REFS_NOT_POS_BOOLECTOR b e0
  BTOR_ABORT_REFS_NOT_POS_BOOLECTOR b e1
  let e0 := simplify x b e0
  let e1 := simplify x b e1
  let real_e0 := BTOR_REAL_ADDR_NODE e0
  let real_e1 := BTOR_REAL_ADDR_NODE e1
  let is_array_e0 := real_e0.is_array
  let is_array_e1 := real_e1.is_array
  BTOR_ABORT_BOOLECTOR b (is_array_e0 != is_array_e1)
    "array must not be compared to bit-vector"
  BTOR_ABORT_BOOLECTOR b (is_array_e0 && real_e0.len != real_e1.len)
    "arrays must not have unequal element bit-width"
  BTOR_ABORT_BOOLECTOR b (is_array_e0 && real_e0.index_len != real_e1.index_len)
    "arrays must not have unequal index bit-width"
  let b := inc_external_refs b
  return call_exp x "btor_ne_exp" b [.node e0, .node e1]

def boolector_add (x : ExpLayer G) (btor : Option (Btor G))
    (e0 e1 : Option BtorRef) : Outcome G (Btor G × BtorRef) := do
  let b ← BTOR_ABORT_ARG_NULL_BOOLECTOR_btor btor
  BTOR_TRAPI (some b)
  let e0 ← BTOR_ABORT_ARG_NULL_BOOLECTOR b e0
  let e1 ← BTOR_ABORT_ARG_NULL_BOOLECTOR b e1
  BTOR_ABORT_REFS_NOT_POS_BOOLECTOR b e0
  BTOR_ABORT_REFS_NOT_POS_BOOLECTOR b e1
  let e0 := simplify x b e0
  let e1 := simplify x b e1
  BTOR_ABORT_ARRAY_BOOLECTOR b e0
  BTOR_ABORT_ARRAY_BOOLECTOR b e1
  BTOR_ABORT_NE_BW b e0 e1
  let b := inc_external_refs b
  return call_exp x "btor_add_exp" b [.node e0, .node e1]

def boolector_uaddo (x : ExpLayer G) (btor : Option (Btor G))
    (e0 e1 : Option BtorRef) : Outcome G (Btor G × BtorRef) := do
  let b ← BTOR_ABORT_ARG_NULL_BOOLECTOR_btor btor
  BTOR_TRAPI (some b)
  let e0 ← BTOR_ABORT_ARG_NULL_BOOLECTOR b e0
  let e1 ← BTOR_ABORT_ARG_NULL_BOOLECTOR b e1
  BTOR_ABORT_REFS_NOT_POS_BOOLECTOR b e0
  BTOR_ABORT_REFS_NOT_POS_BOOLECTOR b e1
  let e0 := simplify x b e0
  let e1 := simplify x b e1
  BTOR_ABORT_ARRAY_BOOLECTOR b e0
  BTOR_ABORT_ARRAY_BOOLECTOR b e1
  BTOR_ABORT_NE_BW b e0 e1
  let b := inc_external_refs b
  return call_exp x "btor_uaddo_exp" b [.node e0, .node e1]

def boolector_saddo (x : ExpLayer G) (btor : Option (Btor G))
    (e0 e1 : Option BtorRef) : Outcome G (Btor G × BtorRef) := do
  let b ← BTOR_ABORT_ARG_NULL_BOOLECTOR_btor btor
  BTOR_TRAPI (some b)
  let e0 ← BTOR_ABORT_ARG_NULL_BOOLECTOR b e0
  let e1 ← BTOR_ABORT_ARG_NULL_BOOLECTOR b e1
  BTOR_ABORT_REFS_NOT_POS_BOOLECTOR b e0
  BTOR_ABORT_REFS_NOT_POS_BOOLECTOR b e1
  let e0 := simplify x b e0
  let e1 := simplify x b e1
  BTOR_ABORT_ARRAY_BOOLECTOR b e0
  BTOR_ABORT_ARRAY_BOOLECTOR b e1
  BTOR_ABORT_NE_BW b e0 e1
  let b := inc_external_refs b
  return call_exp x "btor_saddo_exp" b [.node e0, .node e1]

def boolector_mul (x : ExpLayer G) (btor : Option (Btor G))
    (e0 e1 : Option BtorRef) : Outcome G (Btor G × BtorRef) := do
  let b ← BTOR_ABORT_ARG_NULL_BOOLECTOR_btor btor
  BTOR_TRAPI (some b)
  let e0 ← BTOR_ABORT_ARG_NULL_BOOLECTOR b e0
  let e1 ← BTOR_ABORT_ARG_NULL_BOOLECTOR b e1
  BTOR_ABORT_REFS_NOT_POS_BOOLECTOR b e0
  BTOR_ABORT_REFS_NOT_POS_BOOLECTOR b e1
  let e0 := simplify x b e0
  let e1 := simplify x b e1
  BTOR_ABORT_ARRAY_BOOLECTOR b e0
  BTOR_ABORT_ARRAY_BOOLECTOR b e1
  BTOR_ABORT_NE_BW b e0 e1
  let b := inc_external_refs b
  return call_exp x "btor_mul_exp" b [.node e0, .node e1]

def boolector_umulo (x : ExpLayer G) (btor : Option (Btor G))
    (e0 e1 : Option BtorRef) : Outcome G (Btor G × BtorRef) := do
  let b ← BTOR_ABORT_ARG_NULL_BOOLECTOR_btor btor
  BTOR_TRAPI (some b)
  let e0 ← BTOR_ABORT_ARG_NULL_BOOLECTOR b e0
  let e1 ← BTOR_ABORT_ARG_NULL_BOOLECTOR b e1
  BTOR_ABORT_REFS_NOT_POS_BOOLECTOR b e0
  BTOR_ABORT_REFS_NOT_POS_BOOLECTOR b e1
  let e0 := simplify x b e0
  let e1 := simplify x b e1
  BTOR_ABORT_ARRAY_BOOLECTOR b e0
  BTOR_ABORT_ARRAY_BOOLECTOR b e1
  BTOR_ABORT_NE_BW b e0 e1
  let b := inc_external_refs b
  return call_exp x "btor_umulo_exp" b [.node e0, .node e1]

def boolector_smulo (x : ExpLayer G) (btor : Option (Btor G))
    (e0 e1 : Option BtorRef) : Outcome G (Btor G × BtorRef) := do
  let b ← BTOR_ABORT_ARG_NULL_BOOLECTOR_btor btor
  BTOR_TRAPI (some b)
  let e0 ← BTOR_ABORT_ARG_NULL_BOOLECTOR b e0
  let e1 ← BTOR_ABORT_ARG_NULL_BOOLECTOR b e1
  let e1 ← BTOR_ABORT_ARG_NULL_BOOLECTOR b (some e1)
  BTOR_ABORT_REFS_NOT_POS_BOOLECTOR b e0
  BTOR_ABORT_REFS_NOT_POS_BOOLECTOR b e1
  let e0 := simplify x b e0
  let e1 := simplify x b e1
  BTOR_ABORT_ARRAY_BOOLECTOR b e0
  BTOR_ABORT_ARRAY_BOOLECTOR b e1
  BTOR_ABORT_NE_BW b e0 e1
  let b := inc_external_refs b
  return call_exp x "btor_smulo_exp" b [.node e0, .node e1]

def boolector_ult (x : ExpLayer G) (btor : Option (Btor G))
    (e0 e1 : Option BtorRef) : Outcome G (Btor G × BtorRef) := do
  let b ← BTOR_ABORT_ARG_NULL_BOOLECTOR_btor btor
  BTOR_TRAPI (some b)
  let e0 ← BTOR_ABORT_ARG_NULL_BOOLECTOR b e0
  let e1 ← BTOR_ABORT_ARG_NULL_BOOLECTOR b e1
  BTOR_ABORT_REFS_NOT_POS_BOOLECTOR b e0
  BTOR_ABORT_REFS_NOT_POS_BOOLECTOR b e1
  let e0 := simplify x b e0
  let e1 := simplify x b e1
  BTOR_ABORT_ARRAY_BOOLECTOR b e0
  BTOR_ABORT_ARRAY_BOOLECTOR b e1
  BTOR_ABORT_NE_BW b e0 e1
  let b := inc_external_refs b
  return call_exp x "btor_ult_exp" b [.node e0, .node e1]

def boolector_slt (x : ExpLayer G) (btor : Option (Btor G))
    (e0 e1 : Option BtorRef) : Outcome G (Btor G × BtorRef) := do
  let b ← BTOR_ABORT_ARG_NULL_BOOLECTOR_btor btor
  BTOR_TRAPI (some b)
  let e0 ← BTOR_ABORT_ARG_NULL_BOOLECTOR b e0
  let e1 ← BTOR_ABORT_ARG_NULL_BOOLECTOR b e1
  BTOR_ABORT_REFS_NOT_POS_BOOLECTOR b e0
  BTOR_ABORT_REFS_NOT_POS_BOOLECTOR b e1
  let e0 := simplify x b e0
  let e1 := simplify x b e1
  BTOR_ABORT_ARRAY_BOOLECTOR b e0
  BTOR_ABORT_ARRAY_BOOLECTOR b e1
  BTOR_ABORT_NE_BW b e0 e1
  let b := inc_external_refs b
  return call_exp x "btor_slt_exp" b [.node e0, .node e1]

def boolector_ulte (x : ExpLayer G) (btor : Option (Btor G))
    (e0 e1 : Option BtorRef) : Outcome G (Btor G × BtorRef) := do
  let b ← BTOR_ABORT_ARG_NULL_BOOLECTOR_btor btor
  BTOR_TRAPI (some b)
  let e0 ← BTOR_ABORT_ARG_NULL_BOOLECTOR b e0
  let e1 ← BTOR_ABORT_ARG_NULL_BOOLECTOR b e1
  BTOR_ABORT_REFS_NOT_POS_BOOLECTOR b e0
  BTOR_ABORT_REFS_NOT_POS_BOOLECTOR b e1
  let e0 := simplify x b e0
  let e1 := simplify x b e1
  BTOR_ABORT_ARRAY_BOOLECTOR b e0
  BTOR_ABORT_ARRAY_BOOLECTOR b e1
  BTOR_ABORT_NE_BW b e0 e1
  let b := inc_external_refs b
  return call_exp x "btor_ulte_exp" b [.node e0, .node e1]

def boolector_slte (x : ExpLayer G) (btor : Option (Btor G))
    (e0 e1 : Option BtorRef) : Outcome G (Btor G × BtorRef) := do
  let b ← BTOR_ABORT_ARG_NULL_BOOLECTOR_btor btor
  BTOR_TRAPI (some b)
  let e0 ← BTOR_ABORT_ARG_NULL_BOOLECTOR b e0
  let e1 ← BTOR_ABORT_ARG_NULL_BOOLECTOR b e1
  BTOR_ABORT_REFS_NOT_POS_BOOLECTOR b e0
  BTOR_ABORT_REFS_NOT_POS_BOOLECTOR b e1
  let e0 := simplify x b e0
  let e1 := simplify x b e1
  BTOR_ABORT_ARRAY_BOOLECTOR b e0
  BTOR_ABORT_ARRAY_BOOLECTOR b e1
  BTOR_ABORT_NE_BW b e0 e1
  let b := inc_external_refs b
  return call_exp x "btor_slte_exp" b [.node e0, .node e1]

def boolector_ugt (x : ExpLayer G) (btor : Option (Btor G))
    (e0 e1 : Option BtorRef) : Outcome G (Btor G × BtorRef) := do
  let b ← BTOR_ABORT_ARG_NULL_BOOLECTOR_btor btor
  BTOR_TRAPI (some b)
  let e0 ← BTOR_ABORT_ARG_NULL_BOOLECTOR b e0
  let e1 ← BTOR_ABORT_ARG_NULL_BOOLECTOR b e1
  BTOR_ABORT_REFS_NOT_POS_BOOLECTOR b e0
  BTOR_ABORT_REFS_NOT_POS_BOOLECTOR b e1
  let e0 := simplify x b e0
  let e1 := simplify x b e1
  BTOR_ABORT_ARRAY_BOOLECTOR b e0
  BTOR_ABORT_ARRAY_BOOLECTOR b e1
  BTOR_ABORT_NE_BW b e0 e1
  let b := inc_external_refs b
  return call_exp x "btor_ugt_exp" b [.node e0, .node e1]

def boolector_sgt (x : ExpLayer G) (btor : Option (Btor G))
    (e0 e1 : Option BtorRef) : Outcome G (Btor G × BtorRef) := do
  let b ← BTOR_ABORT_ARG_NULL_BOOLECTOR_btor btor
  BTOR_TRAPI (some b)
  let e0 ← BTOR_ABORT_ARG_NULL_BOOLECTOR b e0
  let e1 ← BTOR_ABORT_ARG_NULL_BOOLECTOR b e1
  BTOR_ABORT_REFS_NOT_POS_BOOLECTOR b e0
  BTOR_ABORT_REFS_NOT_POS_BOOLECTOR b e1
  let e0 := simplify x b e0
  let e1 := simplify x b e1
  BTOR_ABORT_ARRAY_BOOLECTOR b e0
  BTOR_ABORT_ARRAY_BOOLECTOR b e1
  BTOR_ABORT_NE_BW b e0 e1
  let b := inc_external_refs b
  return call_exp x "btor_sgt_exp" b [.node e0, .node e1]

def boolector_ugte (x : ExpLayer G) (btor : Option (Btor G))
    (e0 e1 : Option BtorRef) : Outcome G (Btor G × BtorRef) := do
  let b ← BTOR_ABORT_ARG_NULL_BOOLECTOR_btor btor
  BTOR_TRAPI (some b)
  let e0 ← BTOR_ABORT_ARG_NULL_BOOLECTOR b e0
  let e1 ← BTOR_ABORT_ARG_NULL_BOOLECTOR b e1
  BTOR_ABORT_REFS_NOT_POS_BOOLECTOR b e0
  BTOR_ABORT_REFS_NOT_POS_BOOLECTOR b e1
  let e0 := simplify x b e0
  let e1 := simplify x b e1
  BTOR_ABORT_ARRAY_BOOLECTOR b e0
  BTOR_ABORT_ARRAY_BOOLECTOR b e1
  BTOR_ABORT_NE_BW b e0 e1
  let b := inc_external_refs b
  return call_exp x "btor_ugte_exp" b [.node e0, .node e1]

def boolector_sgte (x : ExpLayer G) (btor : Option (Btor G))
    (e0 e1 : Option BtorRef) : Outcome G (Btor G × BtorRef) := do
  let b ← BTOR_ABORT_ARG_NULL_BOOLECTOR_btor btor
  BTOR_TRAPI (some b)
  let e0 ← BTOR_ABORT_ARG_NULL_BOOLECTOR b e0
  let e1 ← BTOR_ABORT_ARG_NULL_BOOLECTOR b e1
  BTOR_ABORT_REFS_NOT_POS_BOOLECTOR b e0
  BTOR_ABORT_REFS_NOT_POS_BOOLECTOR b e1
  let e0 := simplify x b e0
  let e1 := simplify x b e1
  BTOR_ABORT_ARRAY_BOOLECTOR b e0
  BTOR_ABORT_ARRAY_BOOLECTOR b e1
  BTOR_ABORT_NE_BW b e0 e1
  let b := inc_external_refs b
  return call_exp x "btor_sgte_exp" b [.node e0, .node e1]

def boolector_sll (x : ExpLayer G) (btor : Option (Btor G))
    (e0 e1 : Option BtorRef) : Outcome G (Btor G × BtorRef) := do
  let b ← BTOR_ABORT_ARG_NULL_BOOLECTOR_btor btor
  BTOR_TRAPI (some b)
  let e0 ← BTOR_ABORT_ARG_NULL_BOOLECTOR b e0
  let e1 ← BTOR_ABORT_ARG_NULL_BOOLECTOR b e1
  BTOR_ABORT_REFS_NOT_POS_BOOLECTOR b e0
  BTOR_ABORT_REFS_NOT_POS_BOOLECTOR b e1
  let e0 := simplify x b e0
  let e1 := simplify x b e1
  BTOR_ABORT_ARRAY_BOOLECTOR b e0
  BTOR_ABORT_ARRAY_BOOLECTOR b e1
  let len := (BTOR_REAL_ADDR_NODE e0).len
  BTOR_ABORT_BOOLECTOR b (!btor_is_power_of_2_util len)
    "bit-width of e0 must be a power of 2"
  BTOR_ABORT_BOOLECTOR b (btor_log_2_util len != (BTOR_REAL_ADDR_NODE e1).len)
    "bit-width of e1 must be equal to log2(bit-width of e0)"
  let b := inc_external_refs b
  return call_exp x "btor_sll_exp" b [.node e0, .node e1]

def boolector_srl (x : ExpLayer G) (btor : Option (Btor G))
    (e0 e1 : Option BtorRef) : Outcome G (Btor G × BtorRef) := do
  let b ← BTOR_ABORT_ARG_NULL_BOOLECTOR_btor btor
  BTOR_TRAPI (some b)
  let e0 ← BTOR_ABORT_ARG_NULL_BOOLECTOR b e0
  let e1 ← BTOR_ABORT_ARG_NULL_BOOLECTOR b e1
  BTOR_ABORT_REFS_NOT_POS_BOOLECTOR b e0
  BTOR_ABORT_REFS_NOT_POS_BOOLECTOR b e1
  let e0 := simplify x b e0
  let e1 := simplify x b e1
  BTOR_ABORT_ARRAY_BOOLECTOR b e0
  BTOR_ABORT_ARRAY_BOOLECTOR b e1
  let len := (BTOR_REAL_ADDR_NODE e0).len
  BTOR_ABORT_BOOLECTOR b (!btor_is_power_of_2_util len)
    "bit-width of e0 must be a power of 2"
  BTOR_ABORT_BOOLECTOR b (btor_log_2_util len != (BTOR_REAL_ADDR_NODE e1).len)
    "bit-width of e1 must be equal to log2(bit-width of e0)"
  let b := inc_external_refs b
  return call_exp x "btor_srl_exp" b [.node e0, .node e1]

def boolector_sra (x : ExpLayer G) (btor : Option (Btor G))
    (e0 e1 : Option BtorRef) : Outcome G (Btor G × BtorRef) := do
  let b ← BTOR_ABORT_ARG_NULL_BOOLECTOR_btor btor
  BTOR_TRAPI (some b)
  let e0 ← BTOR_ABORT_ARG_NULL_BOOLECTOR b e0
  let e1 ← BTOR_ABORT_ARG_NULL_BOOLECTOR b e1
  BTOR_ABORT_REFS_NOT_POS_BOOLECTOR b e0
  BTOR_ABORT_REFS_NOT_POS_BOOLECTOR b e1
  let e0 := simplify x b e0
  let e1 := simplify x b e1
  BTOR_ABORT_ARRAY_BOOLECTOR b e0
  BTOR_ABORT_ARRAY_BOOLECTOR b e1
  let len := (BTOR_REAL_ADDR_NODE e0).len
  BTOR_ABORT_BOOLECTOR b (!btor_is_power_of_2_util len)
    "bit-width of e0 must be a power of 2"
  BTOR_ABORT_BOOLECTOR b (btor_log_2_util len != (BTOR_REAL_ADDR_NODE e1).len)
    "bit-width of e1 must be equal to log2(bit-width of e0)"
  let b := inc_external_refs b
  return call_exp x "btor_sra_exp" b [.node e0, .node e1]

def boolector_rol (x : ExpLayer G) (btor : Option (Btor G))
    (e0 e1 : Option BtorRef) : Outcome G (Btor G × BtorRef) := do
  let b ← BTOR_ABORT_ARG_NULL_BOOLECTOR_btor btor
  BTOR_TRAPI (some b)
  let e0 ← BTOR_ABORT_ARG_NULL_BOOLECTOR b e0
  let e1 ← BTOR_ABORT_ARG_NULL_BOOLECTOR b e1
  BTOR_ABORT_REFS_NOT_POS_BOOLECTOR b e0
  BTOR_ABORT_REFS_NOT_POS_BOOLECTOR b e1
  let e0 := simplify x b e0
  let e1 := simplify x b e1
  BTOR_ABORT_ARRAY_BOOLECTOR b e0
  BTOR_ABORT_ARRAY_BOOLECTOR b e1
  let len := (BTOR_REAL_ADDR_NODE e0).len
  BTOR_ABORT_BOOLECTOR b (!btor_is_power_of_2_util len)
    "bit-width of e0 must be a power of 2"
  BTOR_ABORT_BOOLECTOR b (btor_log_2_util len != (BTOR_REAL_ADDR_NODE e1).len)
    "bit-width of e1 must be equal to log2(bit-width of e0)"
  let b := inc_external_refs b
  return call_exp x "btor_rol_exp" b [.node e0, .node e1]

def boolector_ror (x : ExpLayer G) (btor : Option (Btor G))
    (e0 e1 : Option BtorRef) : Outcome G (Btor G × BtorRef) := do
  let b ← BTOR_ABORT_ARG_NULL_BOOLECTOR_btor btor
  BTOR_TRAPI (some b)
  let e0 ← BTOR_ABORT_ARG_NULL_BOOLECTOR b e0
  let e1 ← BTOR_ABORT_ARG_NULL_BOOLECTOR b e1
  BTOR_ABORT_REFS_NOT_POS_BOOLECTOR b e0
  BTOR_ABORT_REFS_NOT_POS_BOOLECTOR b e1
  let e0 := simplify x b e0
  let e1 := simplify x b e1
  BTOR_ABORT_ARRAY_BOOLECTOR b e0
  BTOR_ABORT_ARRAY_BOOLECTOR b e1
  let len := (BTOR_REAL_ADDR_NODE e0).len
  BTOR_ABORT_BOOLECTOR b (!btor_is_power_of_2_util len)
    "bit-width of e0 must be a power of 2"
  BTOR_ABORT_BOOLECTOR b (btor_log_2_util len != (BTOR_REAL_ADDR_NODE e1).len)
    "bit-width of e1 must be equal to log2(bit-width of e0)"
  let b := inc_external_refs b
  return call_exp x "btor_ror_exp" b [.node e0, .node e1]

def boolector_sub (x : ExpLayer G) (btor : Option (Btor G))
    (e0 e1 : Option BtorRef) : Outcome G (Btor G × BtorRef) := do
  let b ← BTOR_ABORT_ARG_NULL_BOOLECTOR_btor btor
  BTOR_TRAPI (some b)
  let e0 ← BTOR_ABORT_ARG_NULL_BOOLECTOR b e0
  let e1 ← BTOR_ABORT_ARG_NULL_BOOLECTOR b e1
  BTOR_ABORT_REFS_NOT_POS_BOOLECTOR b e0
  BTOR_ABORT_REFS_NOT_POS_BOOLECTOR b e1
  let e0 := simplify x b e0
  let e1 := simplify x b e1
  BTOR_ABORT_ARRAY_BOOLECTOR b e0
  BTOR_ABORT_ARRAY_BOOLECTOR b e1
  BTOR_ABORT_NE_BW b e0 e1
  let b := inc_external_refs b
  return call_exp x "btor_sub_exp" b [.node e0, .node e1]

def boolector_usubo (x : ExpLayer G) (btor : Option (Btor G))
    (e0 e1 : Option BtorRef) : Outcome G (Btor G × BtorRef) := do
  let b ← BTOR_ABORT_ARG_NULL_BOOLECTOR_btor btor
  BTOR_TRAPI (some b)
  let e0 ← BTOR_ABORT_ARG_NULL_BOOLECTOR b e0
  let e1 ← BTOR_ABORT_ARG_NULL_BOOLECTOR b e1
  BTOR_ABORT_REFS_NOT_POS_BOOLECTOR b e0
  BTOR_ABORT_REFS_NOT_POS_BOOLECTOR b e1
  let e0 := simplify x b e0
  let e1 := simplify x b e1
  BTOR_ABORT_ARRAY_BOOLECTOR b e0
  BTOR_ABORT_ARRAY_BOOLECTOR b e1
  BTOR_ABORT_NE_BW b e0 e1
  let b := inc_external_refs b
  return call_exp x "btor_usubo_exp" b [.node e0, .node e1]

def boolector_ssubo (x : ExpLayer G) (btor : Option (Btor G))
    (e0 e1 : Option BtorRef) : Outcome G (Btor G × BtorRef) := do
  let b ← BTOR_ABORT_ARG_NULL_BOOLECTOR_btor btor
  BTOR_TRAPI (some b)
  let e0 ← BTOR_ABORT_ARG_NULL_BOOLECTOR b e0
  let e1 ← BTOR_ABORT_ARG_NULL_BOOLECTOR b e1
  BTOR_ABORT_REFS_NOT_POS_BOOLECTOR b e0
  BTOR_ABORT_REFS_NOT_POS_BOOLECTOR b e1
  let e0 := simplify x b e0
  let e1 := simplify x b e1
  BTOR_ABORT_ARRAY_BOOLECTOR b e0
  BTOR_ABORT_ARRAY_BOOLECTOR b e1
  BTOR_ABORT_NE_BW b e0 e1
  let b := inc_external_refs b
  return call_exp x "btor_ssubo_exp" b [.node e0, .node e1]

def boolector_udiv (x : ExpLayer G) (btor : Option (Btor G))
    (e0 e1 : Option BtorRef) : Outcome G (Btor G × BtorRef) := do
  let b ← BTOR_ABORT_ARG_NULL_BOOLECTOR_btor btor
  BTOR_TRAPI (some b)
  let e0 ← BTOR_ABORT_ARG_NULL_BOOLECTOR b e0
  let e1 ← BTOR_ABORT_ARG_NULL_BOOLECTOR b e1
  BTOR_ABORT_REFS_NOT_POS_BOOLECTOR b e0
  BTOR_ABORT_REFS_NOT_POS_BOOLECTOR b e1
  let e0 := simplify x b e0
  let e1 := simplify x b e1
  BTOR_ABORT_ARRAY_BOOLECTOR b e0
  BTOR_ABORT_ARRAY_BOOLECTOR b e1
  BTOR_ABORT_NE_BW b e0 e1
  let b := inc_external_refs b
  return call_exp x "btor_udiv_exp" b [.node e0, .node e1]

def boolector_sdiv (x : ExpLayer G) (btor : Option (Btor G))
    (e0 e1 : Option BtorRef) : Outcome G (Btor G × BtorRef) := do
  let b ← BTOR_ABORT_ARG_NULL_BOOLECTOR_btor btor
  BTOR_TRAPI (some b)
  let e0 ← BTOR_ABORT_ARG_NULL_BOOLECTOR b e0
  let e1 ← BTOR_ABORT_ARG_NULL_BOOLECTOR b e1
  BTOR_ABORT_REFS_NOT_POS_BOOLECTOR b e0
  BTOR_ABORT_REFS_NOT_POS_BOOLECTOR b e1
  let e0 := simplify x b e0
  let e1 := simplify x b e1
  BTOR_ABORT_ARRAY_BOOLECTOR b e0
  BTOR_ABORT_ARRAY_BOOLECTOR b e1
  BTOR_ABORT_NE_BW b e0 e1
  let b := inc_external_refs b
  return call_exp x "btor_sdiv_exp" b [.node e0, .node e1]

def boolector_sdivo (x : ExpLayer G) (btor : Option (Btor G))
    (e0 e1 : Option BtorRef) : Outcome G (Btor G × BtorRef) := do
  let b ← BTOR_ABORT_ARG_NULL_BOOLECTOR_btor btor
  BTOR_TRAPI (some b)
  let e0 ← BTOR_ABORT_ARG_NULL_BOOLECTOR b e0
  let e1 ← BTOR_ABORT_ARG_NULL_BOOLECTOR b e1
  BTOR_ABORT_REFS_NOT_POS_BOOLECTOR b e0
  BTOR_ABORT_REFS_NOT_POS_BOOLECTOR b e1
  let e0 := simplify x b e0
  let e1 := simplify x b e1
  BTOR_ABORT_ARRAY_BOOLECTOR b e0
  BTOR_ABORT_ARRAY_BOOLECTOR b e1
  BTOR_ABORT_NE_BW b e0 e1
  let b := inc_external_refs b
  return call_exp x "btor_sdivo_exp" b [.node e0, .node e1]

def boolector_urem (x : ExpLayer G) (btor : Option (Btor G))
    (e0 e1 : Option BtorRef) : Outcome G (Btor G × BtorRef) := do
  let b ← BTOR_ABORT_ARG_NULL_BOOLECTOR_btor btor
  BTOR_TRAPI (some b)
  let e0 ← BTOR_ABORT_ARG_NULL_BOOLECTOR b e0
  let e1 ← BTOR_ABORT_ARG_NULL_BOOLECTOR b e1
  BTOR_ABORT_REFS_NOT_POS_BOOLECTOR b e0
  BTOR_ABORT_REFS_NOT_POS_BOOLECTOR b e1
  let e0 := simplify x b e0
  let e1 := simplify x b e1
  BTOR_ABORT_ARRAY_BOOLECTOR b e0
  BTOR_ABORT_ARRAY_BOOLECTOR b e1
  BTOR_ABORT_NE_BW b e0 e1
  let b := inc_external_refs b
  return call_exp x "btor_urem_exp" b [.node e0, .node e1]

def boolector_srem (x : ExpLayer G) (btor : Option (Btor G))
    (e0 e1 : Option BtorRef) : Outcome G (Btor G × BtorRef) := do
  let b ← BTOR_ABORT_ARG_NULL_BOOLECTOR_btor btor
  BTOR_TRAPI (some b)
  let e0 ← BTOR_ABORT_ARG_NULL_BOOLECTOR b e0
  let e1 ← BTOR_ABORT_ARG_NULL_BOOLECTOR b e1
  BTOR_ABORT_REFS_NOT_POS_BOOLECTOR b e0
  BTOR_ABORT_REFS_NOT_POS_BOOLECTOR b e1
  let e0 := simplify x b e0
  let e1 := simplify x b e1
  BTOR_ABORT_ARRAY_BOOLECTOR b e0
  BTOR_ABORT_ARRAY_BOOLECTOR b e1
  BTOR_ABORT_NE_BW b e0 e1
  let b := inc_external_refs b
  return call_exp x "btor_srem_exp" b [.node e0, .node e1]

def boolector_smod (x : ExpLayer G) (btor : Option (Btor G))
    (e0 e1 : Option BtorRef) : Outcome G (Btor G × BtorRef) := do
  let b ← BTOR_ABORT_ARG_NULL_BOOLECTOR_btor btor
  BTOR_TRAPI (some b)
  let e0 ← BTOR_ABORT_ARG_NULL_BOOLECTOR b e0
  let e1 ← BTOR_ABORT_ARG_NULL_BOOLECTOR b e1
  BTOR_ABORT_REFS_NOT_POS_BOOLECTOR b e0
  BTOR_ABORT_REFS_NOT_POS_BOOLECTOR b e1
  let e0 := simplify x b e0
  let e1 := simplify x b e1
  BTOR_ABORT_ARRAY_BOOLECTOR b e0
  BTOR_ABORT_ARRAY_BOOLECTOR b e1
  BTOR_ABORT_NE_BW b e0 e1
  let b := inc_external_refs b
  return call_exp x "btor_smod_exp" b [.node e0, .node e1]

def boolector_concat (x : ExpLayer G) (btor : Option (Btor G))
    (e0 e1 : Option BtorRef) : Outcome G (Btor G × BtorRef) := do
  let b ← BTOR_ABORT_ARG_NULL_BOOLECTOR_btor btor
  BTOR_TRAPI (some b)
  let e0 ← BTOR_ABORT_ARG_NULL_BOOLECTOR b e0
  let e1 ← BTOR_ABORT_ARG_NULL_BOOLECTOR b e1
  BTOR_ABORT_REFS_NOT_POS_BOOLECTOR b e0
  BTOR_ABORT_REFS_NOT_POS_BOOLECTOR b e1
  let e0 := simplify x b e0
  let e1 := simplify x b e1
  BTOR_ABORT_ARRAY_BOOLECTOR b e0
  BTOR_ABORT_ARRAY_BOOLECTOR b e1
  BTOR_ABORT_BOOLECTOR b
    ((BTOR_REAL_ADDR_NODE e0).len > wrap32 (INT_MAX - (BTOR_REAL_ADDR_NODE e1).len))
    "bit-width of result is too large"
  let b := inc_external_refs b
  return call_exp x "btor_concat_exp" b [.node e0, .node e1]

/-! ## Arrays, conditional, functions -/

/-- The source reads `e_array->index_len` through the pointer as passed: an
array reference carries no negation tag, so this is the field of the node at
the real address. -/
def boolector_read (x : ExpLayer G) (btor : Option (Btor G))
    (e_array e_index : Option BtorRef) : Outcome G (Btor G × BtorRef) := do
  BTOR_TRAPI btor
  let b ← BTOR_ABORT_ARG_NULL_BOOLECTOR_btor btor
  let e_array ← BTOR_ABORT_ARG_NULL_BOOLECTOR b e_array
  let e_index ← BTOR_ABORT_ARG_NULL_BOOLECTOR b e_index
  BTOR_ABORT_REFS_NOT_POS_BOOLECTOR b e_array
  BTOR_ABORT_REFS_NOT_POS_BOOLECTOR b e_index
  let e_array := simplify x b e_array
  let e_index := simplify x b e_index
  BTOR_ABORT_BV_BOOLECTOR b e_array
  BTOR_ABORT_ARRAY_BOOLECTOR b e_index
  BTOR_ABORT_BOOLECTOR b (e_array.node.index_len != (BTOR_REAL_ADDR_NODE e_index).len)
    "index bit-width of e_array and bit-width of e_index must not be unequal"
  let b := inc_external_refs b
  return call_exp x "btor_read_exp" b [.node e_array, .node e_index]

def boolector_write (x : ExpLayer G) (btor : Option (Btor G))
    (e_array e_index e_value : Option BtorRef) : Outcome G (Btor G × BtorRef) := do
  let b ← BTOR_ABORT_ARG_NULL_BOOLECTOR_btor btor
  BTOR_TRAPI (some b)
  let e_array ← BTOR_ABORT_ARG_NULL_BOOLECTOR b e_array
  let e_index ← BTOR_ABORT_ARG_NULL_BOOLECTOR b e_index
  let e_value ← BTOR_ABORT_ARG_NULL_BOOLECTOR b e_value
  BTOR_ABORT_REFS_NOT_POS_BOOLECTOR b e_array
  BTOR_ABORT_REFS_NOT_POS_BOOLECTOR b e_index
  BTOR_ABORT_REFS_NOT_POS_BOOLECTOR b e_value
  let e_array := simplify x b e_array
  let e_index := simplify x b e_index
  let e_value := simplify x b e_value
  BTOR_ABORT_BV_BOOLECTOR b e_array
  BTOR_ABORT_ARRAY_BOOLECTOR b e_index
  BTOR_ABORT_ARRAY_BOOLECTOR b e_value
  BTOR_ABORT_BOOLECTOR b (e_array.node.index_len != (BTOR_REAL_ADDR_NODE e_index).len)
    "index bit-width of e_array and bit-width of e_index must not be unequal"
  BTOR_ABORT_BOOLECTOR b (e_array.node.len != (BTOR_REAL_ADDR_NODE e_value).len)
    "element bit-width of e_array and bit-width of e_value must not be unequal"
  let b := inc_external_refs b
  return call_exp x "btor_write_exp" b [.node e_array, .node e_index, .node e_value]

def boolector_cond (x : ExpLayer G) (btor : Option (Btor G))
    (e_cond e_if e_else : Option BtorRef) : Outcome G (Btor G × BtorRef) := do
  let b ← BTOR_ABORT_ARG_NULL_BOOLECTOR_btor btor
  BTOR_TRAPI (some b)
  let e_cond ← BTOR_ABORT_ARG_NULL_BOOLECTOR b e_cond
  let e_if ← BTOR_ABORT_ARG_NULL_BOOLECTOR b e_if
  let e_else ← BTOR_ABORT_ARG_NULL_BOOLECTOR b e_else
  BTOR_ABORT_REFS_NOT_POS_BOOLECTOR b e_cond
  BTOR_ABORT_REFS_NOT_POS_BOOLECTOR b e_if
  BTOR_ABORT_REFS_NOT_POS_BOOLECTOR b e_else
  let e_cond := simplify x b e_cond
  let e_if := simplify x b e_if
  let e_else := simplify x b e_else
  BTOR_ABORT_ARRAY_BOOLECTOR b e_cond
  BTOR_ABORT_BOOLECTOR b ((BTOR_REAL_ADDR_NODE e_cond).len != 1)
    "bit-width of e_cond must be equal to 1"
  let real_e_if := BTOR_REAL_ADDR_NODE e_if
  let real_e_else := BTOR_REAL_ADDR_NODE e_else
  let is_array_e_if := real_e_if.is_array
  let is_array_e_else := real_e_else.is_array
  BTOR_ABORT_BOOLECTOR b (is_array_e_if != is_array_e_else)
    "array must not be combined with bit-vector"
  -- the conjuncts real_e_if && real_e_else of the source hold: both pointers are non-null here
  BTOR_ABORT_BOOLECTOR b (!is_array_e_if && real_e_if.len != real_e_else.len)
    "bit-vectors must not have unequal bit-width"
  BTOR_ABORT_BOOLECTOR b (is_array_e_if && real_e_if.len != real_e_else.len)
    "arrays must not have unequal element bit-width"
  BTOR_ABORT_BOOLECTOR b (is_array_e_if && real_e_if.index_len != real_e_else.index_len)
    "arrays must not have unequal index bit-width"
  let b := inc_external_refs b
  return call_exp x "btor_cond_exp" b [.node e_cond, .node e_if, .node e_else]

def boolector_lambda (x : ExpLayer G) (btor : Option (Btor G))
    (param exp : Option BtorRef) : Outcome G (Btor G × BtorRef) := do
  let b ← BTOR_ABORT_ARG_NULL_BOOLECTOR_btor btor
  let param ← BTOR_ABORT_ARG_NULL_BOOLECTOR b param
  let exp ← BTOR_ABORT_ARG_NULL_BOOLECTOR b exp
  BTOR_ABORT_REFS_NOT_POS_BOOLECTOR b param
  BTOR_ABORT_REFS_NOT_POS_BOOLECTOR b exp
  BTOR_ABORT_BOOLECTOR b (!(BTOR_REAL_ADDR_NODE param).is_param)
    "param must be a parameter"
  let b := inc_external_refs b
  return call_exp x "btor_lambda_exp" b [.node param, .node exp]

def boolector_param (x : ExpLayer G) (btor : Option (Btor G))
    (width : Int) (symbol : Option String) : Outcome G (Btor G × BtorRef) := do
  let b ← BTOR_ABORT_ARG_NULL_BOOLECTOR_btor btor
  match symbol with
  | none =>
    -- sprintf (symb, "DPN%d", btor->dpn_id++)
    let symb := "DPN" ++ toString b.dpn_id
    let b := { b with dpn_id := b.dpn_id + 1 }
    BTOR_TRAPI (some b)
    BTOR_ABORT_BOOLECTOR b (width < 1) "width must not be < 1"
    let b := inc_external_refs b
    return call_exp x "btor_param_exp" b [.int width, .str symb]
  | some symbol =>
    BTOR_TRAPI (some b)
    BTOR_ABORT_BOOLECTOR b (width < 1) "width must not be < 1"
    let b := inc_external_refs b
    return call_exp x "btor_param_exp" b [.int width, .str symbol]

/-- The loop `for (i = 0; i < paramc; i++)` of `boolector_fun`, started at
index `i` with `n` iterations to go.  The array `params` is the list of its
entries; a read past its end is a fault. -/
def boolector_fun_loop (b : Btor G) (params : List (Option BtorRef)) :
    Nat → Nat → Outcome G Unit
  | _, 0 => .ok ()
  | i, n + 1 =>
    match params.get? i with
    | none => .fault
    | some none => .abort (some b) "params[i] is not a parameter"
    | some (some p) => do
      BTOR_ABORT_BOOLECTOR b (!(BTOR_REAL_ADDR_NODE p).is_param)
        "params[i] is not a parameter"
      BTOR_ABORT_REFS_NOT_POS_BOOLECTOR b p
      boolector_fun_loop b params (i + 1) n

def boolector_fun (x : ExpLayer G) (btor : Option (Btor G)) (paramc : Int)
    (params : Option (List (Option BtorRef))) (exp : Option BtorRef) :
    Outcome G (Btor G × BtorRef) := do
  let b ← BTOR_ABORT_ARG_NULL_BOOLECTOR_btor btor
  let params ← BTOR_ABORT_ARG_NULL_BOOLECTOR b params
  let exp ← BTOR_ABORT_ARG_NULL_BOOLECTOR b exp
  BTOR_ABORT_REFS_NOT_POS_BOOLECTOR b exp
  BTOR_ABORT_BOOLECTOR b (paramc < 1) "paramc must not be < 1"
  boolector_fun_loop b params 0 paramc.toNat
  BTOR_TRAPI (some b)
  let b := inc_external_refs b
  return call_exp x "btor_fun_exp" b [.int paramc, .nodes params, .node exp]

/-- The loop `for (i = 0; i < argc; i++)` of `boolector_apply`, started at
index `i` with `n` iterations to go: `cur` walks down the bodies `e[1]` of the
nested lambdas, and `args[i]` is read for the trace line.  A read past the end
of `args`, or of a child a node does not have, is a fault. -/
def boolector_apply_loop (b : Btor G) (args : List (Option BtorRef)) :
    BtorNode → Nat → Nat → Outcome G Unit
  | _, _, 0 => .ok ()
  | cur, i, n + 1 => do
    BTOR_ABORT_BOOLECTOR b (!cur.is_lambda)
      "number of arguments muste be <= number of parameters in fun"
    match args.get? i, cur.e.get? 1 with
    | some _, some c => boolector_apply_loop b args c.2 (i + 1) n
    | _, _ => .fault

def boolector_apply (x : ExpLayer G) (btor : Option (Btor G)) (argc : Int)
    (args : Option (List (Option BtorRef))) (fn : Option BtorRef) :
    Outcome G (Btor G × BtorRef) := do
  let b ← BTOR_ABORT_ARG_NULL_BOOLECTOR_btor btor
  let fn ← BTOR_ABORT_ARG_NULL_BOOLECTOR b fn
  BTOR_ABORT_BOOLECTOR b (argc < 1) "argc must not be < 1"
  BTOR_ABORT_BOOLECTOR b (argc >= 1 && args.isNone)
    "no arguments given but argc defined > 0"
  match args with
  | none => .fault -- not reached: argc >= 1 here, so a null args was rejected above
  | some args =>
    boolector_apply_loop b args (BTOR_REAL_ADDR_NODE fn) 0 argc.toNat
    BTOR_TRAPI (some b)
    let b := inc_external_refs b
    return call_exp x "btor_apply_exp" b [.int argc, .nodes args, .node fn]

def boolector_inc (x : ExpLayer G) (btor : Option (Btor G))
    (exp : Option BtorRef) : Outcome G (Btor G × BtorRef) := do
  let b ← BTOR_ABORT_ARG_NULL_BOOLECTOR_btor btor
  BTOR_TRAPI (some b)
  let exp ← BTOR_ABORT_ARG_NULL_BOOLECTOR b exp
  BTOR_ABORT_REFS_NOT_POS_BOOLECTOR b exp
  let exp := simplify x b exp
  BTOR_ABORT_ARRAY_BOOLECTOR b exp
  let b := inc_external_refs b
  return call_exp x "btor_inc_exp" b [.node exp]

def boolector_dec (x : ExpLayer G) (btor : Option (Btor G))
    (exp : Option BtorRef) : Outcome G (Btor G × BtorRef) := do
  let b ← BTOR_ABORT_ARG_NULL_BOOLECTOR_btor btor
  BTOR_TRAPI (some b)
  let exp ← BTOR_ABORT_ARG_NULL_BOOLECTOR b exp
  BTOR_ABORT_REFS_NOT_POS_BOOLECTOR b exp
  let exp := simplify x b exp
  BTOR_ABORT_ARRAY_BOOLECTOR b exp
  let b := inc_external_refs b
  return call_exp x "btor_dec_exp" b [.node exp]

/-! ## Copy and release -/

def boolector_copy (x : ExpLayer G) (btor : Option (Btor G))
    (exp : Option BtorRef) : Outcome G (Btor G × BtorRef) := do
  let b ← BTOR_ABORT_ARG_NULL_BOOLECTOR_btor btor
  BTOR_TRAPI (some b)
  let exp ← BTOR_ABORT_ARG_NULL_BOOLECTOR b exp
  BTOR_ABORT_REFS_NOT_POS_BOOLECTOR b exp
  let b := inc_external_refs b
  return call_exp x "btor_copy_exp" b [.node exp]

def boolector_release (x : ExpLayer G) (btor : Option (Btor G))
    (exp : Option BtorRef) : Outcome G (Btor G) := do
  let b ← BTOR_ABORT_ARG_NULL_BOOLECTOR_btor btor
  BTOR_TRAPI (some b)
  let exp ← BTOR_ABORT_ARG_NULL_BOOLECTOR b exp
  BTOR_ABORT_REFS_NOT_POS_BOOLECTOR b exp
  let b := { b with external_refs := b.external_refs - 1 }
  return { b with graph := x.btor_release_exp b.graph exp }

/-! ## Cloning, constraints, solving and models -/

/-- Modelled from the spec: the result codes `BTOR_UNKNOWN`, `BTOR_SAT` and
`BTOR_UNSAT` of the solver header (absent), with the values the backends use
for the three answers. -/
def BTOR_UNKNOWN : Int := 0

/-- Modelled from the spec: see `BTOR_UNKNOWN`. -/
def BTOR_SAT : Int := 10

/-- Modelled from the spec: see `BTOR_UNKNOWN`. -/
def BTOR_UNSAT : Int := 20

/-- The solver core (absent from the API file), taken as a parameter, as far
as it works on the graph: adding a constraint or an assumption, the search
behind a solve call, reading a model, and copying a solver. -/
structure CoreLayer (G : Type) where
  btor_add_constraint_exp : G → BtorRef → G
  btor_add_assumption_exp : G → BtorRef → G
  search : G → G × Int
  btor_bv_assignment_exp : G → BtorRef → G × String
  btor_array_assignment_exp : G → BtorRef → G × (List String × List String)
  btor_clone_btor : Btor G → Btor G

/-- Modelled from the spec: `btor_enable_inc_usage` of the solver core
(absent): switches incremental usage on. -/
def btor_enable_inc_usage (b : Btor G) : Btor G :=
  { b with inc_enabled := true }

/-- Modelled from the spec: `btor_sat_btor` of the solver core (absent): one
solve call.  It counts the call in `btor_sat_btor_called` and keeps the answer
in `last_sat_result`; the search itself is the parameter. -/
def btor_sat_btor (c : CoreLayer G) (b : Btor G) : Btor G × Int :=
  let r := c.search b.graph
  ({ b with graph := r.1, btor_sat_btor_called := b.btor_sat_btor_called + 1,
            last_sat_result := r.2 }, r.2)

/-- The source traces and hands the pointer on to `btor_clone_btor`; there is
no null check. -/
def boolector_clone (c : CoreLayer G) (btor : Option (Btor G)) :
    Outcome G (Btor G × Btor G) := do
  BTOR_TRAPI btor
  match btor with
  | none => .fault -- not reached: the trace step has read through the pointer
  | some b => return (b, c.btor_clone_btor b)

/-- Modelled from the spec: `btor_set_rewrite_level_btor` of the solver core
(absent) stores the level in the solver. -/
def btor_set_rewrite_level_btor (b : Btor G) (rewrite_level : Int) : Btor G :=
  { b with rewrite_level := rewrite_level }

/-- The parameter `nodes_id_table_count` stands for
`BTOR_COUNT_STACK (btor->nodes_id_table)`, the number of entries of the node
id table, which belongs to the expression graph. -/
def boolector_set_rewrite_level (nodes_id_table_count : G → Int) (btor : Option (Btor G))
    (rewrite_level : Int) : Outcome G (Btor G) := do
  let b ← BTOR_ABORT_ARG_NULL_BOOLECTOR_btor btor
  BTOR_TRAPI (some b)
  BTOR_ABORT_BOOLECTOR b (rewrite_level < 0 || rewrite_level > 3)
    "\x27rewrite_level\x27 has to be in [0,3]"
  BTOR_ABORT_BOOLECTOR b (nodes_id_table_count b.graph > 2)
    "setting rewrite level must be done before creating expressions"
  return btor_set_rewrite_level_btor b rewrite_level

def boolector_enable_inc_usage (btor : Option (Btor G)) : Outcome G (Btor G) := do
  let b ← BTOR_ABORT_ARG_NULL_BOOLECTOR_btor btor
  BTOR_TRAPI (some b)
  BTOR_ABORT_BOOLECTOR b (b.btor_sat_btor_called > 0)
    "enabling incremental usage must be done before calling boolector_sat"
  return btor_enable_inc_usage b

def boolector_assert (x : ExpLayer G) (c : CoreLayer G) (btor : Option (Btor G))
    (exp : Option BtorRef) : Outcome G (Btor G) := do
  let b ← BTOR_ABORT_ARG_NULL_BOOLECTOR_btor btor
  BTOR_TRAPI (some b)
  let exp ← BTOR_ABORT_ARG_NULL_BOOLECTOR b exp
  BTOR_ABORT_REFS_NOT_POS_BOOLECTOR b exp
  let exp := simplify x b exp
  BTOR_ABORT_ARRAY_BOOLECTOR b exp
  BTOR_ABORT_BOOLECTOR b ((BTOR_REAL_ADDR_NODE exp).len != 1)
    "exp must have bit-width one"
  return { b with graph := c.btor_add_constraint_exp b.graph exp }

def boolector_assume (x : ExpLayer G) (c : CoreLayer G) (btor : Option (Btor G))
    (exp : Option BtorRef) : Outcome G (Btor G) := do
  let b ← BTOR_ABORT_ARG_NULL_BOOLECTOR_btor btor
  BTOR_TRAPI (some b)
  BTOR_ABORT_BOOLECTOR b (!b.inc_enabled) "incremental usage has not been enabled"
  let exp ← BTOR_ABORT_ARG_NULL_BOOLECTOR b exp
  BTOR_ABORT_REFS_NOT_POS_BOOLECTOR b exp
  let exp := simplify x b exp
  BTOR_ABORT_ARRAY_BOOLECTOR b exp
  BTOR_ABORT_BOOLECTOR b ((BTOR_REAL_ADDR_NODE exp).len != 1)
    "exp must have bit-width one"
  return { b with graph := c.btor_add_assumption_exp b.graph exp }

def boolector_sat (c : CoreLayer G) (btor : Option (Btor G)) :
    Outcome G (Btor G × Int) := do
  let b ← BTOR_ABORT_ARG_NULL_BOOLECTOR_btor btor
  BTOR_TRAPI (some b)
  BTOR_ABORT_BOOLECTOR b (!b.inc_enabled && b.btor_sat_btor_called > 0)
    "incremental usage has not been enabled. boolector_sat may only be called once"
  let res := btor_sat_btor c b
  return res

def boolector_bv_assignment (x : ExpLayer G) (c : CoreLayer G) (btor : Option (Btor G))
    (exp : Option BtorRef) : Outcome G (Btor G × String) := do
  let b ← BTOR_ABORT_ARG_NULL_BOOLECTOR_btor btor
  BTOR_TRAPI (some b)
  BTOR_ABORT_BOOLECTOR b (b.last_sat_result != BTOR_SAT)
    "cannot retrieve assignment if input formula is not SAT"
  let exp ← BTOR_ABORT_ARG_NULL_BOOLECTOR b exp
  BTOR_ABORT_REFS_NOT_POS_BOOLECTOR b exp
  let exp := simplify x b exp
  BTOR_ABORT_ARRAY_BOOLECTOR b exp
  BTOR_ABORT_BOOLECTOR b (!b.model_gen) "model generation has not been enabled"
  let r := c.btor_bv_assignment_exp b.graph exp
  return ({ b with graph := r.1 }, r.2)

/-- The three output pointers `indices`, `values` and `size` are given by
whether they are null; what the call stores through them is returned. -/
def boolector_array_assignment (x : ExpLayer G) (c : CoreLayer G)
    (btor : Option (Btor G)) (e_array : Option BtorRef)
    (indices values size : Option Unit) :
    Outcome G (Btor G × (List String × List String)) := do
  let b ← BTOR_ABORT_ARG_NULL_BOOLECTOR_btor btor
  BTOR_ABORT_BOOLECTOR b (b.last_sat_result != BTOR_SAT)
    "cannot retrieve assignment if input formula is not SAT"
  let e_array ← BTOR_ABORT_ARG_NULL_BOOLECTOR b e_array
  let _ ← BTOR_ABORT_ARG_NULL_BOOLECTOR b indices
  let _ ← BTOR_ABORT_ARG_NULL_BOOLECTOR b values
  let _ ← BTOR_ABORT_ARG_NULL_BOOLECTOR b size
  BTOR_TRAPI (some b)
  BTOR_ABORT_REFS_NOT_POS_BOOLECTOR b e_array
  let e_array := simplify x b e_array
  BTOR_ABORT_BV_BOOLECTOR b e_array
  BTOR_ABORT_BOOLECTOR b (!b.model_gen) "model generation has not been enabled"
  let r := c.btor_array_assignment_exp b.graph e_array
  return ({ b with graph := r.1 }, r.2)

/-- The solver after `n` further calls of `boolector_sat`, when each of them
returns. -/
def boolector_sat_repeat (c : CoreLayer G) : Nat → Btor G → Outcome G (Btor G)
  | 0, b => .ok b
  | n + 1, b => do
    let r ← boolector_sat c (some b)
    boolector_sat_repeat c n r.1

/-! ## Options, queries, dumps and teardown -/

/-- The functions of the expression layer and of the solver core (absent from
the API file) behind the queries, the dumps, the choice of the SAT solver and
the release of assignments, taken as parameters.  Those that only read give
their answer; the others give the new graph (and their result). -/
structure AuxLayer (G : Type) where
  btor_set_sat_solver : G → String → G × Int
  btor_get_exp_len : G → BtorRef → Int
  btor_is_array_exp : G → BtorRef → Int
  btor_is_lambda_exp : G → BtorRef → Int
  btor_get_lambda_arity : G → BtorRef → Int
  btor_get_index_exp_len : G → BtorRef → Int
  btor_get_symbol_exp : G → BtorRef → String
  btor_dump_exp : G → BtorRef → G
  btor_dump_smt1 : G → BtorRef → G
  btor_dump_smt2 : G → BtorRef → G
  btor_free_bv_assignment_exp : G → String → G

/-- Modelled from the spec: `btor_enable_model_gen` of the solver core
(absent): switches model generation on. -/
def btor_enable_model_gen (b : Btor G) : Btor G :=
  { b with model_gen := true }

/-- The parameter `nodes_id_table_count` stands for
`BTOR_COUNT_STACK (btor->nodes_id_table)`. -/
def boolector_enable_model_gen (nodes_id_table_count : G → Int) (btor : Option (Btor G)) :
    Outcome G (Btor G) := do
  let b ← BTOR_ABORT_ARG_NULL_BOOLECTOR_btor btor
  BTOR_TRAPI (some b)
  BTOR_ABORT_BOOLECTOR b (nodes_id_table_count b.graph > 2)
    "enabling model generation must be done before creating expressions"
  return btor_enable_model_gen b

/-- Modelled from the spec: `btor_generate_model_for_all_reads` of the solver
core (absent): sets the flag of that name. -/
def btor_generate_model_for_all_reads (b : Btor G) : Btor G :=
  { b with generate_model_for_all_reads := true }

/-- The source has no trace step here (`TODO TRAPI`). -/
def boolector_generate_model_for_all_reads (btor : Option (Btor G)) :
    Outcome G (Btor G) := do
  let b ← BTOR_ABORT_ARG_NULL_BOOLECTOR_btor btor
  return btor_generate_model_for_all_reads b

def boolector_set_sat_solver (a : AuxLayer G) (btor : Option (Btor G))
    (solver : Option String) : Outcome G (Btor G × Int) := do
  let b ← BTOR_ABORT_ARG_NULL_BOOLECTOR_btor btor
  BTOR_TRAPI (some b)
  let solver ← BTOR_ABORT_ARG_NULL_BOOLECTOR b solver
  BTOR_ABORT_BOOLECTOR b (b.btor_sat_btor_called > 0)
    "setting the SAT solver must be done before calling \x27boolector_sat\x27"
  let r := a.btor_set_sat_solver b.graph solver
  let res := r.2
  return ({ b with graph := r.1 }, res)

/-- The body of `boolector_delete` up to its closing step.  Closing the trace
file is output only.  `btor_delete_btor` of the solver core (absent) frees
the solver: nothing of it is left when the call returns. -/
def boolector_delete (btor : Option (Btor G)) : Outcome G Unit := do
  let b ← BTOR_ABORT_ARG_NULL_BOOLECTOR_btor btor
  BTOR_TRAPI (some b)
  -- btor_delete_btor (btor)
  return ()

def boolector_get_width (a : AuxLayer G) (btor : Option (Btor G))
    (exp : Option BtorRef) : Outcome G (Btor G × Int) := do
  let b ← BTOR_ABORT_ARG_NULL_BOOLECTOR_btor btor
  BTOR_TRAPI (some b)
  let exp ← BTOR_ABORT_ARG_NULL_BOOLECTOR b exp
  BTOR_ABORT_REFS_NOT_POS_BOOLECTOR b exp
  let res := a.btor_get_exp_len b.graph exp
  return (b, res)

def boolector_is_array (x : ExpLayer G) (a : AuxLayer G) (btor : Option (Btor G))
    (exp : Option BtorRef) : Outcome G (Btor G × Int) := do
  let b ← BTOR_ABORT_ARG_NULL_BOOLECTOR_btor btor
  BTOR_TRAPI (some b)
  let exp ← BTOR_ABORT_ARG_NULL_BOOLECTOR b exp
  BTOR_ABORT_REFS_NOT_POS_BOOLECTOR b exp
  let exp := simplify x b exp
  let res := a.btor_is_array_exp b.graph exp
  return (b, res)

def boolector_is_fun (x : ExpLayer G) (a : AuxLayer G) (btor : Option (Btor G))
    (exp : Option BtorRef) : Outcome G (Btor G × Int) := do
  let b ← BTOR_ABORT_ARG_NULL_BOOLECTOR_btor btor
  BTOR_TRAPI (some b)
  let exp ← BTOR_ABORT_ARG_NULL_BOOLECTOR b exp
  BTOR_ABORT_REFS_NOT_POS_BOOLECTOR b exp
  let exp := simplify x b exp
  let res := a.btor_is_lambda_exp b.graph exp
  return (b, res)

def boolector_get_fun_arity (x : ExpLayer G) (a : AuxLayer G) (btor : Option (Btor G))
    (exp : Option BtorRef) : Outcome G (Btor G × Int) := do
  let b ← BTOR_ABORT_ARG_NULL_BOOLECTOR_btor btor
  BTOR_TRAPI (some b)
  let exp ← BTOR_ABORT_ARG_NULL_BOOLECTOR b exp
  BTOR_ABORT_REFS_NOT_POS_BOOLECTOR b exp
  let exp := simplify x b exp
  let res := a.btor_get_lambda_arity b.graph exp
  return (b, res)

def boolector_get_index_width (x : ExpLayer G) (a : AuxLayer G) (btor : Option (Btor G))
    (e_array : Option BtorRef) : Outcome G (Btor G × Int) := do
  let b ← BTOR_ABORT_ARG_NULL_BOOLECTOR_btor btor
  BTOR_TRAPI (some b)
  let e_array ← BTOR_ABORT_ARG_NULL_BOOLECTOR b e_array
  BTOR_ABORT_REFS_NOT_POS_BOOLECTOR b e_array
  let e_array := simplify x b e_array
  BTOR_ABORT_BV_BOOLECTOR b e_array
  let res := a.btor_get_index_exp_len b.graph e_array
  return (b, res)

def boolector_get_symbol_of_var (a : AuxLayer G) (btor : Option (Btor G))
    (exp : Option BtorRef) : Outcome G (Btor G × String) := do
  let b ← BTOR_ABORT_ARG_NULL_BOOLECTOR_btor btor
  BTOR_TRAPI (some b)
  let exp ← BTOR_ABORT_ARG_NULL_BOOLECTOR b exp
  BTOR_ABORT_REFS_NOT_POS_BOOLECTOR b exp
  let res := a.btor_get_symbol_exp b.graph exp
  return (b, res)

/-- The stream `file` is given by whether it is null.  The source has no trace
step here (`TODO TRAPI`). -/
def boolector_dump_btor (a : AuxLayer G) (btor : Option (Btor G)) (file : Option Unit)
    (exp : Option BtorRef) : Outcome G (Btor G) := do
  let b ← BTOR_ABORT_ARG_NULL_BOOLECTOR_btor btor
  let _ ← BTOR_ABORT_ARG_NULL_BOOLECTOR b file
  let exp ← BTOR_ABORT_ARG_NULL_BOOLECTOR b exp
  BTOR_ABORT_REFS_NOT_POS_BOOLECTOR b exp
  return { b with graph := a.btor_dump_exp b.graph exp }

def boolector_dump_smt (a : AuxLayer G) (btor : Option (Btor G)) (file : Option Unit)
    (exp : Option BtorRef) : Outcome G (Btor G) := do
  let b ← BTOR_ABORT_ARG_NULL_BOOLECTOR_btor btor
  let _ ← BTOR_ABORT_ARG_NULL_BOOLECTOR b file
  let exp ← BTOR_ABORT_ARG_NULL_BOOLECTOR b exp
  BTOR_ABORT_REFS_NOT_POS_BOOLECTOR b exp
  return { b with graph := a.btor_dump_smt1 b.graph exp }

def boolector_dump_smt2 (a : AuxLayer G) (btor : Option (Btor G)) (file : Option Unit)
    (exp : Option BtorRef) : Outcome G (Btor G) := do
  let b ← BTOR_ABORT_ARG_NULL_BOOLECTOR_btor btor
  let _ ← BTOR_ABORT_ARG_NULL_BOOLECTOR b file
  let exp ← BTOR_ABORT_ARG_NULL_BOOLECTOR b exp
  BTOR_ABORT_REFS_NOT_POS_BOOLECTOR b exp
  return { b with graph := a.btor_dump_smt2 b.graph exp }

def boolector_free_bv_assignment (a : AuxLayer G) (btor : Option (Btor G))
    (assignment : Option String) : Outcome G (Btor G) := do
  let b ← BTOR_ABORT_ARG_NULL_BOOLECTOR_btor btor
  BTOR_TRAPI (some b)
  let assignment ← BTOR_ABORT_ARG_NULL_BOOLECTOR b assignment
  return { b with graph := a.btor_free_bv_assignment_exp b.graph assignment }

/-- The loop `for (i = 0; i < size; i++) btor_free_bv_assignment_exp (btor,
arr[i])` of `boolector_free_array_assignment`, at index `i` with `n`
iterations to go.  The array is the list of its entries; a read past its end
is a fault. -/
def boolector_free_array_assignment_loop (a : AuxLayer G) (arr : List String) :
    Nat → Nat → Btor G → Outcome G (Btor G)
  | _, 0, b => .ok b
  | i, n + 1, b =>
    match arr.get? i with
    | none => .fault
    | some s =>
      boolector_free_array_assignment_loop a arr (i + 1) n
        { b with graph := a.btor_free_bv_assignment_exp b.graph s }

/-- The two arrays are nullable lists of strings.  The calls of `btor_free`
concern the memory manager, which is left out. -/
def boolector_free_array_assignment (a : AuxLayer G) (btor : Option (Btor G))
    (indices values : Option (List String)) (size : Int) : Outcome G (Btor G) := do
  let b ← BTOR_ABORT_ARG_NULL_BOOLECTOR_btor btor
  BTOR_TRAPI (some b)
  BTOR_ABORT_BOOLECTOR b (size < 0) "negative size"
  if size != 0 then
    let _ ← BTOR_ABORT_ARG_NULL_BOOLECTOR b indices
    let _ ← BTOR_ABORT_ARG_NULL_BOOLECTOR b values
  else
    BTOR_ABORT_BOOLECTOR b indices.isSome "non zero \x27indices\x27 but \x27size == 0\x27"
    BTOR_ABORT_BOOLECTOR b values.isSome "non zero \x27values\x27 but \x27size == 0\x27"
  let b ← boolector_free_array_assignment_loop a (indices.getD []) 0 size.toNat b
  let b ← boolector_free_array_assignment_loop a (values.getD []) 0 size.toNat b
  return b

/-! ## Calls and call sequences -/

/-- One call of the API, with its arguments: each of the node-returning
functions (the constructors and `boolector_copy`), and `boolector_release`. -/
inductive ApiCall where
  | boolector_const (bits : Option String)
  | boolector_zero (width : Int)
  | boolector_false
  | boolector_ones (width : Int)
  | boolector_true
  | boolector_one (width : Int)
  | boolector_unsigned_int (u : Nat) (width : Int)
  | boolector_int (i : Int) (width : Int)
  | boolector_var (width : Int) (symbol : Option String)
  | boolector_array (elem_width index_width : Int) (symbol : Option String)
  | boolector_not (exp : Option BtorRef)
  | boolector_neg (exp : Option BtorRef)
  | boolector_redor (exp : Option BtorRef)
  | boolector_redxor (exp : Option BtorRef)
  | boolector_redand (exp : Option BtorRef)
  | boolector_slice (exp : Option BtorRef) (upper lower : Int)
  | boolector_uext (exp : Option BtorRef) (width : Int)
  | boolector_sext (exp : Option BtorRef) (width : Int)
  | boolector_implies (e0 e1 : Option BtorRef)
  | boolector_iff (e0 e1 : Option BtorRef)
  | boolector_xor (e0 e1 : Option BtorRef)
  | boolector_xnor (e0 e1 : Option BtorRef)
  | boolector_and (e0 e1 : Option BtorRef)
  | boolector_nand (e0 e1 : Option BtorRef)
  | boolector_or (e0 e1 : Option BtorRef)
  | boolector_nor (e0 e1 : Option BtorRef)
  | boolector_eq (e0 e1 : Option BtorRef)
  | boolector_ne (e0 e1 : Option BtorRef)
  | boolector_add (e0 e1 : Option BtorRef)
  | boolector_uaddo (e0 e1 : Option BtorRef)
  | boolector_saddo (e0 e1 : Option BtorRef)
  | boolector_mul (e0 e1 : Option BtorRef)
  | boolector_umulo (e0 e1 : Option BtorRef)
  | boolector_smulo (e0 e1 : Option BtorRef)
  | boolector_ult (e0 e1 : Option BtorRef)
  | boolector_slt (e0 e1 : Option BtorRef)
  | boolector_ulte (e0 e1 : Option BtorRef)
  | boolector_slte (e0 e1 : Option BtorRef)
  | boolector_ugt (e0 e1 : Option BtorRef)
  | boolector_sgt (e0 e1 : Option BtorRef)
  | boolector_ugte (e0 e1 : Option BtorRef)
  | boolector_sgte (e0 e1 : Option BtorRef)
  | boolector_sll (e0 e1 : Option BtorRef)
  | boolector_srl (e0 e1 : Option BtorRef)
  | boolector_sra (e0 e1 : Option BtorRef)
  | boolector_rol (e0 e1 : Option BtorRef)
  | boolector_ror (e0 e1 : Option BtorRef)
  | boolector_sub (e0 e1 : Option BtorRef)
  | boolector_usubo (e0 e1 : Option BtorRef)
  | boolector_ssubo (e0 e1 : Option BtorRef)
  | boolector_udiv (e0 e1 : Option BtorRef)
  | boolector_sdiv (e0 e1 : Option BtorRef)
  | boolector_sdivo (e0 e1 : Option BtorRef)
  | boolector_urem (e0 e1 : Option BtorRef)
  | boolector_srem (e0 e1 : Option BtorRef)
  | boolector_smod (e0 e1 : Option BtorRef)
  | boolector_concat (e0 e1 : Option BtorRef)
  | boolector_read (e_array e_index : Option BtorRef)
  | boolector_write (e_array e_index e_value : Option BtorRef)
  | boolector_cond (e_cond e_if e_else : Option BtorRef)
  | boolector_lambda (param exp : Option BtorRef)
  | boolector_param (width : Int) (symbol : Option String)
  | boolector_fun (paramc : Int) (params : Option (List (Option BtorRef))) (exp : Option BtorRef)
  | boolector_apply (argc : Int) (args : Option (List (Option BtorRef))) (fn : Option BtorRef)
  | boolector_inc (exp : Option BtorRef)
  | boolector_dec (exp : Option BtorRef)
  | boolector_copy (exp : Option BtorRef)
  | boolector_release (exp : Option BtorRef)

/-- Whether the call is one of the node-returning functions. -/
def ApiCall.returns_node : ApiCall → Bool
  | .boolector_release _ => false
  | _ => true

/-- Result of a node-returning function, as the result of a call. -/
def ret_node (o : Outcome G (Btor G × BtorRef)) : Outcome G (Btor G × Option BtorRef) := do
  let r ← o
  return (r.1, some r.2)

/-- Result of a `void` function, as the result of a call. -/
def ret_void (o : Outcome G (Btor G)) : Outcome G (Btor G × Option BtorRef) := do
  let b ← o
  return (b, none)

/-- Executes one call on the solver `btor`. -/
def run_call (x : ExpLayer G) (btor : Option (Btor G)) :
    ApiCall → Outcome G (Btor G × Option BtorRef)
  | .boolector_const bits =>
    ret_node (Boolector.boolector_const x btor bits)
  | .boolector_zero width =>
    ret_node (Boolector.boolector_zero x btor width)
  | .boolector_false =>
    ret_node (Boolector.boolector_false x btor )
  | .boolector_ones width =>
    ret_node (Boolector.boolector_ones x btor width)
  | .boolector_true =>
    ret_node (Boolector.boolector_true x btor )
  | .boolector_one width =>
    ret_node (Boolector.boolector_one x btor width)
  | .boolector_unsigned_int u width =>
    ret_node (Boolector.boolector_unsigned_int x btor u width)
  | .boolector_int i width =>
    ret_node (Boolector.boolector_int x btor i width)
  | .boolector_var width symbol =>
    ret_node (Boolector.boolector_var x btor width symbol)
  | .boolector_array elem_width index_width symbol =>
    ret_node (Boolector.boolector_array x btor elem_width index_width symbol)
  | .boolector_not exp =>
    ret_node (Boolector.boolector_not x btor exp)
  | .boolector_neg exp =>
    ret_node (Boolector.boolector_neg x btor exp)
  | .boolector_redor exp =>
    ret_node (Boolector.boolector_redor x btor exp)
  | .boolector_redxor exp =>
    ret_node (Boolector.boolector_redxor x btor exp)
  | .boolector_redand exp =>
    ret_node (Boolector.boolector_redand x btor exp)
  | .boolector_slice exp upper lower =>
    ret_node (Boolector.boolector_slice x btor exp upper lower)
  | .boolector_uext exp width =>
    ret_node (Boolector.boolector_uext x btor exp width)
  | .boolector_sext exp width =>
    ret_node (Boolector.boolector_sext x btor exp width)
  | .boolector_implies e0 e1 =>
    ret_node (Boolector.boolector_implies x btor e0 e1)
  | .boolector_iff e0 e1 =>
    ret_node (Boolector.boolector_iff x btor e0 e1)
  | .boolector_xor e0 e1 =>
    ret_node (Boolector.boolector_xor x btor e0 e1)
  | .boolector_xnor e0 e1 =>
    ret_node (Boolector.boolector_xnor x btor e0 e1)
  | .boolector_and e0 e1 =>
    ret_node (Boolector.boolector_and x btor e0 e1)
  | .boolector_nand e0 e1 =>
    ret_node (Boolector.boolector_nand x btor e0 e1)
  | .boolector_or e0 e1 =>
    ret_node (Boolector.boolector_or x btor e0 e1)
  | .boolector_nor e0 e1 =>
    ret_node (Boolector.boolector_nor x btor e0 e1)
  | .boolector_eq e0 e1 =>
    ret_node (Boolector.boolector_eq x btor e0 e1)
  | .boolector_ne e0 e1 =>
    ret_node (Boolector.boolector_ne x btor e0 e1)
  | .boolector_add e0 e1 =>
    ret_node (Boolector.boolector_add x btor e0 e1)
  | .boolector_uaddo e0 e1 =>
    ret_node (Boolector.boolector_uaddo x btor e0 e1)
  | .boolector_saddo e0 e1 =>
    ret_node (Boolector.boolector_saddo x btor e0 e1)
  | .boolector_mul e0 e1 =>
    ret_node (Boolector.boolector_mul x btor e0 e1)
  | .boolector_umulo e0 e1 =>
    ret_node (Boolector.boolector_umulo x btor e0 e1)
  | .boolector_smulo e0 e1 =>
    ret_node (Boolector.boolector_smulo x btor e0 e1)
  | .boolector_ult e0 e1 =>
    ret_node (Boolector.boolector_ult x btor e0 e1)
  | .boolector_slt e0 e1 =>
    ret_node (Boolector.boolector_slt x btor e0 e1)
  | .boolector_ulte e0 e1 =>
    ret_node (Boolector.boolector_ulte x btor e0 e1)
  | .boolector_slte e0 e1 =>
    ret_node (Boolector.boolector_slte x btor e0 e1)
  | .boolector_ugt e0 e1 =>
    ret_node (Boolector.boolector_ugt x btor e0 e1)
  | .boolector_sgt e0 e1 =>
    ret_node (Boolector.boolector_sgt x btor e0 e1)
  | .boolector_ugte e0 e1 =>
    ret_node (Boolector.boolector_ugte x btor e0 e1)
  | .boolector_sgte e0 e1 =>
    ret_node (Boolector.boolector_sgte x btor e0 e1)
  | .boolector_sll e0 e1 =>
    ret_node (Boolector.boolector_sll x btor e0 e1)
  | .boolector_srl e0 e1 =>
    ret_node (Boolector.boolector_srl x btor e0 e1)
  | .boolector_sra e0 e1 =>
    ret_node (Boolector.boolector_sra x btor e0 e1)
  | .boolector_rol e0 e1 =>
    ret_node (Boolector.boolector_rol x btor e0 e1)
  | .boolector_ror e0 e1 =>
    ret_node (Boolector.boolector_ror x btor e0 e1)
  | .boolector_sub e0 e1 =>
    ret_node (Boolector.boolector_sub x btor e0 e1)
  | .boolector_usubo e0 e1 =>
    ret_node (Boolector.boolector_usubo x btor e0 e1)
  | .boolector_ssubo e0 e1 =>
    ret_node (Boolector.boolector_ssubo x btor e0 e1)
  | .boolector_udiv e0 e1 =>
    ret_node (Boolector.boolector_udiv x btor e0 e1)
  | .boolector_sdiv e0 e1 =>
    ret_node (Boolector.boolector_sdiv x btor e0 e1)
  | .boolector_sdivo e0 e1 =>
    ret_node (Boolector.boolector_sdivo x btor e0 e1)
  | .boolector_urem e0 e1 =>
    ret_node (Boolector.boolector_urem x btor e0 e1)
  | .boolector_srem e0 e1 =>
    ret_node (Boolector.boolector_srem x btor e0 e1)
  | .boolector_smod e0 e1 =>
    ret_node (Boolector.boolector_smod x btor e0 e1)
  | .boolector_concat e0 e1 =>
    ret_node (Boolector.boolector_concat x btor e0 e1)
  | .boolector_read e_array e_index =>
    ret_node (Boolector.boolector_read x btor e_array e_index)
  | .boolector_write e_array e_index e_value =>
    ret_node (Boolector.boolector_write x btor e_array e_index e_value)
  | .boolector_cond e_cond e_if e_else =>
    ret_node (Boolector.boolector_cond x btor e_cond e_if e_else)
  | .boolector_lambda param exp =>
    ret_node (Boolector.boolector_lambda x btor param exp)
  | .boolector_param width symbol =>
    ret_node (Boolector.boolector_param x btor width symbol)
  | .boolector_fun paramc params exp =>
    ret_node (Boolector.boolector_fun x btor paramc params exp)
  | .boolector_apply argc args fn =>
    ret_node (Boolector.boolector_apply x btor argc args fn)
  | .boolector_inc exp =>
    ret_node (Boolector.boolector_inc x btor exp)
  | .boolector_dec exp =>
    ret_node (Boolector.boolector_dec x btor exp)
  | .boolector_copy exp =>
    ret_node (Boolector.boolector_copy x btor exp)
  | .boolector_release exp =>
    ret_void (Boolector.boolector_release x btor exp)

/-- Executes a sequence of calls, each on the state the previous one left. -/
def run_calls (x : ExpLayer G) : Btor G → List ApiCall → Outcome G (Btor G)
  | b, [] => .ok b
  | b, c :: cs => do
    let r ← run_call x (some b) c
    run_calls x r.1 cs

/-- Number of node-returning calls in a sequence. -/
def count_returned (cs : List ApiCall) : Nat :=
  (cs.filter (fun c => c.returns_node)).length

/-- Number of `boolector_release` calls in a sequence. -/
def count_released (cs : List ApiCall) : Nat :=
  (cs.filter (fun c => !c.returns_node)).length

/-! ## Clone checking -/

/-- Solver instance together with its field `clone`: the twin instance that
`boolector_chkclone` attaches for checking, null (`none`) when there is none.
The field is kept beside the record `Btor`, which cannot contain itself; the
twin has no twin of its own. -/
structure BtorChk (G : Type) where
  btor : Btor G
  clone : Option (Btor G)

/-- How a call with its clone check ends: as a call of the API ends (`fault`
being a read through a null pointer or through a pointer to a freed record),
or on a failed `assert` of the check (the text is the asserted expression). -/
inductive ChkOutcome (G α : Type) where
  | ok (val : α) : ChkOutcome G α
  | abort (st : Option (Btor G)) (msg : String) : ChkOutcome G α
  | fault : ChkOutcome G α
  | assert_fail (expr : String) : ChkOutcome G α

namespace ChkOutcome

def bind {G α β : Type} (x : ChkOutcome G α) (f : α → ChkOutcome G β) : ChkOutcome G β :=
  match x with
  | ok a => f a
  | abort st msg => abort st msg
  | fault => fault
  | assert_fail e => assert_fail e

instance {G : Type} : Monad (ChkOutcome G) where
  pure := ok
  bind := bind

end ChkOutcome

/-- The end of a call of the API, as the end of a call with its clone check. -/
def Outcome.chk {α : Type} : Outcome G α → ChkOutcome G α
  | .ok a => .ok a
  | .abort st msg => .abort st msg
  | .fault => .fault

/-- The macro `assert` of `assert.h`, in a clone check. -/
def chk_assert (cond : Bool) (expr : String) : ChkOutcome G Unit :=
  if cond then .ok () else .assert_fail expr

/-- Restricted to the fields of the solver model: one comparison for each
`BTOR_CHKCLONE_STATE (field)` on a modelled field. -/
def btor_chkclone_state (s : BtorChk G) : ChkOutcome G Unit :=
  match s.clone with
  | none => .assert_fail "clone"
  | some clone =>
    chk_assert
      (clone.dvn_id == s.btor.dvn_id && clone.dan_id == s.btor.dan_id
        && clone.dpn_id == s.btor.dpn_id
        && clone.rewrite_level == s.btor.rewrite_level
        && clone.model_gen == s.btor.model_gen
        && clone.external_refs == s.btor.external_refs
        && clone.inc_enabled == s.btor.inc_enabled
        && clone.btor_sat_btor_called == s.btor.btor_sat_btor_called
        && clone.last_sat_result == s.btor.last_sat_result
        && clone.generate_model_for_all_reads == s.btor.generate_model_for_all_reads)
      "clone->field == btor->field"

/-- The macro `BTOR_CHKCLONE_EXP_TAGGED` on a child that is present: the two
tags agree and the nodes at the real addresses have the same id. -/
def BTOR_CHKCLONE_EXP_TAGGED (real_exp_field real_clone_field : Bool × BtorNode) : Bool :=
  real_clone_field.1 == real_exp_field.1 && real_exp_field.2.id == real_clone_field.2.id

/-- Restricted to the fields of the node model.  The kind is present in the
model through the three predicates `is_array`, `is_param`, `is_lambda`, the
arity as the number of children; of the kinds whose children are not compared
(constants, variables, parameters) the model tells the parameters, and the
others have no children. -/
def btor_chkclone_exp (exp clone : BtorRef) : ChkOutcome G Unit := do
  chk_assert (exp.inverted == clone.inverted)
    ("(!BTOR_IS_INVERTED_NODE (exp) && !BTOR_IS_INVERTED_NODE (clone)) || "
      ++ "(BTOR_IS_INVERTED_NODE (exp) && BTOR_IS_INVERTED_NODE (clone))")
  let real_exp := BTOR_REAL_ADDR_NODE exp
  let real_clone := BTOR_REAL_ADDR_NODE clone
  chk_assert
    (real_clone.is_array == real_exp.is_array && real_clone.is_param == real_exp.is_param
      && real_clone.is_lambda == real_exp.is_lambda)
    "real_clone->kind == real_exp->kind"
  chk_assert (real_clone.e.length == real_exp.e.length) "real_clone->arity == real_exp->arity"
  chk_assert (real_clone.id == real_exp.id) "real_clone->id == real_exp->id"
  chk_assert (real_clone.len == real_exp.len) "real_clone->len == real_exp->len"
  chk_assert (real_clone.refs == real_exp.refs) "real_clone->refs == real_exp->refs"
  chk_assert
    (real_exp.is_param
      || (List.zip real_exp.e real_clone.e).all
          (fun p => BTOR_CHKCLONE_EXP_TAGGED p.1 p.2))
    "BTOR_CHKCLONE_EXP_TAGGED (e[i])"
  chk_assert (!real_exp.is_array || real_clone.index_len == real_exp.index_len)
    "real_clone->index_len == real_exp->index_len"

/-- The comparisons of the statistics and of the timers
(`btor_chkclone_stats`, `btor_chkclone_time`) are on fields outside the
model. -/
def BTOR_CHKCLONE (s : BtorChk G) : ChkOutcome G Unit :=
  match s.clone with
  | none => .ok ()
  | some _ => btor_chkclone_state s

/-- The parameter `fn` is the call `fun (btor->clone, args)` as a function of
the solver it runs on; the twin it leaves is stored back. -/
def BTOR_CHKCLONENORES (fn : Option (Btor G) → Outcome G (Btor G)) (s : BtorChk G) :
    ChkOutcome G (BtorChk G) :=
  match s.clone with
  | none => .ok s
  | some clone => do
    let clone ← (fn (some clone)).chk
    let s := { s with clone := some clone }
    BTOR_CHKCLONE s
    return s

def BTOR_CHKCLONERES (fn : Option (Btor G) → Outcome G (Btor G × Int)) (res : Int)
    (s : BtorChk G) : ChkOutcome G (BtorChk G) :=
  match s.clone with
  | none => .ok s
  | some clone => do
    let r ← (fn (some clone)).chk
    let s := { s with clone := some r.1 }
    let cloneres := r.2
    chk_assert (cloneres == res) "cloneres == res"
    BTOR_CHKCLONE s
    return s

def BTOR_CHKCLONERESP (fn : Option (Btor G) → Outcome G (Btor G × BtorRef)) (res : BtorRef)
    (s : BtorChk G) : ChkOutcome G (BtorChk G) :=
  match s.clone with
  | none => .ok s
  | some clone => do
    let r ← (fn (some clone)).chk
    let s := { s with clone := some r.1 }
    let cloneres := r.2
    btor_chkclone_exp res cloneres
    BTOR_CHKCLONE s
    return s

def BTOR_CHKCLONERESS (fn : Option (Btor G) → Outcome G (Btor G × String)) (res : String)
    (s : BtorChk G) : ChkOutcome G (BtorChk G) :=
  match s.clone with
  | none => .ok s
  | some clone => do
    let r ← (fn (some clone)).chk
    let s := { s with clone := some r.1 }
    let cloneres := r.2
    chk_assert (cloneres == res) "!strcmp (cloneres, res)"
    BTOR_CHKCLONE s
    return s

def BTOR_TRAPI_RETURN (fn : Option (Btor G) → Outcome G (Btor G × Int)) (res : Int)
    (s : BtorChk G) : ChkOutcome G (BtorChk G) := do
  (BTOR_TRAPI (some s.btor)).chk
  BTOR_CHKCLONERES fn res s

def BTOR_TRAPI_RETURNP (fn : Option (Btor G) → Outcome G (Btor G × BtorRef)) (res : BtorRef)
    (s : BtorChk G) : ChkOutcome G (BtorChk G) := do
  (BTOR_TRAPI (some s.btor)).chk
  BTOR_CHKCLONERESP fn res s

def BTOR_TRAPI_RETURNS (fn : Option (Btor G) → Outcome G (Btor G × String)) (res : String)
    (s : BtorChk G) : ChkOutcome G (BtorChk G) := do
  (BTOR_TRAPI (some s.btor)).chk
  BTOR_CHKCLONERESS fn res s

/-- A node-returning wrapper as a whole: `body` is its text up to the closing
step, as modelled above, and `replay` the call `fun (btor->clone, args)` of
the closing step `BTOR_TRAPI_RETURNP (fun, res, args)`. -/
def node_wrapper (body replay : Option (Btor G) → Outcome G (Btor G × BtorRef))
    (s : BtorChk G) : ChkOutcome G (BtorChk G × Option BtorRef) := do
  let r ← (body (some s.btor)).chk
  let s ← BTOR_TRAPI_RETURNP replay r.2 { s with btor := r.1 }
  return (s, some r.2)

/-- A wrapper with an `int` result as a whole, with the closing step
`BTOR_TRAPI_RETURN (fun, res, args)`. -/
def int_wrapper (body replay : Option (Btor G) → Outcome G (Btor G × Int))
    (s : BtorChk G) : ChkOutcome G (BtorChk G × Int) := do
  let r ← (body (some s.btor)).chk
  let s ← BTOR_TRAPI_RETURN replay r.2 { s with btor := r.1 }
  return (s, r.2)

/-- A wrapper with a string result as a whole, with the closing step
`BTOR_TRAPI_RETURNS (fun, res, args)`. -/
def string_wrapper (body replay : Option (Btor G) → Outcome G (Btor G × String))
    (s : BtorChk G) : ChkOutcome G (BtorChk G × String) := do
  let r ← (body (some s.btor)).chk
  let s ← BTOR_TRAPI_RETURNS replay r.2 { s with btor := r.1 }
  return (s, r.2)

/-- A `void` wrapper as a whole, with the closing step
`BTOR_CHKCLONENORES (fun, args)`. -/
def void_wrapper (body replay : Option (Btor G) → Outcome G (Btor G))
    (s : BtorChk G) : ChkOutcome G (BtorChk G × Option BtorRef) := do
  let b ← (body (some s.btor)).chk
  let s ← BTOR_CHKCLONENORES replay { s with btor := b }
  return (s, none)

/-- Executes one call on a solver with its `clone` field, closing step
included.  The closing step replays the call with the arguments as they stand
at the end of the wrapper: node arguments are the simplified ones wherever
the wrapper simplifies (all but `boolector_fun`, `boolector_apply` and
`boolector_copy`).  `boolector_lambda` has no closing step. -/
def chk_run_call (x : ExpLayer G) (s : BtorChk G) :
    ApiCall → ChkOutcome G (BtorChk G × Option BtorRef)
  | .boolector_const bits =>
    node_wrapper (fun bt => Boolector.boolector_const x bt bits)
      (fun cl => Boolector.boolector_const x cl bits) s
  | .boolector_zero width =>
    node_wrapper (fun bt => Boolector.boolector_zero x bt width)
      (fun cl => Boolector.boolector_zero x cl width) s
  | .boolector_false =>
    node_wrapper (fun bt => Boolector.boolector_false x bt)
      (fun cl => Boolector.boolector_false x cl) s
  | .boolector_ones width =>
    node_wrapper (fun bt => Boolector.boolector_ones x bt width)
      (fun cl => Boolector.boolector_ones x cl width) s
  | .boolector_true =>
    node_wrapper (fun bt => Boolector.boolector_true x bt)
      (fun cl => Boolector.boolector_true x cl) s
  | .boolector_one width =>
    node_wrapper (fun bt => Boolector.boolector_one x bt width)
      (fun cl => Boolector.boolector_one x cl width) s
  | .boolector_unsigned_int u width =>
    node_wrapper (fun bt => Boolector.boolector_unsigned_int x bt u width)
      (fun cl => Boolector.boolector_unsigned_int x cl u width) s
  | .boolector_int i width =>
    node_wrapper (fun bt => Boolector.boolector_int x bt i width)
      (fun cl => Boolector.boolector_int x cl i width) s
  | .boolector_var width symbol =>
    node_wrapper (fun bt => Boolector.boolector_var x bt width symbol)
      (fun cl => Boolector.boolector_var x cl width symbol) s
  | .boolector_array elem_width index_width symbol =>
    node_wrapper (fun bt => Boolector.boolector_array x bt elem_width index_width symbol)
      (fun cl => Boolector.boolector_array x cl elem_width index_width symbol) s
  | .boolector_not exp =>
    node_wrapper (fun bt => Boolector.boolector_not x bt exp)
      (fun cl => Boolector.boolector_not x cl (exp.map (simplify x s.btor))) s
  | .boolector_neg exp =>
    node_wrapper (fun bt => Boolector.boolector_neg x bt exp)
      (fun cl => Boolector.boolector_neg x cl (exp.map (simplify x s.btor))) s
  | .boolector_redor exp =>
    node_wrapper (fun bt => Boolector.boolector_redor x bt exp)
      (fun cl => Boolector.boolector_redor x cl (exp.map (simplify x s.btor))) s
  | .boolector_redxor exp =>
    node_wrapper (fun bt => Boolector.boolector_redxor x bt exp)
      (fun cl => Boolector.boolector_redxor x cl (exp.map (simplify x s.btor))) s
  | .boolector_redand exp =>
    node_wrapper (fun bt => Boolector.boolector_redand x bt exp)
      (fun cl => Boolector.boolector_redand x cl (exp.map (simplify x s.btor))) s
  | .boolector_slice exp upper lower =>
    node_wrapper (fun bt => Boolector.boolector_slice x bt exp upper lower)
      (fun cl => Boolector.boolector_slice x cl (exp.map (simplify x s.btor)) upper lower) s
  | .boolector_uext exp width =>
    node_wrapper (fun bt => Boolector.boolector_uext x bt exp width)
      (fun cl => Boolector.boolector_uext x cl (exp.map (simplify x s.btor)) width) s
  | .boolector_sext exp width =>
    node_wrapper (fun bt => Boolector.boolector_sext x bt exp width)
      (fun cl => Boolector.boolector_sext x cl (exp.map (simplify x s.btor)) width) s
  | .boolector_implies e0 e1 =>
    node_wrapper (fun bt => Boolector.boolector_implies x bt e0 e1)
      (fun cl => Boolector.boolector_implies x cl (e0.map (simplify x s.btor)) (e1.map (simplify x s.btor))) s
  | .boolector_iff e0 e1 =>
    node_wrapper (fun bt => Boolector.boolector_iff x bt e0 e1)
      (fun cl => Boolector.boolector_iff x cl (e0.map (simplify x s.btor)) (e1.map (simplify x s.btor))) s
  | .boolector_xor e0 e1 =>
    node_wrapper (fun bt => Boolector.boolector_xor x bt e0 e1)
      (fun cl => Boolector.boolector_xor x cl (e0.map (simplify x s.btor)) (e1.map (simplify x s.btor))) s
  | .boolector_xnor e0 e1 =>
    node_wrapper (fun bt => Boolector.boolector_xnor x bt e0 e1)
      (fun cl => Boolector.boolector_xnor x cl (e0.map (simplify x s.btor)) (e1.map (simplify x s.btor))) s
  | .boolector_and e0 e1 =>
    node_wrapper (fun bt => Boolector.boolector_and x bt e0 e1)
      (fun cl => Boolector.boolector_and x cl (e0.map (simplify x s.btor)) (e1.map (simplify x s.btor))) s
  | .boolector_nand e0 e1 =>
    node_wrapper (fun bt => Boolector.boolector_nand x bt e0 e1)
      (fun cl => Boolector.boolector_nand x cl (e0.map (simplify x s.btor)) (e1.map (simplify x s.btor))) s
  | .boolector_or e0 e1 =>
    node_wrapper (fun bt => Boolector.boolector_or x bt e0 e1)
      (fun cl => Boolector.boolector_or x cl (e0.map (simplify x s.btor)) (e1.map (simplify x s.btor))) s
  | .boolector_nor e0 e1 =>
    node_wrapper (fun bt => Boolector.boolector_nor x bt e0 e1)
      (fun cl => Boolector.boolector_nor x cl (e0.map (simplify x s.btor)) (e1.map (simplify x s.btor))) s
  | .boolector_eq e0 e1 =>
    node_wrapper (fun bt => Boolector.boolector_eq x bt e0 e1)
      (fun cl => Boolector.boolector_eq x cl (e0.map (simplify x s.btor)) (e1.map (simplify x s.btor))) s
  | .boolector_ne e0 e1 =>
    node_wrapper (fun bt => Boolector.boolector_ne x bt e0 e1)
      (fun cl => Boolector.boolector_ne x cl (e0.map (simplify x s.btor)) (e1.map (simplify x s.btor))) s
  | .boolector_add e0 e1 =>
    node_wrapper (fun bt => Boolector.boolector_add x bt e0 e1)
      (fun cl => Boolector.boolector_add x cl (e0.map (simplify x s.btor)) (e1.map (simplify x s.btor))) s
  | .boolector_uaddo e0 e1 =>
    node_wrapper (fun bt => Boolector.boolector_uaddo x bt e0 e1)
      (fun cl => Boolector.boolector_uaddo x cl (e0.map (simplify x s.btor)) (e1.map (simplify x s.btor))) s
  | .boolector_saddo e0 e1 =>
    node_wrapper (fun bt => Boolector.boolector_saddo x bt e0 e1)
      (fun cl => Boolector.boolector_saddo x cl (e0.map (simplify x s.btor)) (e1.map (simplify x s.btor))) s
  | .boolector_mul e0 e1 =>
    node_wrapper (fun bt => Boolector.boolector_mul x bt e0 e1)
      (fun cl => Boolector.boolector_mul x cl (e0.map (simplify x s.btor)) (e1.map (simplify x s.btor))) s
  | .boolector_umulo e0 e1 =>
    node_wrapper (fun bt => Boolector.boolector_umulo x bt e0 e1)
      (fun cl => Boolector.boolector_umulo x cl (e0.map (simplify x s.btor)) (e1.map (simplify x s.btor))) s
  | .boolector_smulo e0 e1 =>
    node_wrapper (fun bt => Boolector.boolector_smulo x bt e0 e1)
      (fun cl => Boolector.boolector_smulo x cl (e0.map (simplify x s.btor)) (e1.map (simplify x s.btor))) s
  | .boolector_ult e0 e1 =>
    node_wrapper (fun bt => Boolector.boolector_ult x bt e0 e1)
      (fun cl => Boolector.boolector_ult x cl (e0.map (simplify x s.btor)) (e1.map (simplify x s.btor))) s
  | .boolector_slt e0 e1 =>
    node_wrapper (fun bt => Boolector.boolector_slt x bt e0 e1)
      (fun cl => Boolector.boolector_slt x cl (e0.map (simplify x s.btor)) (e1.map (simplify x s.btor))) s
  | .boolector_ulte e0 e1 =>
    node_wrapper (fun bt => Boolector.boolector_ulte x bt e0 e1)
      (fun cl => Boolector.boolector_ulte x cl (e0.map (simplify x s.btor)) (e1.map (simplify x s.btor))) s
  | .boolector_slte e0 e1 =>
    node_wrapper (fun bt => Boolector.boolector_slte x bt e0 e1)
      (fun cl => Boolector.boolector_slte x cl (e0.map (simplify x s.btor)) (e1.map (simplify x s.btor))) s
  | .boolector_ugt e0 e1 =>
    node_wrapper (fun bt => Boolector.boolector_ugt x bt e0 e1)
      (fun cl => Boolector.boolector_ugt x cl (e0.map (simplify x s.btor)) (e1.map (simplify x s.btor))) s
  | .boolector_sgt e0 e1 =>
    node_wrapper (fun bt => Boolector.boolector_sgt x bt e0 e1)
      (fun cl => Boolector.boolector_sgt x cl (e0.map (simplify x s.btor)) (e1.map (simplify x s.btor))) s
  | .boolector_ugte e0 e1 =>
    node_wrapper (fun bt => Boolector.boolector_ugte x bt e0 e1)
      (fun cl => Boolector.boolector_ugte x cl (e0.map (simplify x s.btor)) (e1.map (simplify x s.btor))) s
  | .boolector_sgte e0 e1 =>
    node_wrapper (fun bt => Boolector.boolector_sgte x bt e0 e1)
      (fun cl => Boolector.boolector_sgte x cl (e0.map (simplify x s.btor)) (e1.map (simplify x s.btor))) s
  | .boolector_sll e0 e1 =>
    node_wrapper (fun bt => Boolector.boolector_sll x bt e0 e1)
      (fun cl => Boolector.boolector_sll x cl (e0.map (simplify x s.btor)) (e1.map (simplify x s.btor))) s
  | .boolector_srl e0 e1 =>
    node_wrapper (fun bt => Boolector.boolector_srl x bt e0 e1)
      (fun cl => Boolector.boolector_srl x cl (e0.map (simplify x s.btor)) (e1.map (simplify x s.btor))) s
  | .boolector_sra e0 e1 =>
    node_wrapper (fun bt => Boolector.boolector_sra x bt e0 e1)
      (fun cl => Boolector.boolector_sra x cl (e0.map (simplify x s.btor)) (e1.map (simplify x s.btor))) s
  | .boolector_rol e0 e1 =>
    node_wrapper (fun bt => Boolector.boolector_rol x bt e0 e1)
      (fun cl => Boolector.boolector_rol x cl (e0.map (simplify x s.btor)) (e1.map (simplify x s.btor))) s
  | .boolector_ror e0 e1 =>
    node_wrapper (fun bt => Boolector.boolector_ror x bt e0 e1)
      (fun cl => Boolector.boolector_ror x cl (e0.map (simplify x s.btor)) (e1.map (simplify x s.btor))) s
  | .boolector_sub e0 e1 =>
    node_wrapper (fun bt => Boolector.boolector_sub x bt e0 e1)
      (fun cl => Boolector.boolector_sub x cl (e0.map (simplify x s.btor)) (e1.map (simplify x s.btor))) s
  | .boolector_usubo e0 e1 =>
    node_wrapper (fun bt => Boolector.boolector_usubo x bt e0 e1)
      (fun cl => Boolector.boolector_usubo x cl (e0.map (simplify x s.btor)) (e1.map (simplify x s.btor))) s
  | .boolector_ssubo e0 e1 =>
    node_wrapper (fun bt => Boolector.boolector_ssubo x bt e0 e1)
      (fun cl => Boolector.boolector_ssubo x cl (e0.map (simplify x s.btor)) (e1.map (simplify x s.btor))) s
  | .boolector_udiv e0 e1 =>
    node_wrapper (fun bt => Boolector.boolector_udiv x bt e0 e1)
      (fun cl => Boolector.boolector_udiv x cl (e0.map (simplify x s.btor)) (e1.map (simplify x s.btor))) s
  | .boolector_sdiv e0 e1 =>
    node_wrapper (fun bt => Boolector.boolector_sdiv x bt e0 e1)
      (fun cl => Boolector.boolector_sdiv x cl (e0.map (simplify x s.btor)) (e1.map (simplify x s.btor))) s
  | .boolector_sdivo e0 e1 =>
    node_wrapper (fun bt => Boolector.boolector_sdivo x bt e0 e1)
      (fun cl => Boolector.boolector_sdivo x cl (e0.map (simplify x s.btor)) (e1.map (simplify x s.btor))) s
  | .boolector_urem e0 e1 =>
    node_wrapper (fun bt => Boolector.boolector_urem x bt e0 e1)
      (fun cl => Boolector.boolector_urem x cl (e0.map (simplify x s.btor)) (e1.map (simplify x s.btor))) s
  | .boolector_srem e0 e1 =>
    node_wrapper (fun bt => Boolector.boolector_srem x bt e0 e1)
      (fun cl => Boolector.boolector_srem x cl (e0.map (simplify x s.btor)) (e1.map (simplify x s.btor))) s
  | .boolector_smod e0 e1 =>
    node_wrapper (fun bt => Boolector.boolector_smod x bt e0 e1)
      (fun cl => Boolector.boolector_smod x cl (e0.map (simplify x s.btor)) (e1.map (simplify x s.btor))) s
  | .boolector_concat e0 e1 =>
    node_wrapper (fun bt => Boolector.boolector_concat x bt e0 e1)
      (fun cl => Boolector.boolector_concat x cl (e0.map (simplify x s.btor)) (e1.map (simplify x s.btor))) s
  | .boolector_read e_array e_index =>
    node_wrapper (fun bt => Boolector.boolector_read x bt e_array e_index)
      (fun cl => Boolector.boolector_read x cl (e_array.map (simplify x s.btor)) (e_index.map (simplify x s.btor))) s
  | .boolector_write e_array e_index e_value =>
    node_wrapper (fun bt => Boolector.boolector_write x bt e_array e_index e_value)
      (fun cl => Boolector.boolector_write x cl (e_array.map (simplify x s.btor)) (e_index.map (simplify x s.btor)) (e_value.map (simplify x s.btor))) s
  | .boolector_cond e_cond e_if e_else =>
    node_wrapper (fun bt => Boolector.boolector_cond x bt e_cond e_if e_else)
      (fun cl => Boolector.boolector_cond x cl (e_cond.map (simplify x s.btor)) (e_if.map (simplify x s.btor)) (e_else.map (simplify x s.btor))) s
  | .boolector_lambda param exp => do
    -- no closing step in the source (TODO TRAPI)
    let r ← (Boolector.boolector_lambda x (some s.btor) param exp).chk
    return ({ s with btor := r.1 }, some r.2)
  | .boolector_param width symbol =>
    node_wrapper (fun bt => Boolector.boolector_param x bt width symbol)
      (fun cl => Boolector.boolector_param x cl width symbol) s
  | .boolector_fun paramc params exp =>
    node_wrapper (fun bt => Boolector.boolector_fun x bt paramc params exp)
      (fun cl => Boolector.boolector_fun x cl paramc params exp) s
  | .boolector_apply argc args fn =>
    node_wrapper (fun bt => Boolector.boolector_apply x bt argc args fn)
      (fun cl => Boolector.boolector_apply x cl argc args fn) s
  | .boolector_inc exp =>
    node_wrapper (fun bt => Boolector.boolector_inc x bt exp)
      (fun cl => Boolector.boolector_inc x cl (exp.map (simplify x s.btor))) s
  | .boolector_dec exp =>
    node_wrapper (fun bt => Boolector.boolector_dec x bt exp)
      (fun cl => Boolector.boolector_dec x cl (exp.map (simplify x s.btor))) s
  | .boolector_copy exp =>
    node_wrapper (fun bt => Boolector.boolector_copy x bt exp)
      (fun cl => Boolector.boolector_copy x cl exp) s
  | .boolector_release exp =>
    void_wrapper (fun bt => Boolector.boolector_release x bt exp)
      (fun cl => Boolector.boolector_release x cl exp) s

/-- One call of the API that returns no node and has a closing clone-check
step, with its arguments (`boolector_release` is among the calls above).  The
remaining functions of the API (`boolector_new`, `boolector_clone`,
`boolector_chkclone`, `boolector_set_trapi`, `boolector_get_trapi`,
`boolector_fun_sort_check`) have no closing step. -/
inductive ApiQuery where
  | boolector_set_rewrite_level (rewrite_level : Int)
  | boolector_enable_model_gen
  | boolector_generate_model_for_all_reads
  | boolector_enable_inc_usage
  | boolector_set_sat_solver (solver : Option String)
  | boolector_get_refs
  | boolector_delete
  | boolector_get_width (exp : Option BtorRef)
  | boolector_is_array (exp : Option BtorRef)
  | boolector_is_fun (exp : Option BtorRef)
  | boolector_get_fun_arity (exp : Option BtorRef)
  | boolector_get_index_width (e_array : Option BtorRef)
  | boolector_get_symbol_of_var (exp : Option BtorRef)
  | boolector_dump_btor (file : Option Unit) (exp : Option BtorRef)
  | boolector_dump_smt (file : Option Unit) (exp : Option BtorRef)
  | boolector_dump_smt2 (file : Option Unit) (exp : Option BtorRef)
  | boolector_assert (exp : Option BtorRef)
  | boolector_assume (exp : Option BtorRef)
  | boolector_sat
  | boolector_bv_assignment (exp : Option BtorRef)
  | boolector_free_bv_assignment (assignment : Option String)
  | boolector_array_assignment (e_array : Option BtorRef) (indices values size : Option Unit)
  | boolector_free_array_assignment (indices values : Option (List String)) (size : Int)

/-- What such a call gives back: nothing, an `int`, a string, or the arrays
stored through the out parameters of `boolector_array_assignment`. -/
inductive ApiValue where
  | unit
  | int (res : Int)
  | str (res : String)
  | assignment (indices values : List String)

/-- Result of a `void` function, as the result of such a call. -/
def q_void (o : Outcome G (Btor G)) : Outcome G (Option (Btor G) × ApiValue) := do
  let b ← o
  return (some b, .unit)

/-- Result of a function with an `int` result, as the result of such a call. -/
def q_int (o : Outcome G (Btor G × Int)) : Outcome G (Option (Btor G) × ApiValue) := do
  let r ← o
  return (some r.1, .int r.2)

/-- Result of a function with a string result, as the result of such a call. -/
def q_str (o : Outcome G (Btor G × String)) : Outcome G (Option (Btor G) × ApiValue) := do
  let r ← o
  return (some r.1, .str r.2)

/-- Executes one such call on the solver `btor`, without its closing step:
the solver it leaves (none after `boolector_delete`) and what it gives
back. -/
def run_query (x : ExpLayer G) (c : CoreLayer G) (a : AuxLayer G)
    (nodes_id_table_count : G → Int) (btor : Option (Btor G)) :
    ApiQuery → Outcome G (Option (Btor G) × ApiValue)
  | .boolector_set_rewrite_level rewrite_level =>
    q_void (Boolector.boolector_set_rewrite_level nodes_id_table_count btor rewrite_level)
  | .boolector_enable_model_gen =>
    q_void (Boolector.boolector_enable_model_gen nodes_id_table_count btor)
  | .boolector_generate_model_for_all_reads =>
    q_void (Boolector.boolector_generate_model_for_all_reads btor)
  | .boolector_enable_inc_usage =>
    q_void (Boolector.boolector_enable_inc_usage btor)
  | .boolector_set_sat_solver solver =>
    q_int (Boolector.boolector_set_sat_solver a btor solver)
  | .boolector_get_refs =>
    q_int (Boolector.boolector_get_refs btor)
  | .boolector_delete => do
    Boolector.boolector_delete btor
    return (none, .unit)
  | .boolector_get_width exp =>
    q_int (Boolector.boolector_get_width a btor exp)
  | .boolector_is_array exp =>
    q_int (Boolector.boolector_is_array x a btor exp)
  | .boolector_is_fun exp =>
    q_int (Boolector.boolector_is_fun x a btor exp)
  | .boolector_get_fun_arity exp =>
    q_int (Boolector.boolector_get_fun_arity x a btor exp)
  | .boolector_get_index_width e_array =>
    q_int (Boolector.boolector_get_index_width x a btor e_array)
  | .boolector_get_symbol_of_var exp =>
    q_str (Boolector.boolector_get_symbol_of_var a btor exp)
  | .boolector_dump_btor file exp =>
    q_void (Boolector.boolector_dump_btor a btor file exp)
  | .boolector_dump_smt file exp =>
    q_void (Boolector.boolector_dump_smt a btor file exp)
  | .boolector_dump_smt2 file exp =>
    q_void (Boolector.boolector_dump_smt2 a btor file exp)
  | .boolector_assert exp =>
    q_void (Boolector.boolector_assert x c btor exp)
  | .boolector_assume exp =>
    q_void (Boolector.boolector_assume x c btor exp)
  | .boolector_sat =>
    q_int (Boolector.boolector_sat c btor)
  | .boolector_bv_assignment exp =>
    q_str (Boolector.boolector_bv_assignment x c btor exp)
  | .boolector_free_bv_assignment assignment =>
    q_void (Boolector.boolector_free_bv_assignment a btor assignment)
  | .boolector_array_assignment e_array indices values size => do
    let r ← Boolector.boolector_array_assignment x c btor e_array indices values size
    return (some r.1, .assignment r.2.1 r.2.2)
  | .boolector_free_array_assignment indices values size =>
    q_void (Boolector.boolector_free_array_assignment a btor indices values size)

/-- Result of a `void` wrapper with its closing step, as the result of such a
call. -/
def cq_void (o : ChkOutcome G (BtorChk G × Option BtorRef)) :
    ChkOutcome G (Option (BtorChk G) × ApiValue) := do
  let r ← o
  return (some r.1, .unit)

/-- Result of an `int` wrapper with its closing step, as the result of such a
call. -/
def cq_int (o : ChkOutcome G (BtorChk G × Int)) :
    ChkOutcome G (Option (BtorChk G) × ApiValue) := do
  let r ← o
  return (some r.1, .int r.2)

/-- Result of a string wrapper with its closing step, as the result of such a
call. -/
def cq_str (o : ChkOutcome G (BtorChk G × String)) :
    ChkOutcome G (Option (BtorChk G) × ApiValue) := do
  let r ← o
  return (some r.1, .str r.2)

/-- A read of a field through the solver pointer: a fault when the record
behind the pointer has been freed (`none`). -/
def btor_read (cell : Option (BtorChk G)) : ChkOutcome G (BtorChk G) :=
  match cell with
  | none => .fault
  | some s => .ok s

/-- Executes one such call on a solver with its `clone` field, closing step
included.  The closing step replays the call with the arguments as they stand
at the end of the wrapper (node arguments simplified wherever the wrapper
simplifies).  In `boolector_array_assignment` the replay writes the three out
parameters again.  In `boolector_delete` the closing step
`BTOR_CHKCLONENORES (boolector_delete)` comes after `btor_delete_btor (btor)`
has freed the record behind `btor`, and it starts with the test
`if (!btor->clone)`, a read of that record: the step is a fault at its first
statement, whatever the record held. -/
def chk_run_query (x : ExpLayer G) (c : CoreLayer G) (a : AuxLayer G)
    (nodes_id_table_count : G → Int) (s : BtorChk G) :
    ApiQuery → ChkOutcome G (Option (BtorChk G) × ApiValue)
  | .boolector_set_rewrite_level rewrite_level =>
    cq_void (void_wrapper
      (fun bt => Boolector.boolector_set_rewrite_level nodes_id_table_count bt rewrite_level)
      (fun cl => Boolector.boolector_set_rewrite_level nodes_id_table_count cl rewrite_level) s)
  | .boolector_enable_model_gen =>
    cq_void (void_wrapper
      (fun bt => Boolector.boolector_enable_model_gen nodes_id_table_count bt)
      (fun cl => Boolector.boolector_enable_model_gen nodes_id_table_count cl) s)
  | .boolector_generate_model_for_all_reads =>
    cq_void (void_wrapper
      (fun bt => Boolector.boolector_generate_model_for_all_reads bt)
      (fun cl => Boolector.boolector_generate_model_for_all_reads cl) s)
  | .boolector_enable_inc_usage =>
    cq_void (void_wrapper
      (fun bt => Boolector.boolector_enable_inc_usage bt)
      (fun cl => Boolector.boolector_enable_inc_usage cl) s)
  | .boolector_set_sat_solver solver =>
    cq_int (int_wrapper
      (fun bt => Boolector.boolector_set_sat_solver a bt solver)
      (fun cl => Boolector.boolector_set_sat_solver a cl solver) s)
  | .boolector_get_refs =>
    cq_int (int_wrapper
      (fun bt => Boolector.boolector_get_refs bt)
      (fun cl => Boolector.boolector_get_refs cl) s)
  | .boolector_delete => do
    (Boolector.boolector_delete (some s.btor)).chk
    -- btor_delete_btor (btor) has freed the record; BTOR_CHKCLONENORES reads btor->clone
    let _ ← btor_read (none : Option (BtorChk G))
    return (none, .unit)
  | .boolector_get_width exp =>
    cq_int (int_wrapper
      (fun bt => Boolector.boolector_get_width a bt exp)
      (fun cl => Boolector.boolector_get_width a cl exp) s)
  | .boolector_is_array exp =>
    cq_int (int_wrapper
      (fun bt => Boolector.boolector_is_array x a bt exp)
      (fun cl => Boolector.boolector_is_array x a cl (exp.map (simplify x s.btor))) s)
  | .boolector_is_fun exp =>
    cq_int (int_wrapper
      (fun bt => Boolector.boolector_is_fun x a bt exp)
      (fun cl => Boolector.boolector_is_fun x a cl (exp.map (simplify x s.btor))) s)
  | .boolector_get_fun_arity exp =>
    cq_int (int_wrapper
      (fun bt => Boolector.boolector_get_fun_arity x a bt exp)
      (fun cl => Boolector.boolector_get_fun_arity x a cl (exp.map (simplify x s.btor))) s)
  | .boolector_get_index_width e_array =>
    cq_int (int_wrapper
      (fun bt => Boolector.boolector_get_index_width x a bt e_array)
      (fun cl =>
        Boolector.boolector_get_index_width x a cl (e_array.map (simplify x s.btor))) s)
  | .boolector_get_symbol_of_var exp =>
    cq_str (string_wrapper
      (fun bt => Boolector.boolector_get_symbol_of_var a bt exp)
      (fun cl => Boolector.boolector_get_symbol_of_var a cl exp) s)
  | .boolector_dump_btor file exp =>
    cq_void (void_wrapper
      (fun bt => Boolector.boolector_dump_btor a bt file exp)
      (fun cl => Boolector.boolector_dump_btor a cl file exp) s)
  | .boolector_dump_smt file exp =>
    cq_void (void_wrapper
      (fun bt => Boolector.boolector_dump_smt a bt file exp)
      (fun cl => Boolector.boolector_dump_smt a cl file exp) s)
  | .boolector_dump_smt2 file exp =>
    cq_void (void_wrapper
      (fun bt => Boolector.boolector_dump_smt2 a bt file exp)
      (fun cl => Boolector.boolector_dump_smt2 a cl file exp) s)
  | .boolector_assert exp =>
    cq_void (void_wrapper
      (fun bt => Boolector.boolector_assert x c bt exp)
      (fun cl => Boolector.boolector_assert x c cl (exp.map (simplify x s.btor))) s)
  | .boolector_assume exp =>
    cq_void (void_wrapper
      (fun bt => Boolector.boolector_assume x c bt exp)
      (fun cl => Boolector.boolector_assume x c cl (exp.map (simplify x s.btor))) s)
  | .boolector_sat =>
    cq_int (int_wrapper
      (fun bt => Boolector.boolector_sat c bt)
      (fun cl => Boolector.boolector_sat c cl) s)
  | .boolector_bv_assignment exp =>
    cq_str (string_wrapper
      (fun bt => Boolector.boolector_bv_assignment x c bt exp)
      (fun cl => Boolector.boolector_bv_assignment x c cl (exp.map (simplify x s.btor))) s)
  | .boolector_free_bv_assignment assignment =>
    cq_void (void_wrapper
      (fun bt => Boolector.boolector_free_bv_assignment a bt assignment)
      (fun cl => Boolector.boolector_free_bv_assignment a cl assignment) s)
  | .boolector_array_assignment e_array indices values size => do
    let r ← (Boolector.boolector_array_assignment x c (some s.btor) e_array indices values
      size).chk
    let s2 : BtorChk G := { s with btor := r.1 }
    match s2.clone with
    | none => return (some s2, .assignment r.2.1 r.2.2)
    | some clone =>
      -- BTOR_CHKCLONENORES (boolector_array_assignment, e_array, indices, values, size)
      let rc ← (Boolector.boolector_array_assignment x c (some clone)
        (e_array.map (simplify x s.btor)) indices values size).chk
      let s3 : BtorChk G := { s2 with clone := some rc.1 }
      BTOR_CHKCLONE s3
      return (some s3, .assignment rc.2.1 rc.2.2)
  | .boolector_free_array_assignment indices values size =>
    cq_void (void_wrapper
      (fun bt => Boolector.boolector_free_array_assignment a bt indices values size)
      (fun cl => Boolector.boolector_free_array_assignment a cl indices values size) s)

/-! ## Families of wrappers -/

/-- Every return of the call `o`, started in state `b`, leaves the external
reference counter at `b.external_refs + d`. -/
def RefsStep (d : Int) (b : Btor G) {α : Type} (st : α → Btor G) (o : Outcome G α) : Prop :=
  ∀ a, o = .ok a → (st a).external_refs = b.external_refs + d

/-- Whether the call makes up the symbol itself: `boolector_var`,
`boolector_array` or `boolector_param` with a null symbol. -/
def ApiCall.generates_symbol : ApiCall → Bool
  | .boolector_var _ none => true
  | .boolector_array _ _ none => true
  | .boolector_param _ none => true
  | _ => false

/-- Every usage error of the call `o`, started in state `b`, is raised in the
state `b` itself. -/
def AbortKeeps (b : Btor G) {α : Type} (o : Outcome G α) : Prop :=
  ∀ st msg, o = .abort st msg → st = some b

/-- Every return of the call `o`, started in state `b`, leaves each of the
name counters `dvn_id`, `dan_id`, `dpn_id` at least as high as in `b` (`st`
picks the new state out of the result). -/
def IdsStep (b : Btor G) {α : Type} (st : α → Btor G) (o : Outcome G α) : Prop :=
  ∀ a, o = .ok a →
    b.dvn_id ≤ (st a).dvn_id ∧ b.dan_id ≤ (st a).dan_id ∧ b.dpn_id ≤ (st a).dpn_id

/-- Type of the wrappers that take two node arguments. -/
abbrev BinaryWrapper (G : Type) : Type :=
  ExpLayer G → Option (Btor G) → Option BtorRef → Option BtorRef →
    Outcome G (Btor G × BtorRef)

/-- The binary bit-vector constructors that require equal operand widths. -/
def equal_width_constructors : List (BinaryWrapper G) :=
  [boolector_xor, boolector_xnor, boolector_and, boolector_nand, boolector_or,
   boolector_nor, boolector_add, boolector_uaddo, boolector_saddo, boolector_sub,
   boolector_usubo, boolector_ssubo, boolector_mul, boolector_umulo, boolector_smulo,
   boolector_udiv, boolector_sdiv, boolector_sdivo, boolector_urem, boolector_srem,
   boolector_smod, boolector_ult, boolector_slt, boolector_ulte, boolector_slte,
   boolector_ugt, boolector_sgt, boolector_ugte, boolector_sgte]

/-- The shift and rotate constructors. -/
def shift_constructors : List (BinaryWrapper G) :=
  [boolector_sll, boolector_srl, boolector_sra, boolector_rol, boolector_ror]

/-! ## SAT manager (`btorsat.c`) -/

/-- How a call of the SAT manager ends: it returns, an `assert` of the code
fails (a contract violation; the text is the asserted expression), or
`BTOR_ABORT` stops the process with a fatal error. -/
inductive SatOutcome (α : Type) where
  | ok (val : α) : SatOutcome α
  | assert_fail (expr : String) : SatOutcome α
  | abort (msg : String) : SatOutcome α

namespace SatOutcome

def bind {α β : Type} (x : SatOutcome α) (f : α → SatOutcome β) : SatOutcome β :=
  match x with
  | ok a => f a
  | assert_fail e => assert_fail e
  | abort msg => abort msg

instance : Monad SatOutcome where
  pure := ok
  bind := bind

/-- The call passed its checks and returned. -/
def accepted {α : Type} : SatOutcome α → Bool
  | ok _ => true
  | _ => false

/-- The call was a contract violation: an assertion failed. -/
def violation {α : Type} : SatOutcome α → Bool
  | assert_fail _ => true
  | _ => false

end SatOutcome

/-- The macro `assert` of `assert.h`. -/
def sat_assert (cond : Bool) (expr : String) : SatOutcome Unit :=
  if cond then .ok () else .assert_fail expr

/-- Modelled from the spec: the macro `BTOR_ABORT` of `btorabort.h` (absent):
when the condition holds the process stops with a fatal error. -/
def BTOR_ABORT (cond : Bool) (msg : String) : SatOutcome Unit :=
  if cond then .abort msg else .ok ()

/-- The function `abs` of `stdlib.h` (its argument is never `INT_MIN` here). -/
def c_abs (x : Int) : Int := x.natAbs

/-- Modelled from the spec: the result type `BtorSolverResult` of the type
header (absent). -/
inductive BtorSolverResult where
  | BTOR_RESULT_SAT
  | BTOR_RESULT_UNSAT
  | BTOR_RESULT_UNKNOWN
  deriving DecidableEq

/-- Modelled from the spec: the function table `smgr->api` of `btorsat.h`
(absent), with the entries `btorsat.c` calls.  Every backend function is given
the manager and works on the backend instance behind `smgr->solver`, a
possibly null handle, here `Option S`; the functions are given that handle and
return the new one.  The entries `melt`, `setterm` and `clone` may be null.
`reset` and `stats` have no effect on the manager and are left out. -/
structure BtorSATApi (S : Type) where
  init : Option S
  add : Option S → Int → Option S
  assume : Option S → Int → Option S
  deref : Option S → Int → Int
  repr : Option S → Int → Int
  failed : Option S → Int → Int
  fixed : Option S → Int → Int
  enable_verbosity : Option S → Int → Option S
  inc_max_var : Option S → Option S × Int
  sat : Option S → Int → Option S × Int
  set_output : Option S → Option S
  set_prefix : Option S → String → Option S
  melt : Option (Option S → Int → Option S)
  setterm : Option (Option S → Option S)
  clone : Option (Option S → Option S)

/-- Modelled from the spec: the record `BtorSATMgr` of `btorsat.h` (absent),
with the fields `btorsat.c` uses.  `verbosity` stands for the option
`BTOR_OPT_VERBOSITY` read through `smgr->msg->btor`.  The memory manager, the
message and output streams, the termination callback and the time spent
(`sat_time`, a `double`) are left out. -/
structure BtorSATMgr (S : Type) where
  name : String
  optstr : Option String
  solver : Option S
  inc_required : Bool
  initialized : Bool
  maxvar : Int
  clauses : Int
  satcalls : Int
  true_lit : Int
  verbosity : Int
  api : BtorSATApi S

variable {S : Type}

/-- The record is zero-initialised (`BTOR_CNEW`); `btor_enable_default_sat`
(absent) installs the name and the function table of the configured backend,
which are parameters here. -/
def btor_sat_mgr_new (name : String) (api : BtorSATApi S) (verbosity : Int) :
    BtorSATMgr S :=
  { name := name, optstr := none, solver := none, inc_required := false,
    initialized := false, maxvar := 0, clauses := 0, satcalls := 0, true_lit := 0,
    verbosity := verbosity, api := api }

def btor_sat_is_initialized (smgr : BtorSATMgr S) : Bool :=
  smgr.initialized

def btor_sat_mgr_next_cnf_id (smgr : BtorSATMgr S) : SatOutcome (BtorSATMgr S × Int) := do
  sat_assert smgr.initialized "smgr->initialized"
  let r := smgr.api.inc_max_var smgr.solver
  let smgr := { smgr with solver := r.1 }
  let result := r.2
  let smgr := if c_abs result > smgr.maxvar then { smgr with maxvar := c_abs result } else smgr
  BTOR_ABORT (result <= 0) "CNF id overflow"
  -- the progress message at verbosity > 2 only writes to the log
  return (smgr, result)

def btor_sat_add (smgr : BtorSATMgr S) (lit : Int) : SatOutcome (BtorSATMgr S) := do
  sat_assert smgr.initialized "smgr->initialized"
  sat_assert (c_abs lit <= smgr.maxvar) "abs (lit) <= smgr->maxvar"
  sat_assert (smgr.satcalls == 0 || smgr.inc_required) "!smgr->satcalls || smgr->inc_required"
  let smgr := if lit == 0 then { smgr with clauses := smgr.clauses + 1 } else smgr
  return { smgr with solver := smgr.api.add smgr.solver lit }

/-- The prefix handed to the backend is the name in lower case between
brackets. -/
def btor_sat_set_output (smgr : BtorSATMgr S) : SatOutcome (BtorSATMgr S) := do
  sat_assert smgr.initialized "smgr->initialized"
  let smgr := { smgr with solver := smgr.api.set_output smgr.solver }
  let pfx := "[" ++ smgr.name.map Char.toLower ++ "] "
  return { smgr with solver := smgr.api.set_prefix smgr.solver pfx }

def btor_sat_init (smgr : BtorSATMgr S) : SatOutcome (BtorSATMgr S) := do
  sat_assert (!smgr.initialized) "!smgr->initialized"
  let smgr := { smgr with solver := smgr.api.init }
  let smgr := { smgr with solver := smgr.api.enable_verbosity smgr.solver smgr.verbosity }
  let smgr := { smgr with initialized := true }
  let smgr := { smgr with inc_required := true }
  let r ← btor_sat_mgr_next_cnf_id smgr
  let smgr := { r.1 with true_lit := r.2 }
  let smgr ← btor_sat_add smgr smgr.true_lit
  let smgr ← btor_sat_add smgr 0
  btor_sat_set_output smgr

def btor_sat_sat (smgr : BtorSATMgr S) (limit : Int) :
    SatOutcome (BtorSATMgr S × BtorSolverResult) := do
  sat_assert smgr.initialized "smgr->initialized"
  sat_assert (smgr.satcalls == 0 || smgr.inc_required) "!smgr->satcalls || smgr->inc_required"
  let smgr := { smgr with satcalls := smgr.satcalls + 1 }
  let smgr :=
    match smgr.api.setterm with
    | some setterm => { smgr with solver := setterm smgr.solver }
    | none => smgr
  let r := smgr.api.sat smgr.solver limit
  let smgr := { smgr with solver := r.1 }
  let sat_res := r.2
  if sat_res == 10 then return (smgr, .BTOR_RESULT_SAT)
  else if sat_res == 20 then return (smgr, .BTOR_RESULT_UNSAT)
  else do
    sat_assert (sat_res == 0) "sat_res == 0"
    return (smgr, .BTOR_RESULT_UNKNOWN)

def btor_sat_deref (smgr : BtorSATMgr S) (lit : Int) : SatOutcome Int := do
  sat_assert smgr.initialized "smgr->initialized"
  sat_assert (c_abs lit <= smgr.maxvar) "abs (lit) <= smgr->maxvar"
  return smgr.api.deref smgr.solver lit

def btor_sat_repr (smgr : BtorSATMgr S) (lit : Int) : SatOutcome Int := do
  sat_assert smgr.initialized "smgr->initialized"
  sat_assert (c_abs lit <= smgr.maxvar) "abs (lit) <= smgr->maxvar"
  return smgr.api.repr smgr.solver lit

def btor_sat_reset (smgr : BtorSATMgr S) : SatOutcome (BtorSATMgr S) := do
  sat_assert smgr.initialized "smgr->initialized"
  -- smgr->api.reset (smgr) gives the backend instance back
  let smgr := { smgr with solver := none }
  let smgr := if smgr.optstr.isSome then { smgr with optstr := none } else smgr
  return { smgr with initialized := false }

def btor_sat_fixed (smgr : BtorSATMgr S) (lit : Int) : SatOutcome Int := do
  sat_assert smgr.initialized "smgr->initialized"
  sat_assert (c_abs lit <= smgr.maxvar) "abs (lit) <= smgr->maxvar"
  let res := smgr.api.fixed smgr.solver lit
  return res

def btor_sat_assume (smgr : BtorSATMgr S) (lit : Int) : SatOutcome (BtorSATMgr S) := do
  sat_assert smgr.initialized "smgr->initialized"
  sat_assert (c_abs lit <= smgr.maxvar) "abs (lit) <= smgr->maxvar"
  sat_assert (smgr.satcalls == 0 || smgr.inc_required) "!smgr->satcalls || smgr->inc_required"
  return { smgr with solver := smgr.api.assume smgr.solver lit }

def btor_sat_failed (smgr : BtorSATMgr S) (lit : Int) : SatOutcome Int := do
  sat_assert smgr.initialized "smgr->initialized"
  sat_assert (c_abs lit <= smgr.maxvar) "abs (lit) <= smgr->maxvar"
  return smgr.api.failed smgr.solver lit

/-- One operation on a SAT manager, with its arguments. -/
inductive SatOp where
  | init
  | add (lit : Int)
  | assume (lit : Int)
  | sat (limit : Int)
  | reset

/-- Executes one operation. -/
def sat_step (smgr : BtorSATMgr S) : SatOp → SatOutcome (BtorSATMgr S)
  | .init => btor_sat_init smgr
  | .add lit => btor_sat_add smgr lit
  | .assume lit => btor_sat_assume smgr lit
  | .sat limit => do
    let r ← btor_sat_sat smgr limit
    return r.1
  | .reset => btor_sat_reset smgr

/-- Executes a sequence of operations, each on the manager the previous one
left. -/
def sat_run : BtorSATMgr S → List SatOp → SatOutcome (BtorSATMgr S)
  | smgr, [] => .ok smgr
  | smgr, op :: ops => do
    let smgr ← sat_step smgr op
    sat_run smgr ops

/-- The code the backend answers to the solve call `btor_sat_sat (smgr, limit)`. -/
def backend_sat_code (smgr : BtorSATMgr S) (limit : Int) : Int :=
  let solver :=
    match smgr.api.setterm with
    | some setterm => setterm smgr.solver
    | none => smgr.solver
  (smgr.api.sat solver limit).2

/-- The manager is the result of a sequence of returning operations on a new
manager. -/
def SatReachable (smgr : BtorSATMgr S) : Prop :=
  ∃ (name : String) (api : BtorSATApi S) (verbosity : Int) (ops : List SatOp),
    sat_run (btor_sat_mgr_new name api verbosity) ops = .ok smgr

/-- The variable the backend hands out first once `btor_sat_init` has set it
up: the value that becomes the true literal. -/
def first_cnf_id (smgr : BtorSATMgr S) : Int :=
  (smgr.api.inc_max_var (smgr.api.enable_verbosity smgr.api.init smgr.verbosity)).2

/-- The backend answers every solve call with one of the codes 0, 10, 20. -/
def BackendCodes (api : BtorSATApi S) : Prop :=
  ∀ (h : Option S) (limit : Int),
    (api.sat h limit).2 = 0 ∨ (api.sat h limit).2 = 10 ∨ (api.sat h limit).2 = 20

/-- The manager may be null (`none`); a null manager is reported as supporting
clones. -/
def btor_sat_mgr_has_clone_support (smgr : Option (BtorSATMgr S)) : Bool :=
  match smgr with
  | none => true
  | some smgr => smgr.api.clone.isSome

/-- Gives the source manager as the call leaves it and the copy.  `msg` is the
verbosity behind the message handle of the copy (`res->msg = msg`); the
handles `mm` and `msg` are taken non-null.  Modelled from the spec: in the
record of `btorsat.h` (absent) the function table and the state fields
`initialized`, `maxvar`, `clauses`, `satcalls`, `true_lit` follow
`inc_required`, so that the closing `memcpy`, which copies from
`inc_required` to the end of the record, copies them all.  The assertion on
`sat_allocated` is about the memory manager, which is left out. -/
def btor_sat_mgr_clone (msg : Int) (smgr : BtorSATMgr S) :
    SatOutcome (BtorSATMgr S × BtorSATMgr S) := do
  sat_assert (btor_sat_mgr_has_clone_support (some smgr))
    "btor_sat_mgr_has_clone_support (smgr)"
  BTOR_ABORT (!btor_sat_mgr_has_clone_support (some smgr))
    "SAT solver does not support cloning"
  match smgr.api.clone with
  | none =>
    -- not reached: BTOR_ABORT has stopped the process
    .abort "SAT solver does not support cloning"
  | some clone =>
    let res : BtorSATMgr S :=
      { solver := clone smgr.solver
        verbosity := msg
        name := smgr.name
        optstr := smgr.optstr
        -- memcpy (&res->inc_required, &smgr->inc_required, ...)
        inc_required := smgr.inc_required
        initialized := smgr.initialized
        maxvar := smgr.maxvar
        clauses := smgr.clauses
        satcalls := smgr.satcalls
        true_lit := smgr.true_lit
        api := smgr.api }
    return (smgr, res)

def btor_sat_mgr_release_cnf_id (smgr : BtorSATMgr S) (lit : Int) :
    SatOutcome (BtorSATMgr S) :=
  if !smgr.initialized then .ok smgr
  else do
    sat_assert (c_abs lit <= smgr.maxvar) "abs (lit) <= smgr->maxvar"
    if c_abs lit == smgr.true_lit then return smgr
    else
      match smgr.api.melt with
      | some melt => return { smgr with solver := melt smgr.solver lit }
      | none => return smgr

/-- One operation on a SAT manager, the handing out and the release of
variables included. -/
inductive CnfOp where
  | op (o : SatOp)
  | next_cnf_id
  | release_cnf_id (lit : Int)

/-- Executes one operation; gives the manager and the ids that
`btor_sat_mgr_next_cnf_id` returned during it: `btor_sat_init` stores the one
it asks for in `true_lit`. -/
def cnf_step (smgr : BtorSATMgr S) : CnfOp → SatOutcome (BtorSATMgr S × List Int)
  | .op o => do
    let s ← sat_step smgr o
    match o with
    | .init => return (s, [s.true_lit])
    | _ => return (s, [])
  | .next_cnf_id => do
    let r ← btor_sat_mgr_next_cnf_id smgr
    return (r.1, [r.2])
  | .release_cnf_id lit => do
    let s ← btor_sat_mgr_release_cnf_id smgr lit
    return (s, [])

/-- Executes a sequence of operations; gives the last manager and all ids
handed out on the way, in order. -/
def cnf_run : BtorSATMgr S → List CnfOp → SatOutcome (BtorSATMgr S × List Int)
  | smgr, [] => .ok (smgr, [])
  | smgr, op :: ops => do
    let r ← cnf_step smgr op
    let r2 ← cnf_run r.1 ops
    return (r2.1, r.2 ++ r2.2)

/-! ## The example `bubblesortmem` -/

/-- One call of the example on references: a node-returning call, with the
handles of its node arguments and the handle of the reference it returns, or
the release of a handle. -/
inductive RefEvent where
  | call (fn : String) (args : List Nat) (res : Nat)
  | release (h : Nat)
  deriving DecidableEq

/-- The event is a node-returning call. -/
def RefEvent.is_call : RefEvent → Bool
  | .call _ _ _ => true
  | .release _ => false

/-- The references of a client program: the calls made so far in order, the
numbers of node-returning calls and of releases, the handles of the
references held, and whether every release so far was given a handle that
was held.  The reference a node-returning call returns gets the number of
that call as its handle. -/
structure Ledger where
  log : List RefEvent
  returned : Nat
  released : Nat
  held : List Nat
  valid : Bool
  deriving DecidableEq

/-- The solver after `boolector_new`: no call on references yet. -/
def Ledger.new : Ledger :=
  { log := [], returned := 0, released := 0, held := [], valid := true }

/-- The ledger after a node-returning call has returned. -/
def Ledger.push (l : Ledger) (fn : String) (args : List Nat) : Ledger :=
  { l with log := l.log ++ [.call fn args l.returned], returned := l.returned + 1,
           held := l.returned :: l.held }

/-- A node-returning call: the new ledger and the handle of the reference. -/
def Ledger.call (l : Ledger) (fn : String) (args : List Nat) : Ledger × Nat :=
  (l.push fn args, l.returned)

/-- The call `boolector_release (btor, h)`. -/
def Ledger.release (l : Ledger) (h : Nat) : Ledger :=
  { l with log := l.log ++ [.release h], released := l.released + 1,
           held := l.held.erase h, valid := l.valid && decide (h ∈ l.held) }

/-- The loop `for (i = lo; i < hi; i++)` with `n` iterations to go at
index `i`. -/
def for_loop {σ : Type} (body : Int → σ → σ) : Nat → Int → σ → σ
  | 0, _, s => s
  | n + 1, i, s => for_loop body n (i + 1) (body i s)

/-- The loop `for (i = lo; i < hi; i++)`. -/
def c_for {σ : Type} (lo hi : Int) (body : Int → σ → σ) (s : σ) : σ :=
  for_loop body (hi - lo).toNat lo s

/-- Body of the inner loop of the sorting phase (lines 55 to 77), on the
variables `mem`, `pos`, `pos_p_1`. -/
def swap_step (one : Nat) (s : Ledger × Nat × Nat × Nat) : Ledger × Nat × Nat × Nat :=
  let (l, mem, pos, pos_p_1) := s
  let (l, read1) := l.call "boolector_read" [mem, pos]
  let (l, read2) := l.call "boolector_read" [mem, pos_p_1]
  let (l, ugt) := l.call "boolector_ugt" [read1, read2]
  let (l, cond1) := l.call "boolector_cond" [ugt, read2, read1]
  let (l, cond2) := l.call "boolector_cond" [ugt, read1, read2]
  let (l, temp) := l.call "boolector_write" [mem, pos, cond1]
  let l := l.release mem
  let mem := temp
  let (l, temp) := l.call "boolector_write" [mem, pos_p_1, cond2]
  let l := l.release mem
  let mem := temp
  let l := l.release read1
  let l := l.release read2
  let l := l.release ugt
  let l := l.release cond1
  let l := l.release cond2
  let l := l.release pos
  let (l, pos) := l.call "boolector_copy" [pos_p_1]
  let l := l.release pos_p_1
  let (l, pos_p_1) := l.call "boolector_add" [pos, one]
  (l, mem, pos, pos_p_1)

/-- Body of the outer loop of the sorting phase (lines 51 to 80), on the
variable `mem`. -/
def sort_pass (num_elements : Int) (start one : Nat) (i : Int) (s : Ledger × Nat) :
    Ledger × Nat :=
  let (l, mem) := s
  let (l, pos) := l.call "boolector_copy" [start]
  let (l, pos_p_1) := l.call "boolector_add" [pos, one]
  let (l, mem, pos, pos_p_1) :=
    c_for 0 (num_elements - i) (fun _ s => swap_step one s) (l, mem, pos, pos_p_1)
  let l := l.release pos
  let l := l.release pos_p_1
  (l, mem)

/-- Body of the loop that states sortedness (lines 89 to 102), on the
variables `sorted`, `pos`, `pos_p_1`. -/
def sorted_step (mem one : Nat) (s : Ledger × Nat × Nat × Nat) : Ledger × Nat × Nat × Nat :=
  let (l, sorted, pos, pos_p_1) := s
  let (l, read1) := l.call "boolector_read" [mem, pos]
  let (l, read2) := l.call "boolector_read" [mem, pos_p_1]
  let (l, ulte) := l.call "boolector_ulte" [read1, read2]
  let (l, temp) := l.call "boolector_and" [sorted, ulte]
  let l := l.release sorted
  let sorted := temp
  let l := l.release read1
  let l := l.release read2
  let l := l.release ulte
  let l := l.release pos
  let (l, pos) := l.call "boolector_copy" [pos_p_1]
  let l := l.release pos_p_1
  let (l, pos_p_1) := l.call "boolector_add" [pos, one]
  (l, sorted, pos, pos_p_1)

/-- Body of the loop over the elements of the sorted sequence (lines 116 to
125), on the variables `no_diff_element`, `pos`. -/
def diff_step (mem old_element one : Nat) (s : Ledger × Nat × Nat) : Ledger × Nat × Nat :=
  let (l, no_diff_element, pos) := s
  let (l, read1) := l.call "boolector_read" [mem, pos]
  let (l, ne) := l.call "boolector_ne" [read1, old_element]
  let (l, temp) := l.call "boolector_and" [no_diff_element, ne]
  let l := l.release no_diff_element
  let no_diff_element := temp
  let l := l.release read1
  let l := l.release ne
  let (l, temp) := l.call "boolector_add" [pos, one]
  let l := l.release pos
  let pos := temp
  (l, no_diff_element, pos)

/-- The calls on references that `main` makes for `num_elements` elements, up
to the call of `boolector_delete`: the ledger then, or nothing when `main`
leaves early because `num_elements <= 1`.  The other calls
(`boolector_set_rewrite_level`, `boolector_dump_btor`) neither return nor
release a reference. -/
def bubblesortmem (num_elements : Int) : Option Ledger :=
  if num_elements <= 1 then none
  else
    let l := Ledger.new
    let (l, one) := l.call "boolector_one" []
    let (l, mem) := l.call "boolector_array" []
    let (l, start) := l.call "boolector_var" []
    let (l, num_elements_exp) := l.call "boolector_unsigned_int" []
    let (l, top) := l.call "boolector_add" [start, num_elements_exp]
    let (l, index) := l.call "boolector_var" []
    let (l, ugte) := l.call "boolector_ugte" [index, start]
    let (l, ult) := l.call "boolector_ult" [index, top]
    let (l, range_index) := l.call "boolector_and" [ugte, ult]
    let l := l.release ugte
    let l := l.release ult
    let (l, old_element) := l.call "boolector_read" [mem, index]
    let (l, mem) := c_for 1 num_elements (sort_pass num_elements start one) (l, mem)
    let (l, sorted) := l.call "boolector_true" []
    let (l, pos) := l.call "boolector_copy" [start]
    let (l, pos_p_1) := l.call "boolector_add" [pos, one]
    let (l, sorted, pos, pos_p_1) :=
      c_for 0 (num_elements - 1) (fun _ s => sorted_step mem one s) (l, sorted, pos, pos_p_1)
    let l := l.release pos
    let l := l.release pos_p_1
    let formula := sorted
    let (l, no_diff_element) := l.call "boolector_true" []
    let (l, pos) := l.call "boolector_copy" [start]
    let (l, no_diff_element, pos) :=
      c_for 0 num_elements (fun _ s => diff_step mem old_element one s)
        (l, no_diff_element, pos)
    let l := l.release pos
    let (l, temp) := l.call "boolector_not" [no_diff_element]
    let l := l.release no_diff_element
    let no_diff_element := temp
    let (l, implies) := l.call "boolector_implies" [range_index, no_diff_element]
    let (l, temp) := l.call "boolector_and" [formula, implies]
    let l := l.release formula
    let formula := temp
    let l := l.release implies
    let l := l.release no_diff_element
    let l := l.release range_index
    let (l, temp) := l.call "boolector_not" [formula]
    let l := l.release formula
    let formula := temp
    let l := l.release formula
    let l := l.release old_element
    let l := l.release index
    let l := l.release mem
    let l := l.release start
    let l := l.release top
    let l := l.release num_elements_exp
    let l := l.release one
    some l

/-- The ledger `l` is in order and holds exactly the references `hs`: every
release so far was given a held handle, the handles held are those of `hs`
in some order, the node-returning calls are as many as the releases and the
references held together, and the two counters agree with the log. -/
def Holds (l : Ledger) (hs : List Nat) : Prop :=
  l.valid = true ∧ l.held.Perm hs ∧ l.returned = l.released + hs.length ∧
  l.log.countP RefEvent.is_call = l.returned ∧
  l.log.countP (fun e => !e.is_call) = l.released

/-! ## Concrete instances -/

/-- A small expression layer for concrete runs: the graph is the number of
constructor calls made so far, every constructor returns a reference to a
fresh 8-bit node numbered by it, simplification is the identity. -/
def toyLayer : ExpLayer Nat where
  btor_simplify_exp := fun _ r => r
  exp := fun _ g _ => (g + 1, ⟨false, .mk (g + 1) 1 8 0 false false false []⟩)
  btor_release_exp := fun g _ => g

/-- A fresh solver over `toyLayer`. -/
def toyBtor : Btor Nat :=
  { external_refs := 0, dvn_id := 0, dan_id := 0, dpn_id := 0, graph := 0 }

/-- A small solver core for concrete runs: constraints and assumptions are
counted in the graph, every search answers `BTOR_SAT`, models are constant. -/
def toyCore : CoreLayer Nat where
  btor_add_constraint_exp := fun g _ => g + 1
  btor_add_assumption_exp := fun g _ => g + 1
  search := fun g => (g, BTOR_SAT)
  btor_bv_assignment_exp := fun g _ => (g, "0")
  btor_array_assignment_exp := fun g _ => (g, ([], []))
  btor_clone_btor := fun b => b

/-- A small backend for concrete runs: the instance is the number of variables
handed out so far; every solve call answers 10. -/
def toyApi : BtorSATApi Nat where
  init := some 0
  add := fun h _ => h
  assume := fun h _ => h
  deref := fun _ lit => lit
  repr := fun _ lit => lit
  failed := fun _ _ => 0
  fixed := fun _ _ => 0
  enable_verbosity := fun h _ => h
  inc_max_var := fun h => (h.map (· + 1), (h.getD 0 : Nat) + 1)
  sat := fun h _ => (h, 10)
  set_output := fun h => h
  set_prefix := fun h _ => h
  melt := none
  setterm := none
  clone := none

/-- A new manager over `toyApi`. -/
def toySmgr : BtorSATMgr Nat := btor_sat_mgr_new "Toy" toyApi 0

/-- The toy backend with the optional entries present: `melt` records the
released variable by adding 100 to the instance, `clone` copies the
instance. -/
def cloneApi : BtorSATApi Nat :=
  { toyApi with
    melt := some (fun h _ => h.map (· + 100))
    clone := some (fun h => h) }

/-- An initialized manager over `cloneApi` with two variables handed out, the
first of them the true literal, and one clause. -/
def cloneSmgr : BtorSATMgr Nat :=
  { name := "Toy", optstr := none, solver := some 2, inc_required := true,
    initialized := true, maxvar := 2, clauses := 1, satcalls := 0, true_lit := 1,
    verbosity := 0, api := cloneApi }

/-- An initialized manager over `toyApi` after one solve call, with
`inc_required` not set: one variable, the true literal, and one clause. -/
def staleSmgr : BtorSATMgr Nat :=
  { name := "Toy", optstr := none, solver := some 1, inc_required := false,
    initialized := true, maxvar := 1, clauses := 1, satcalls := 1, true_lit := 1,
    verbosity := 0, api := toyApi }

/-- Reference to a live bit-vector node of width `w`. -/
def bvRef (w : Int) : BtorRef := ⟨false, .mk 1 1 w 0 false false false []⟩

/-- Reference to a live parameter node of width `w`. -/
def paramRef (w : Int) : BtorRef := ⟨false, .mk 1 1 w 0 false true false []⟩

/-- Reference to a live array node with element width `ew` and index width `iw`. -/
def arrayRef (ew iw : Int) : BtorRef := ⟨false, .mk 2 1 ew iw true false false []⟩

/-! ## Basic facts about outcomes -/

@[simp] theorem ok_bind {α β : Type} (a : α) (f : α → Outcome G β) :
    (Outcome.ok a >>= f) = f a := rfl

@[simp] theorem abort_bind {α β : Type} (st : Option (Btor G)) (msg : String)
    (f : α → Outcome G β) : (Outcome.abort st msg >>= f) = Outcome.abort st msg := rfl

@[simp] theorem fault_bind {α β : Type} (f : α → Outcome G β) :
    ((Outcome.fault : Outcome G α) >>= f) = Outcome.fault := rfl

@[simp] theorem pure_eq_ok {α : Type} (a : α) : (pure a : Outcome G α) = Outcome.ok a := rfl

@[simp] theorem null_btor_some (b : Btor G) :
    BTOR_ABORT_ARG_NULL_BOOLECTOR_btor (some b) = .ok b := rfl

@[simp] theorem trapi_some (b : Btor G) : BTOR_TRAPI (some b) = .ok () := rfl

@[simp] theorem null_arg_some {α : Type} (b : Btor G) (a : α) :
    BTOR_ABORT_ARG_NULL_BOOLECTOR b (some a) = .ok a := rfl

@[simp] theorem abort_cond_bind {β : Type} (b : Btor G) (c : Bool) (msg : String)
    (f : Unit → Outcome G β) :
    (BTOR_ABORT_BOOLECTOR b c msg >>= f) = if c then .abort (some b) msg else f () := by
  unfold BTOR_ABORT_BOOLECTOR
  split <;> rfl

@[simp] theorem abort_refs_bind {β : Type} (b : Btor G) (r : BtorRef)
    (f : Unit → Outcome G β) :
    (BTOR_ABORT_REFS_NOT_POS_BOOLECTOR b r >>= f) =
      if r.node.refs < 1 then
        .abort (some b) "reference counter of argument must not be < 1"
      else f () := by
  unfold BTOR_ABORT_REFS_NOT_POS_BOOLECTOR BTOR_REAL_ADDR_NODE
  split <;> rfl

@[simp] theorem abort_array_bind {β : Type} (b : Btor G) (r : BtorRef)
    (f : Unit → Outcome G β) :
    (BTOR_ABORT_ARRAY_BOOLECTOR b r >>= f) =
      if r.node.is_array then .abort (some b) "argument must not be an array"
      else f () := by
  unfold BTOR_ABORT_ARRAY_BOOLECTOR BTOR_REAL_ADDR_NODE
  split <;> rfl

@[simp] theorem abort_bv_bind {β : Type} (b : Btor G) (r : BtorRef)
    (f : Unit → Outcome G β) :
    (BTOR_ABORT_BV_BOOLECTOR b r >>= f) =
      if !r.node.is_array then .abort (some b) "argument must not be a bit-vector"
      else f () := by
  unfold BTOR_ABORT_BV_BOOLECTOR BTOR_REAL_ADDR_NODE
  split <;> rfl

@[simp] theorem abort_ne_bw_bind {β : Type} (b : Btor G) (r1 r2 : BtorRef)
    (f : Unit → Outcome G β) :
    (BTOR_ABORT_NE_BW b r1 r2 >>= f) =
      if r1.node.len ≠ r2.node.len then
        .abort (some b) "bit-width of arguments must not be unequal"
      else f () := by
  unfold BTOR_ABORT_NE_BW BTOR_REAL_ADDR_NODE
  split <;> rfl

/-! ## Reference accounting -/

theorem refsStep_bind {d : Int} {b : Btor G} {α β : Type} {st : β → Btor G}
    (m : Outcome G α) (f : α → Outcome G β)
    (h : ∀ a, RefsStep d b st (f a)) : RefsStep d b st (m >>= f) := by
  intro r hr
  cases m with
  | ok a => exact h a r hr
  | abort s msg => cases hr
  | fault => cases hr

theorem refsStep_fault {d : Int} {b : Btor G} {α : Type} {st : α → Btor G} :
    RefsStep d b st (Outcome.fault : Outcome G α) := by
  intro r hr
  cases hr

theorem refsStep_call {b b2 : Btor G} (x : ExpLayer G) (fn : String) (args : List ExpArg)
    (h : b2.external_refs = b.external_refs) :
    RefsStep 1 b Prod.fst
      (pure (call_exp x fn (inc_external_refs b2) args) : Outcome G (Btor G × BtorRef)) := by
  intro r hr
  cases hr
  simp [call_exp, inc_external_refs, h]

theorem refsStep_ret_node {d : Int} {b : Btor G} {o : Outcome G (Btor G × BtorRef)}
    (h : RefsStep d b Prod.fst o) : RefsStep d b Prod.fst (ret_node o) := by
  intro r hr
  cases o with
  | ok a =>
    cases hr
    exact h a rfl
  | abort s msg => cases hr
  | fault => cases hr

/-- Every node-returning function counts exactly one more external reference
when it returns. -/
theorem run_call_refs (x : ExpLayer G) (b : Btor G) (c : ApiCall)
    (hc : c.returns_node = true) : RefsStep 1 b Prod.fst (run_call x (some b) c) := by
  cases c <;> cases hc
  all_goals apply refsStep_ret_node
  all_goals simp only [boolector_const, boolector_zero, boolector_false, boolector_ones,
    boolector_true, boolector_one, boolector_unsigned_int, boolector_int,
    boolector_var, boolector_array, boolector_not, boolector_neg,
    boolector_redor, boolector_redxor, boolector_redand, boolector_slice,
    boolector_uext, boolector_sext, boolector_implies, boolector_iff,
    boolector_xor, boolector_xnor, boolector_and, boolector_nand,
    boolector_or, boolector_nor, boolector_eq, boolector_ne,
    boolector_add, boolector_uaddo, boolector_saddo, boolector_mul,
    boolector_umulo, boolector_smulo, boolector_ult, boolector_slt,
    boolector_ulte, boolector_slte, boolector_ugt, boolector_sgt,
    boolector_ugte, boolector_sgte, boolector_sll, boolector_srl,
    boolector_sra, boolector_rol, boolector_ror, boolector_sub,
    boolector_usubo, boolector_ssubo, boolector_udiv, boolector_sdiv,
    boolector_sdivo, boolector_urem, boolector_srem, boolector_smod,
    boolector_concat, boolector_read, boolector_write, boolector_cond,
    boolector_lambda, boolector_param, boolector_fun, boolector_apply,
    boolector_inc, boolector_dec, boolector_copy,
    null_btor_some, ok_bind]
  all_goals try split
  all_goals
    repeat (first
      | exact refsStep_call _ _ _ rfl
      | exact refsStep_fault
      | refine refsStep_bind _ _ (fun _ => ?_))

/-- A returning `boolector_release` counts exactly one external reference less. -/
theorem release_refs (x : ExpLayer G) (b : Btor G) (exp : Option BtorRef) :
    RefsStep (-1) b (fun s => s) (boolector_release x (some b) exp) := by
  simp only [boolector_release, null_btor_some, ok_bind]
  refine refsStep_bind _ _ (fun _ => ?_)
  refine refsStep_bind _ _ (fun _ => ?_)
  refine refsStep_bind _ _ (fun _ => ?_)
  intro r hr
  cases hr
  rfl

/-- A sequence of returning calls changes the counter by the number of
node-returning calls minus the number of releases. -/
theorem run_calls_refs (x : ExpLayer G) (cs : List ApiCall) :
    ∀ (b b2 : Btor G), run_calls x b cs = .ok b2 →
      b2.external_refs = b.external_refs + count_returned cs - count_released cs := by
  induction cs with
  | nil =>
    intro b b2 h
    simp only [run_calls, Outcome.ok.injEq] at h
    simp [count_returned, count_released, h]
  | cons c cs ih =>
    intro b b2 h
    simp only [run_calls] at h
    cases hrc : run_call x (some b) c with
    | ok r =>
      rw [hrc, ok_bind] at h
      have h2 := ih r.1 b2 h
      cases hn : c.returns_node with
      | true =>
        have h1 := run_call_refs x b c hn r hrc
        simp only [count_returned, count_released, List.filter_cons, hn] at h2 ⊢
        simp at h2 ⊢
        omega
      | false =>
        cases c <;> cases hn
        rename_i exp
        simp only [run_call, ret_void] at hrc
        cases hrel : boolector_release x (some b) exp with
        | ok b3 =>
          rw [hrel] at hrc
          cases hrc
          have h1 := release_refs x b exp b3 hrel
          simp only [count_returned, count_released, List.filter_cons,
            ApiCall.returns_node] at h2 ⊢
          simp at h1 h2 ⊢
          omega
        | abort s msg => rw [hrel] at hrc; cases hrc
        | fault => rw [hrel] at hrc; cases hrc
    | abort s msg => rw [hrc] at h; cases h
    | fault => rw [hrc] at h; cases h

/-! ## Usage errors and the solver state -/

theorem abortKeeps_bind {b : Btor G} {α β : Type} (m : Outcome G α) (f : α → Outcome G β)
    (hm : AbortKeeps b m) (h : ∀ a, AbortKeeps b (f a)) : AbortKeeps b (m >>= f) := by
  intro st msg hr
  cases m with
  | ok a => exact h a st msg hr
  | abort s msg2 =>
    cases hr
    exact hm _ _ rfl
  | fault => cases hr

theorem abortKeeps_ok {b : Btor G} {α : Type} (a : α) :
    AbortKeeps b (Outcome.ok a : Outcome G α) := by
  intro st msg hr
  cases hr

theorem abortKeeps_pure {b : Btor G} {α : Type} (a : α) :
    AbortKeeps b (pure a : Outcome G α) := abortKeeps_ok a

theorem abortKeeps_fault {b : Btor G} {α : Type} :
    AbortKeeps b (Outcome.fault : Outcome G α) := by
  intro st msg hr
  cases hr

theorem abortKeeps_abort {b : Btor G} {α : Type} (msg : String) :
    AbortKeeps b (Outcome.abort (some b) msg : Outcome G α) := by
  intro st msg2 hr
  cases hr
  rfl

theorem abortKeeps_cond (b : Btor G) (c : Bool) (msg : String) :
    AbortKeeps b (BTOR_ABORT_BOOLECTOR b c msg) := by
  unfold BTOR_ABORT_BOOLECTOR
  split
  · exact abortKeeps_abort _
  · exact abortKeeps_ok _

theorem abortKeeps_null {α : Type} (b : Btor G) (arg : Option α) :
    AbortKeeps b (BTOR_ABORT_ARG_NULL_BOOLECTOR b arg) := by
  unfold BTOR_ABORT_ARG_NULL_BOOLECTOR
  split
  · exact abortKeeps_abort _
  · exact abortKeeps_ok _

theorem abortKeeps_refs (b : Btor G) (arg : BtorRef) :
    AbortKeeps b (BTOR_ABORT_REFS_NOT_POS_BOOLECTOR b arg) := by
  unfold BTOR_ABORT_REFS_NOT_POS_BOOLECTOR
  split
  · exact abortKeeps_abort _
  · exact abortKeeps_ok _

theorem abortKeeps_array (b : Btor G) (arg : BtorRef) :
    AbortKeeps b (BTOR_ABORT_ARRAY_BOOLECTOR b arg) := by
  unfold BTOR_ABORT_ARRAY_BOOLECTOR
  split
  · exact abortKeeps_abort _
  · exact abortKeeps_ok _

theorem abortKeeps_bv (b : Btor G) (arg : BtorRef) :
    AbortKeeps b (BTOR_ABORT_BV_BOOLECTOR b arg) := by
  unfold BTOR_ABORT_BV_BOOLECTOR
  split
  · exact abortKeeps_abort _
  · exact abortKeeps_ok _

theorem abortKeeps_ne_bw (b : Btor G) (arg1 arg2 : BtorRef) :
    AbortKeeps b (BTOR_ABORT_NE_BW b arg1 arg2) := by
  unfold BTOR_ABORT_NE_BW
  split
  · exact abortKeeps_abort _
  · exact abortKeeps_ok _

theorem abortKeeps_trapi (b : Btor G) : AbortKeeps b (BTOR_TRAPI (some b)) :=
  abortKeeps_ok _

theorem abortKeeps_fun_loop (b : Btor G) (params : List (Option BtorRef)) (n : Nat) :
    ∀ i, AbortKeeps b (boolector_fun_loop b params i n) := by
  induction n with
  | zero =>
    intro i
    exact abortKeeps_ok _
  | succ n ih =>
    intro i
    unfold boolector_fun_loop
    split
    · exact abortKeeps_fault
    · exact abortKeeps_abort _
    · exact abortKeeps_bind _ _ (abortKeeps_cond _ _ _) (fun _ =>
        abortKeeps_bind _ _ (abortKeeps_refs _ _) (fun _ => ih _))

theorem abortKeeps_apply_loop (b : Btor G) (args : List (Option BtorRef)) (n : Nat) :
    ∀ cur i, AbortKeeps b (boolector_apply_loop b args cur i n) := by
  induction n with
  | zero =>
    intro cur i
    exact abortKeeps_ok _
  | succ n ih =>
    intro cur i
    unfold boolector_apply_loop
    refine abortKeeps_bind _ _ (abortKeeps_cond _ _ _) (fun _ => ?_)
    split
    · exact ih _ _
    · exact abortKeeps_fault

theorem abortKeeps_ret_node {b : Btor G} {o : Outcome G (Btor G × BtorRef)}
    (h : AbortKeeps b o) : AbortKeeps b (ret_node o) :=
  abortKeeps_bind _ _ h (fun _ => abortKeeps_pure _)

theorem abortKeeps_ret_void {b : Btor G} {o : Outcome G (Btor G)}
    (h : AbortKeeps b o) : AbortKeeps b (ret_void o) :=
  abortKeeps_bind _ _ h (fun _ => abortKeeps_pure _)

/-- Every call other than the three symbol-generating ones raises its usage
errors before it has written to the solver: the state at the abort is the
state at the call. -/
theorem run_call_abort_keeps (x : ExpLayer G) (b : Btor G) (c : ApiCall)
    (hc : c.generates_symbol = false) : AbortKeeps b (run_call x (some b) c) := by
  cases c
  all_goals simp only [run_call]
  all_goals first | refine abortKeeps_ret_node ?_ | refine abortKeeps_ret_void ?_
  all_goals simp only [boolector_const, boolector_zero, boolector_false, boolector_ones,
    boolector_true, boolector_one, boolector_unsigned_int, boolector_int,
    boolector_var, boolector_array, boolector_not, boolector_neg,
    boolector_redor, boolector_redxor, boolector_redand, boolector_slice,
    boolector_uext, boolector_sext, boolector_implies, boolector_iff,
    boolector_xor, boolector_xnor, boolector_and, boolector_nand,
    boolector_or, boolector_nor, boolector_eq, boolector_ne,
    boolector_add, boolector_uaddo, boolector_saddo, boolector_mul,
    boolector_umulo, boolector_smulo, boolector_ult, boolector_slt,
    boolector_ulte, boolector_slte, boolector_ugt, boolector_sgt,
    boolector_ugte, boolector_sgte, boolector_sll, boolector_srl,
    boolector_sra, boolector_rol, boolector_ror, boolector_sub,
    boolector_usubo, boolector_ssubo, boolector_udiv, boolector_sdiv,
    boolector_sdivo, boolector_urem, boolector_srem, boolector_smod,
    boolector_concat, boolector_read, boolector_write, boolector_cond,
    boolector_lambda, boolector_param, boolector_fun, boolector_apply,
    boolector_inc, boolector_dec, boolector_copy,
    boolector_release, null_btor_some, ok_bind]
  all_goals try split
  all_goals cases hc
  all_goals
    repeat (first
      | with_reducible exact abortKeeps_pure _
      | with_reducible exact abortKeeps_fault
      | with_reducible exact abortKeeps_cond _ _ _
      | with_reducible exact abortKeeps_null _ _
      | with_reducible exact abortKeeps_refs _ _
      | with_reducible exact abortKeeps_array _ _
      | with_reducible exact abortKeeps_bv _ _
      | with_reducible exact abortKeeps_ne_bw _ _ _
      | with_reducible exact abortKeeps_trapi _
      | with_reducible exact abortKeeps_fun_loop _ _ _ _
      | with_reducible exact abortKeeps_apply_loop _ _ _ _ _
      | with_reducible refine abortKeeps_bind _ _ ?_ (fun _ => ?_))

/-! ## Powers of two -/

theorem log_2_loop_pow (k : Nat) : ∀ fuel, k ≤ fuel → log_2_loop fuel (2 ^ k) = k := by
  induction k with
  | zero =>
    intro fuel _
    cases fuel <;> simp [log_2_loop]
  | succ k ih =>
    intro fuel hf
    cases fuel with
    | zero => omega
    | succ fuel =>
      have h1 : (2 : Nat) ^ (k + 1) > 1 := by
        have := Nat.one_lt_two_pow (n := k + 1) (by omega)
        omega
      have h2 : (2 : Nat) ^ (k + 1) / 2 = 2 ^ k := by
        rw [pow_succ]; omega
      simp only [log_2_loop, h1, if_true, h2]
      rw [ih fuel (by omega)]

theorem toNat_two_pow (k : Nat) : ((2 : Int) ^ k).toNat = 2 ^ k := by
  have : ((2 : Int) ^ k) = ((2 ^ k : Nat) : Int) := by push_cast; rfl
  rw [this, Int.toNat_natCast]

theorem is_power_of_2_iff (w : Int) :
    btor_is_power_of_2_util w = true ↔ ∃ k : Nat, w = 2 ^ k := by
  unfold btor_is_power_of_2_util
  simp only [decide_eq_true_eq]
  constructor
  · rintro ⟨_, h⟩
    exact ⟨_, h.symm⟩
  · rintro ⟨k, rfl⟩
    refine ⟨by positivity, ?_⟩
    rw [toNat_two_pow, log_2_loop_pow k (2 ^ k) (Nat.lt_two_pow k).le]

theorem log_2_pow (k : Nat) : btor_log_2_util (2 ^ k) = k := by
  unfold btor_log_2_util
  rw [toNat_two_pow, log_2_loop_pow k (2 ^ k) (Nat.lt_two_pow k).le]

/-! ## Claims -/

/-- C1: every returning node-returning call (each constructor and
`boolector_copy`) raises the external reference counter by exactly one, every
returning `boolector_release` lowers it by exactly one, and after any sequence
of returning calls with as many releases as returned references
`boolector_get_refs` reports the value the counter had before the sequence. -/
theorem external_refs_conservation (x : ExpLayer G) (b : Btor G) :
    (∀ (c : ApiCall) (b2 : Btor G) (r : Option BtorRef), c.returns_node = true →
        run_call x (some b) c = .ok (b2, r) → b2.external_refs = b.external_refs + 1) ∧
    (∀ (exp : Option BtorRef) (b2 : Btor G),
        boolector_release x (some b) exp = .ok b2 →
        b2.external_refs = b.external_refs - 1) ∧
    (∀ (cs : List ApiCall) (b2 : Btor G), run_calls x b cs = .ok b2 →
        count_returned cs = count_released cs →
        boolector_get_refs (some b) = .ok (b, b.external_refs) ∧
        boolector_get_refs (some b2) = .ok (b2, b.external_refs)) := by
  refine ⟨?_, ?_, ?_⟩
  · intro c b2 r hc h
    exact run_call_refs x b c hc (b2, r) h
  · intro exp b2 h
    have := release_refs x b exp b2 h
    simpa [sub_eq_add_neg] using this
  · intro cs b2 h hbal
    have h2 := run_calls_refs x cs b b2 h
    refine ⟨rfl, ?_⟩
    have h3 : b2.external_refs = b.external_refs := by omega
    simp [boolector_get_refs, h3]

/-- C1 at a concrete run: a variable is created and copied, both references
are released, and the counter is back at its initial value 0. -/
theorem external_refs_conservation_witness :
    run_calls toyLayer toyBtor
        [.boolector_var 8 (some "v"), .boolector_copy (some (bvRef 8)),
         .boolector_release (some (bvRef 8)), .boolector_release (some (bvRef 8))]
      = .ok { toyBtor with graph := 2 } ∧
    boolector_get_refs (some { toyBtor with graph := 2 })
      = .ok ({ toyBtor with graph := 2 }, 0) :=
  ⟨rfl,
   ((external_refs_conservation toyLayer toyBtor).2.2
      [.boolector_var 8 (some "v"), .boolector_copy (some (bvRef 8)),
       .boolector_release (some (bvRef 8)), .boolector_release (some (bvRef 8))]
      { toyBtor with graph := 2 } rfl rfl).2⟩

/-- C2: each of the 29 binary bit-vector constructors that require equal
operand widths, called with two non-null operands of positive reference
count, is accepted exactly when both operands, as resolved by
`btor_simplify_exp`, are bit-vectors of the same width; a rejected call ends
in a usage error with the solver state (counter and graph) as it was, without
a node having been built. -/
theorem equal_width_constructor_accepts (x : ExpLayer G) (f : BinaryWrapper G)
    (hf : f ∈ equal_width_constructors) (b : Btor G) (e0 e1 : BtorRef)
    (h0 : 0 < e0.node.refs) (h1 : 0 < e1.node.refs) :
    ((f x (some b) (some e0) (some e1)).accepted = true ↔
      (simplify x b e0).node.is_array = false ∧ (simplify x b e1).node.is_array = false ∧
      (simplify x b e0).node.len = (simplify x b e1).node.len) ∧
    ((f x (some b) (some e0) (some e1)).accepted = false →
      ∃ msg, f x (some b) (some e0) (some e1) = .abort (some b) msg) := by
  have r0 : ¬ e0.node.refs < 1 := by omega
  have r1 : ¬ e1.node.refs < 1 := by omega
  simp only [equal_width_constructors, List.mem_cons, List.mem_singleton, List.not_mem_nil,
    or_false] at hf
  rcases hf with rfl | rfl | rfl | rfl | rfl | rfl | rfl | rfl | rfl | rfl | rfl | rfl | rfl | rfl | rfl
    | rfl | rfl | rfl | rfl | rfl | rfl | rfl | rfl | rfl | rfl | rfl | rfl | rfl | rfl
  all_goals
    simp only [boolector_xor, boolector_xnor, boolector_and, boolector_nand, boolector_or,
      boolector_nor, boolector_add, boolector_uaddo, boolector_saddo, boolector_sub,
      boolector_usubo, boolector_ssubo, boolector_mul, boolector_umulo, boolector_smulo,
      boolector_udiv, boolector_sdiv, boolector_sdivo, boolector_urem, boolector_srem,
      boolector_smod, boolector_ult, boolector_slt, boolector_ulte, boolector_slte,
      boolector_ugt, boolector_sgt, boolector_ugte, boolector_sgte,
      null_btor_some, trapi_some, null_arg_some, ok_bind, abort_refs_bind, abort_array_bind,
      abort_ne_bw_bind, pure_eq_ok, r0, r1, if_false, BTOR_REAL_ADDR_NODE]
    split_ifs <;> simp_all [Outcome.accepted]

/-- C2 at a concrete call: `boolector_add` on operands of widths 8 and 16. -/
theorem equal_width_constructor_accepts_witness :
    ((boolector_add toyLayer (some toyBtor) (some (bvRef 8)) (some (bvRef 16))).accepted
        = true ↔
      (simplify toyLayer toyBtor (bvRef 8)).node.is_array = false ∧
      (simplify toyLayer toyBtor (bvRef 16)).node.is_array = false ∧
      (simplify toyLayer toyBtor (bvRef 8)).node.len
        = (simplify toyLayer toyBtor (bvRef 16)).node.len) ∧
    ((boolector_add toyLayer (some toyBtor) (some (bvRef 8)) (some (bvRef 16))).accepted
        = false →
      ∃ msg, boolector_add toyLayer (some toyBtor) (some (bvRef 8)) (some (bvRef 16))
        = .abort (some toyBtor) msg) :=
  equal_width_constructor_accepts toyLayer boolector_add
    (by simp [equal_width_constructors]) toyBtor (bvRef 8) (bvRef 16)
    (by decide) (by decide)

/-- C3, the code at the failing input: `boolector_ne` accepts two live
bit-vector operands of widths 8 and 16 and hands them to `btor_ne_exp`, with
the counter raised, whereas `boolector_eq` rejects the same pair. -/
theorem boolector_ne_accepts_unequal_widths :
    boolector_ne toyLayer (some toyBtor) (some (bvRef 8)) (some (bvRef 16))
      = .ok (call_exp toyLayer "btor_ne_exp" (inc_external_refs toyBtor)
          [.node (bvRef 8), .node (bvRef 16)]) ∧
    boolector_eq toyLayer (some toyBtor) (some (bvRef 8)) (some (bvRef 16))
      = .abort (some toyBtor) "bit-vectors must not have unequal bit-width" :=
  ⟨rfl, rfl⟩

/-- C4: with non-null operands of positive reference count, `boolector_read`
is accepted exactly when (after `btor_simplify_exp`) the first operand is an
array, the index is a bit-vector and its width is the index width of the
array; `boolector_write` exactly when in addition the value is a bit-vector
whose width is the element width of the array. -/
theorem array_access_accepts (x : ExpLayer G) (b : Btor G) (a i v : BtorRef)
    (ha : 0 < a.node.refs) (hi : 0 < i.node.refs) (hv : 0 < v.node.refs) :
    ((boolector_read x (some b) (some a) (some i)).accepted = true ↔
      (simplify x b a).node.is_array = true ∧ (simplify x b i).node.is_array = false ∧
      (simplify x b a).node.index_len = (simplify x b i).node.len) ∧
    ((boolector_write x (some b) (some a) (some i) (some v)).accepted = true ↔
      ((simplify x b a).node.is_array = true ∧ (simplify x b i).node.is_array = false ∧
        (simplify x b a).node.index_len = (simplify x b i).node.len) ∧
      (simplify x b v).node.is_array = false ∧
      (simplify x b a).node.len = (simplify x b v).node.len) := by
  have ra : ¬ a.node.refs < 1 := by omega
  have ri : ¬ i.node.refs < 1 := by omega
  have rv : ¬ v.node.refs < 1 := by omega
  constructor
  · simp only [boolector_read, null_btor_some, trapi_some, null_arg_some, ok_bind,
      abort_refs_bind, abort_array_bind, abort_bv_bind, abort_cond_bind, pure_eq_ok, ra, ri,
      if_false, BTOR_REAL_ADDR_NODE]
    split_ifs <;> simp_all [Outcome.accepted]
  · simp only [boolector_write, null_btor_some, trapi_some, null_arg_some, ok_bind,
      abort_refs_bind, abort_array_bind, abort_bv_bind, abort_cond_bind, pure_eq_ok, ra, ri,
      rv, if_false, BTOR_REAL_ADDR_NODE]
    split_ifs <;> simp_all [Outcome.accepted]

/-- C4 at a concrete call: an array with 8-bit elements and 4-bit indices, a
4-bit index and an 8-bit value. -/
theorem array_access_accepts_witness :
    ((boolector_read toyLayer (some toyBtor) (some (arrayRef 8 4)) (some (bvRef 4))).accepted
        = true ↔
      (simplify toyLayer toyBtor (arrayRef 8 4)).node.is_array = true ∧
      (simplify toyLayer toyBtor (bvRef 4)).node.is_array = false ∧
      (simplify toyLayer toyBtor (arrayRef 8 4)).node.index_len
        = (simplify toyLayer toyBtor (bvRef 4)).node.len) ∧
    ((boolector_write toyLayer (some toyBtor) (some (arrayRef 8 4)) (some (bvRef 4))
        (some (bvRef 8))).accepted = true ↔
      ((simplify toyLayer toyBtor (arrayRef 8 4)).node.is_array = true ∧
        (simplify toyLayer toyBtor (bvRef 4)).node.is_array = false ∧
        (simplify toyLayer toyBtor (arrayRef 8 4)).node.index_len
          = (simplify toyLayer toyBtor (bvRef 4)).node.len) ∧
      (simplify toyLayer toyBtor (bvRef 8)).node.is_array = false ∧
      (simplify toyLayer toyBtor (arrayRef 8 4)).node.len
        = (simplify toyLayer toyBtor (bvRef 8)).node.len) :=
  array_access_accepts toyLayer toyBtor (arrayRef 8 4) (bvRef 4) (bvRef 8)
    (by decide) (by decide) (by decide)

/-- C5: with non-null operands of positive reference count, `boolector_cond`
is accepted exactly when (after `btor_simplify_exp`) the condition is a
bit-vector of width 1 and the two branches have the same sort: both
bit-vectors of equal width, or both arrays of equal element and index width. -/
theorem cond_accepts (x : ExpLayer G) (b : Btor G) (c t e : BtorRef)
    (hc : 0 < c.node.refs) (ht : 0 < t.node.refs) (he : 0 < e.node.refs) :
    (boolector_cond x (some b) (some c) (some t) (some e)).accepted = true ↔
      ((simplify x b c).node.is_array = false ∧ (simplify x b c).node.len = 1) ∧
      (((simplify x b t).node.is_array = false ∧ (simplify x b e).node.is_array = false ∧
          (simplify x b t).node.len = (simplify x b e).node.len) ∨
        ((simplify x b t).node.is_array = true ∧ (simplify x b e).node.is_array = true ∧
          (simplify x b t).node.len = (simplify x b e).node.len ∧
          (simplify x b t).node.index_len = (simplify x b e).node.index_len)) := by
  have rc : ¬ c.node.refs < 1 := by omega
  have rt : ¬ t.node.refs < 1 := by omega
  have re : ¬ e.node.refs < 1 := by omega
  simp only [boolector_cond, null_btor_some, trapi_some, null_arg_some, ok_bind,
    abort_refs_bind, abort_array_bind, abort_cond_bind, pure_eq_ok, rc, rt, re, if_false,
    BTOR_REAL_ADDR_NODE]
  cases hta : (simplify x b t).node.is_array <;> cases hea : (simplify x b e).node.is_array <;>
    split_ifs <;> simp_all [Outcome.accepted]

/-- C5 at a concrete call: a 1-bit condition choosing between two arrays with
8-bit elements and 4-bit indices. -/
theorem cond_accepts_witness :
    (boolector_cond toyLayer (some toyBtor) (some (bvRef 1)) (some (arrayRef 8 4))
        (some (arrayRef 8 4))).accepted = true ↔
      ((simplify toyLayer toyBtor (bvRef 1)).node.is_array = false ∧
        (simplify toyLayer toyBtor (bvRef 1)).node.len = 1) ∧
      (((simplify toyLayer toyBtor (arrayRef 8 4)).node.is_array = false ∧
          (simplify toyLayer toyBtor (arrayRef 8 4)).node.is_array = false ∧
          (simplify toyLayer toyBtor (arrayRef 8 4)).node.len
            = (simplify toyLayer toyBtor (arrayRef 8 4)).node.len) ∨
        ((simplify toyLayer toyBtor (arrayRef 8 4)).node.is_array = true ∧
          (simplify toyLayer toyBtor (arrayRef 8 4)).node.is_array = true ∧
          (simplify toyLayer toyBtor (arrayRef 8 4)).node.len
            = (simplify toyLayer toyBtor (arrayRef 8 4)).node.len ∧
          (simplify toyLayer toyBtor (arrayRef 8 4)).node.index_len
            = (simplify toyLayer toyBtor (arrayRef 8 4)).node.index_len)) :=
  cond_accepts toyLayer toyBtor (bvRef 1) (arrayRef 8 4) (arrayRef 8 4)
    (by decide) (by decide) (by decide)

/-- C6: for bit-vector operands of positive reference count, each of
`boolector_sll`, `srl`, `sra`, `rol` and `ror` is accepted exactly when the
width of the first operand is a power of two `2 ^ k` and the width of the
second is `k`; the five constructors accept the same operand pairs. -/
theorem shift_constructor_accepts (x : ExpLayer G) (f : BinaryWrapper G)
    (hf : f ∈ shift_constructors) (b : Btor G) (e0 e1 : BtorRef)
    (h0 : 0 < e0.node.refs) (h1 : 0 < e1.node.refs)
    (hb0 : (simplify x b e0).node.is_array = false)
    (hb1 : (simplify x b e1).node.is_array = false) :
    ((f x (some b) (some e0) (some e1)).accepted = true ↔
      ∃ k : Nat, (simplify x b e0).node.len = 2 ^ k ∧ (simplify x b e1).node.len = k) ∧
    (∀ g ∈ shift_constructors,
      (g x (some b) (some e0) (some e1)).accepted
        = (f x (some b) (some e0) (some e1)).accepted) := by
  have r0 : ¬ e0.node.refs < 1 := by omega
  have r1 : ¬ e1.node.refs < 1 := by omega
  have key : ∀ g ∈ (shift_constructors : List (BinaryWrapper G)),
      (g x (some b) (some e0) (some e1)).accepted
        = (btor_is_power_of_2_util (simplify x b e0).node.len &&
            decide (btor_log_2_util (simplify x b e0).node.len
              = (simplify x b e1).node.len)) := by
    intro g hg
    simp only [shift_constructors, List.mem_cons, List.mem_singleton, List.not_mem_nil,
      or_false] at hg
    rcases hg with rfl | rfl | rfl | rfl | rfl
    all_goals
      simp only [boolector_sll, boolector_srl, boolector_sra, boolector_rol, boolector_ror,
        null_btor_some, trapi_some, null_arg_some, ok_bind, abort_refs_bind,
        abort_array_bind, abort_cond_bind, pure_eq_ok, r0, r1, hb0, hb1, if_false,
        BTOR_REAL_ADDR_NODE]
      split_ifs <;> simp_all [Outcome.accepted]
  constructor
  · rw [key f hf, Bool.and_eq_true, is_power_of_2_iff, decide_eq_true_eq]
    constructor
    · rintro ⟨⟨k, hk⟩, hl⟩
      refine ⟨k, hk, ?_⟩
      rw [← hl, hk, log_2_pow]
    · rintro ⟨k, hk, hl⟩
      refine ⟨⟨k, hk⟩, ?_⟩
      rw [hk, log_2_pow, hl]
  · intro g hg
    rw [key g hg, key f hf]

/-- C6 at a concrete call: `boolector_sll` on an 8-bit operand and a 3-bit
shift amount. -/
theorem shift_constructor_accepts_witness :
    ((boolector_sll toyLayer (some toyBtor) (some (bvRef 8)) (some (bvRef 3))).accepted
        = true ↔
      ∃ k : Nat, (simplify toyLayer toyBtor (bvRef 8)).node.len = 2 ^ k ∧
        (simplify toyLayer toyBtor (bvRef 3)).node.len = k) ∧
    (∀ g ∈ (shift_constructors : List (BinaryWrapper Nat)),
      (g toyLayer (some toyBtor) (some (bvRef 8)) (some (bvRef 3))).accepted
        = (boolector_sll toyLayer (some toyBtor) (some (bvRef 8))
            (some (bvRef 3))).accepted) :=
  shift_constructor_accepts toyLayer boolector_sll (by simp [shift_constructors]) toyBtor
    (bvRef 8) (bvRef 3) (by decide) (by decide) rfl rfl

/-- C7: for a bit-vector operand of width `w` and positive reference count,
`boolector_slice` is accepted exactly when `0 <= lower <= upper < w`; a
rejected call ends in a usage error with the solver state as it was: the
counter has not been raised and `btor_slice_exp` has not run. -/
theorem slice_accepts (x : ExpLayer G) (b : Btor G) (exp : BtorRef) (upper lower : Int)
    (h : 0 < exp.node.refs) (hbv : (simplify x b exp).node.is_array = false) :
    ((boolector_slice x (some b) (some exp) upper lower).accepted = true ↔
      0 ≤ lower ∧ lower ≤ upper ∧ upper < (simplify x b exp).node.len) ∧
    ((boolector_slice x (some b) (some exp) upper lower).accepted = false →
      ∃ msg, boolector_slice x (some b) (some exp) upper lower = .abort (some b) msg) := by
  have r : ¬ exp.node.refs < 1 := by omega
  simp only [boolector_slice, null_btor_some, trapi_some, null_arg_some, ok_bind,
    abort_refs_bind, abort_array_bind, abort_cond_bind, pure_eq_ok, r, hbv, if_false,
    BTOR_REAL_ADDR_NODE]
  split_ifs <;> simp_all [Outcome.accepted]

/-- C7 at a concrete call: bits 7 down to 4 of a 16-bit operand. -/
theorem slice_accepts_witness :
    ((boolector_slice toyLayer (some toyBtor) (some (bvRef 16)) 7 4).accepted = true ↔
      (0 : Int) ≤ 4 ∧ (4 : Int) ≤ 7 ∧ 7 < (simplify toyLayer toyBtor (bvRef 16)).node.len) ∧
    ((boolector_slice toyLayer (some toyBtor) (some (bvRef 16)) 7 4).accepted = false →
      ∃ msg, boolector_slice toyLayer (some toyBtor) (some (bvRef 16)) 7 4
        = .abort (some toyBtor) msg) :=
  slice_accepts toyLayer toyBtor (bvRef 16) 7 4 (by decide) rfl

/-- C8: for bit-vector operands of positive reference count whose widths are
32-bit `int`s not below 1, `boolector_concat` is accepted exactly when the sum
of the widths, taken over the integers, is at most `INT_MAX`; the subtraction
`INT_MAX - width(e1)` of the check does not overflow, and the width of an
accepted result does not wrap around. -/
theorem concat_accepts (x : ExpLayer G) (b : Btor G) (e0 e1 : BtorRef)
    (h0 : 0 < e0.node.refs) (h1 : 0 < e1.node.refs)
    (hb0 : (simplify x b e0).node.is_array = false)
    (hb1 : (simplify x b e1).node.is_array = false)
    (w0 : 1 ≤ (simplify x b e0).node.len ∧ (simplify x b e0).node.len ≤ INT_MAX)
    (w1 : 1 ≤ (simplify x b e1).node.len ∧ (simplify x b e1).node.len ≤ INT_MAX) :
    ((boolector_concat x (some b) (some e0) (some e1)).accepted = true ↔
      (simplify x b e0).node.len + (simplify x b e1).node.len ≤ INT_MAX) ∧
    wrap32 (INT_MAX - (simplify x b e1).node.len) = INT_MAX - (simplify x b e1).node.len ∧
    ((boolector_concat x (some b) (some e0) (some e1)).accepted = true →
      wrap32 ((simplify x b e0).node.len + (simplify x b e1).node.len)
        = (simplify x b e0).node.len + (simplify x b e1).node.len) := by
  have r0 : ¬ e0.node.refs < 1 := by omega
  have r1 : ¬ e1.node.refs < 1 := by omega
  have hw : wrap32 (INT_MAX - (simplify x b e1).node.len)
      = INT_MAX - (simplify x b e1).node.len := by
    unfold wrap32 INT_MAX at *
    omega
  have hacc : (boolector_concat x (some b) (some e0) (some e1)).accepted = true ↔
      (simplify x b e0).node.len + (simplify x b e1).node.len ≤ INT_MAX := by
    simp only [boolector_concat, null_btor_some, trapi_some, null_arg_some, ok_bind,
      abort_refs_bind, abort_array_bind, abort_cond_bind, pure_eq_ok, r0, r1, hb0, hb1,
      if_false, BTOR_REAL_ADDR_NODE, hw]
    split_ifs with hc <;> simp_all [Outcome.accepted] <;> omega
  refine ⟨hacc, hw, ?_⟩
  intro ha
  have := hacc.mp ha
  unfold wrap32 INT_MAX at *
  omega

/-- C8 at a concrete call: the concatenation of two 8-bit operands. -/
theorem concat_accepts_witness :
    ((boolector_concat toyLayer (some toyBtor) (some (bvRef 8)) (some (bvRef 8))).accepted
        = true ↔
      (simplify toyLayer toyBtor (bvRef 8)).node.len
        + (simplify toyLayer toyBtor (bvRef 8)).node.len ≤ INT_MAX) ∧
    wrap32 (INT_MAX - (simplify toyLayer toyBtor (bvRef 8)).node.len)
      = INT_MAX - (simplify toyLayer toyBtor (bvRef 8)).node.len ∧
    ((boolector_concat toyLayer (some toyBtor) (some (bvRef 8)) (some (bvRef 8))).accepted
        = true →
      wrap32 ((simplify toyLayer toyBtor (bvRef 8)).node.len
          + (simplify toyLayer toyBtor (bvRef 8)).node.len)
        = (simplify toyLayer toyBtor (bvRef 8)).node.len
          + (simplify toyLayer toyBtor (bvRef 8)).node.len) :=
  concat_accepts toyLayer toyBtor (bvRef 8) (bvRef 8) (by decide) (by decide) rfl rfl
    (by decide) (by decide)

/-- C9, the code at the failing input: `boolector_uext` and `boolector_sext`
accept the extension of an 8-bit operand by `INT_MAX` bits and pass it on to
the expression layer, although the result width `8 + INT_MAX` exceeds
`INT_MAX` and wraps to a negative `int`; `boolector_concat` rejects the same
pair of widths. -/
theorem ext_accepts_overflowing_width :
    boolector_uext toyLayer (some toyBtor) (some (bvRef 8)) INT_MAX
      = .ok (call_exp toyLayer "btor_uext_exp" (inc_external_refs toyBtor)
          [.node (bvRef 8), .int INT_MAX]) ∧
    boolector_sext toyLayer (some toyBtor) (some (bvRef 8)) INT_MAX
      = .ok (call_exp toyLayer "btor_sext_exp" (inc_external_refs toyBtor)
          [.node (bvRef 8), .int INT_MAX]) ∧
    (bvRef 8).node.len + INT_MAX > INT_MAX ∧
    wrap32 ((bvRef 8).node.len + INT_MAX) = -2147483641 ∧
    boolector_concat toyLayer (some toyBtor) (some (bvRef 8)) (some (bvRef INT_MAX))
      = .abort (some toyBtor) "bit-width of result is too large" :=
  ⟨rfl, rfl, by decide, by decide, rfl⟩

/-- C10, the code at the failing input: `boolector_var`, `boolector_array` and
`boolector_param`, called with a null symbol and a width of 0, raise the
usage error after the name counter (`dvn_id`, `dan_id`, `dpn_id`) has been
advanced from 0 to 1; with a symbol given, the same error leaves the solver
state as it was. -/
theorem null_symbol_abort_advances_counter :
    boolector_var toyLayer (some toyBtor) 0 none
      = .abort (some { toyBtor with dvn_id := 1 }) "width must not be < 1" ∧
    boolector_array toyLayer (some toyBtor) 0 0 none
      = .abort (some { toyBtor with dan_id := 1 }) "elem_width must not be < 1" ∧
    boolector_param toyLayer (some toyBtor) 0 none
      = .abort (some { toyBtor with dpn_id := 1 }) "width must not be < 1" ∧
    boolector_var toyLayer (some toyBtor) 0 (some "v")
      = .abort (some toyBtor) "width must not be < 1" :=
  ⟨rfl, rfl, rfl, rfl⟩

/-- C11, the code at the failing input: called with a null solver pointer,
`boolector_read` and `boolector_clone` read `btor->apitrace` in the trace step
before any null check (`boolector_clone` has none at all), a field access
through the null pointer instead of the usage error; a wrapper that checks
first, such as `boolector_write`, raises the usage error. -/
theorem null_btor_read_clone_fault (x : ExpLayer G) (c : CoreLayer G)
    (e_array e_index e_value : Option BtorRef) :
    boolector_read x none e_array e_index = .fault ∧
    boolector_clone c (none : Option (Btor G)) = .fault ∧
    boolector_write x none e_array e_index e_value
      = .abort none "btor must not be NULL" :=
  ⟨rfl, rfl, rfl⟩

/-- C12: `boolector_assert` is accepted exactly when `exp` is non-null, has a
positive reference count, and (after `btor_simplify_exp`) is not an array and
has width 1; `boolector_assume` exactly when in addition incremental usage is
enabled.  Neither call changes the external reference counter, whether it
returns or is rejected. -/
theorem assert_assume_accepts (x : ExpLayer G) (c : CoreLayer G) (b : Btor G)
    (exp : Option BtorRef) :
    ((boolector_assert x c (some b) exp).accepted = true ↔
      ∃ e, exp = some e ∧ 0 < e.node.refs ∧ (simplify x b e).node.is_array = false ∧
        (simplify x b e).node.len = 1) ∧
    ((boolector_assume x c (some b) exp).accepted = true ↔
      b.inc_enabled = true ∧
      ∃ e, exp = some e ∧ 0 < e.node.refs ∧ (simplify x b e).node.is_array = false ∧
        (simplify x b e).node.len = 1) ∧
    (∀ b2, boolector_assert x c (some b) exp = .ok b2 →
      b2.external_refs = b.external_refs) ∧
    (∀ b2, boolector_assume x c (some b) exp = .ok b2 →
      b2.external_refs = b.external_refs) ∧
    (∀ st msg, boolector_assert x c (some b) exp = .abort st msg → st = some b) ∧
    (∀ st msg, boolector_assume x c (some b) exp = .abort st msg → st = some b) := by
  cases exp with
  | none =>
    simp only [boolector_assert, boolector_assume, null_btor_some, trapi_some, ok_bind,
      abort_cond_bind, BTOR_ABORT_ARG_NULL_BOOLECTOR, abort_bind]
    refine ⟨?_, ?_, ?_, ?_, ?_, ?_⟩ <;> (try split_ifs) <;> simp_all [Outcome.accepted]
  | some e =>
    simp only [boolector_assert, boolector_assume, null_btor_some, trapi_some,
      null_arg_some, ok_bind, abort_refs_bind, abort_array_bind, abort_cond_bind,
      pure_eq_ok, BTOR_REAL_ADDR_NODE]
    refine ⟨?_, ?_, ?_, ?_, ?_, ?_⟩ <;> split_ifs <;> simp_all [Outcome.accepted] <;>
      omega

/-- C12 at a concrete call: a live 1-bit node is asserted and assumed on the
fresh toy solver (incremental usage off). -/
theorem assert_assume_accepts_witness :
    (boolector_assert toyLayer toyCore (some toyBtor) (some (bvRef 1))).accepted = true ∧
    (boolector_assume toyLayer toyCore (some toyBtor) (some (bvRef 1))).accepted = false ∧
    (∀ b2, boolector_assert toyLayer toyCore (some toyBtor) (some (bvRef 1)) = .ok b2 →
      b2.external_refs = toyBtor.external_refs) :=
  ⟨rfl, rfl,
   (assert_assume_accepts toyLayer toyCore toyBtor (some (bvRef 1))).2.2.1⟩

/-- Solve calls keep incremental usage enabled, so a solver with incremental
usage enabled accepts any number of successive solve calls. -/
theorem sat_repeat_incremental (c : CoreLayer G) (n : Nat) :
    ∀ b : Btor G, b.inc_enabled = true → (boolector_sat_repeat c n b).accepted = true := by
  induction n with
  | zero =>
    intro b _
    rfl
  | succ n ih =>
    intro b hb
    simp only [boolector_sat_repeat, boolector_sat, null_btor_some, trapi_some, ok_bind,
      abort_cond_bind, pure_eq_ok, hb, Bool.not_true, Bool.false_and, Bool.false_eq_true,
      if_false]
    exact ih _ hb

/-- C13: `boolector_sat` is rejected exactly when incremental usage is not
enabled and the solve-call counter `btor_sat_btor_called` is above zero.  In
non-incremental mode the first call (counter 0) returns and the call after it
is rejected in the state it finds, so that every later call meets that same
state; with incremental usage enabled any number of successive calls is
accepted; enabling is possible as long as no solve call has been made. -/
theorem sat_call_discipline (c : CoreLayer G) (b : Btor G) :
    ((boolector_sat c (some b)).accepted = false ↔
      (b.inc_enabled = false ∧ 0 < b.btor_sat_btor_called)) ∧
    (b.inc_enabled = false → b.btor_sat_btor_called = 0 →
      ∃ b1 r, boolector_sat c (some b) = .ok (b1, r) ∧
        ∃ msg, boolector_sat c (some b1) = .abort (some b1) msg) ∧
    (b.inc_enabled = true → ∀ n, (boolector_sat_repeat c n b).accepted = true) ∧
    (b.btor_sat_btor_called = 0 →
      ∃ b1, boolector_enable_inc_usage (some b) = .ok b1 ∧ b1.inc_enabled = true) := by
  refine ⟨?_, ?_, ?_, ?_⟩
  · simp only [boolector_sat, null_btor_some, trapi_some, ok_bind, abort_cond_bind,
      pure_eq_ok]
    split_ifs <;> simp_all [Outcome.accepted]
  · intro hinc hcnt
    refine ⟨(btor_sat_btor c b).1, (btor_sat_btor c b).2, ?_, ?_⟩
    · simp [boolector_sat, hinc, hcnt]
    · simp [boolector_sat, btor_sat_btor, hinc, hcnt]
  · intro hinc n
    exact sat_repeat_incremental c n b hinc
  · intro hcnt
    exact ⟨btor_enable_inc_usage b, by simp [boolector_enable_inc_usage, hcnt], rfl⟩

/-- C13 at a concrete solver: on the fresh toy solver the first solve call
returns `BTOR_SAT` and the second is rejected. -/
theorem sat_call_discipline_witness :
    boolector_sat toyCore (some toyBtor)
      = .ok ({ toyBtor with btor_sat_btor_called := 1, last_sat_result := 10 }, 10) ∧
    (boolector_sat toyCore
        (some { toyBtor with btor_sat_btor_called := 1, last_sat_result := 10 })).accepted
      = false ∧
    ((boolector_sat toyCore
        (some { toyBtor with btor_sat_btor_called := 1, last_sat_result := 10 })).accepted
      = false ↔
      (({ toyBtor with btor_sat_btor_called := 1, last_sat_result := 10 } :
          Btor Nat).inc_enabled = false ∧
        0 < ({ toyBtor with btor_sat_btor_called := 1, last_sat_result := 10 } :
          Btor Nat).btor_sat_btor_called)) :=
  ⟨rfl, rfl,
   (sat_call_discipline toyCore
      { toyBtor with btor_sat_btor_called := 1, last_sat_result := 10 }).1⟩

/-- C14: `boolector_bv_assignment` is accepted exactly when the last solve
result is `BTOR_SAT`, `exp` is non-null with a positive reference count and
(after `btor_simplify_exp`) not an array, and model generation is enabled;
`boolector_array_assignment` exactly when the last solve result is `BTOR_SAT`,
`e_array` is non-null with a positive reference count and an array, the three
output pointers are non-null, and model generation is enabled.  With any other
last result both are rejected. -/
theorem assignment_accepts (x : ExpLayer G) (c : CoreLayer G) (b : Btor G)
    (exp : Option BtorRef) (indices values size : Option Unit) :
    ((boolector_bv_assignment x c (some b) exp).accepted = true ↔
      b.last_sat_result = BTOR_SAT ∧
      (∃ e, exp = some e ∧ 0 < e.node.refs ∧ (simplify x b e).node.is_array = false) ∧
      b.model_gen = true) ∧
    ((boolector_array_assignment x c (some b) exp indices values size).accepted = true ↔
      b.last_sat_result = BTOR_SAT ∧
      (∃ e, exp = some e ∧ 0 < e.node.refs ∧ (simplify x b e).node.is_array = true) ∧
      (indices.isSome = true ∧ values.isSome = true ∧ size.isSome = true) ∧
      b.model_gen = true) ∧
    (b.last_sat_result ≠ BTOR_SAT →
      (boolector_bv_assignment x c (some b) exp).accepted = false ∧
      (boolector_array_assignment x c (some b) exp indices values size).accepted
        = false) := by
  have h1 : (boolector_bv_assignment x c (some b) exp).accepted = true ↔
      b.last_sat_result = BTOR_SAT ∧
      (∃ e, exp = some e ∧ 0 < e.node.refs ∧ (simplify x b e).node.is_array = false) ∧
      b.model_gen = true := by
    cases exp with
    | none =>
      simp only [boolector_bv_assignment, null_btor_some, trapi_some, ok_bind,
        abort_cond_bind, BTOR_ABORT_ARG_NULL_BOOLECTOR, abort_bind]
      split_ifs <;> simp_all [Outcome.accepted]
    | some e =>
      simp only [boolector_bv_assignment, null_btor_some, trapi_some, null_arg_some,
        ok_bind, abort_refs_bind, abort_array_bind, abort_cond_bind, pure_eq_ok,
        BTOR_REAL_ADDR_NODE]
      split_ifs <;> simp_all [Outcome.accepted] <;> omega
  have h2 : (boolector_array_assignment x c (some b) exp indices values size).accepted
        = true ↔
      b.last_sat_result = BTOR_SAT ∧
      (∃ e, exp = some e ∧ 0 < e.node.refs ∧ (simplify x b e).node.is_array = true) ∧
      (indices.isSome = true ∧ values.isSome = true ∧ size.isSome = true) ∧
      b.model_gen = true := by
    cases exp <;> cases indices <;> cases values <;> cases size <;>
      simp only [boolector_array_assignment, null_btor_some, trapi_some, null_arg_some,
        ok_bind, abort_refs_bind, abort_bv_bind, abort_cond_bind, pure_eq_ok,
        BTOR_REAL_ADDR_NODE, BTOR_ABORT_ARG_NULL_BOOLECTOR, abort_bind] <;>
      split_ifs <;> simp_all [Outcome.accepted] <;> omega
  refine ⟨h1, h2, ?_⟩
  intro hne
  constructor
  · cases hacc : (boolector_bv_assignment x c (some b) exp).accepted with
    | false => rfl
    | true => exact absurd (h1.mp hacc).1 hne
  · cases hacc : (boolector_array_assignment x c (some b) exp indices values size).accepted
      with
    | false => rfl
    | true => exact absurd (h2.mp hacc).1 hne

/-- C14 at concrete solvers: with the last result `BTOR_SAT` and model
generation on, the assignment of a live 8-bit node is handed out; on the fresh
toy solver (no solve call yet) the same call is rejected. -/
theorem assignment_accepts_witness :
    (boolector_bv_assignment toyLayer toyCore
        (some { toyBtor with last_sat_result := BTOR_SAT, model_gen := true })
        (some (bvRef 8))).accepted = true ∧
    (boolector_bv_assignment toyLayer toyCore (some toyBtor) (some (bvRef 8))).accepted
      = false ∧
    (boolector_array_assignment toyLayer toyCore (some toyBtor) (some (arrayRef 8 4))
        (some ()) (some ()) (some ())).accepted = false :=
  ⟨rfl,
   ((assignment_accepts toyLayer toyCore toyBtor (some (bvRef 8)) none none none).2.2
      (by decide)).1,
   ((assignment_accepts toyLayer toyCore toyBtor (some (arrayRef 8 4)) (some ()) (some ())
      (some ())).2.2 (by decide)).2⟩


/-- Every node-returning wrapper other than `boolector_read`, and
`boolector_release`, answers a null solver pointer with the usage error. -/
theorem run_call_null_btor (x : ExpLayer G) (c : ApiCall)
    (hc : ∀ e_array e_index, c ≠ .boolector_read e_array e_index) :
    run_call x none c = .abort none "btor must not be NULL" := by
  cases c <;> first | rfl | exact absurd rfl (hc _ _)


/-! ## SAT manager: basic facts -/

@[simp] theorem sat_ok_bind {α β : Type} (a : α) (f : α → SatOutcome β) :
    (SatOutcome.ok a >>= f) = f a := rfl

@[simp] theorem sat_assert_fail_bind {α β : Type} (e : String) (f : α → SatOutcome β) :
    ((SatOutcome.assert_fail e : SatOutcome α) >>= f) = SatOutcome.assert_fail e := rfl

@[simp] theorem sat_abort_bind {α β : Type} (msg : String) (f : α → SatOutcome β) :
    ((SatOutcome.abort msg : SatOutcome α) >>= f) = SatOutcome.abort msg := rfl

@[simp] theorem sat_pure_eq_ok {α : Type} (a : α) : (pure a : SatOutcome α) = SatOutcome.ok a :=
  rfl

@[simp] theorem sat_assert_bind {β : Type} (c : Bool) (e : String) (f : Unit → SatOutcome β) :
    (sat_assert c e >>= f) = if c then f () else .assert_fail e := by
  unfold sat_assert
  split <;> rfl

@[simp] theorem btor_abort_bind {β : Type} (c : Bool) (msg : String)
    (f : Unit → SatOutcome β) :
    (BTOR_ABORT c msg >>= f) = if c then .abort msg else f () := by
  unfold BTOR_ABORT
  split <;> rfl

theorem c_abs_of_pos {x : Int} (h : 0 < x) : c_abs x = x := by
  unfold c_abs
  omega

theorem c_abs_nonneg (x : Int) : 0 ≤ c_abs x := by
  unfold c_abs
  omega

/-- What `btor_sat_add` does on a manager that meets its assertions. -/
theorem sat_add_eq (smgr : BtorSATMgr S) (lit : Int) (hi : smgr.initialized = true)
    (hl : c_abs lit ≤ smgr.maxvar)
    (hinc : smgr.satcalls = 0 ∨ smgr.inc_required = true) :
    btor_sat_add smgr lit
      = .ok { smgr with
          clauses := if lit = 0 then smgr.clauses + 1 else smgr.clauses,
          solver := smgr.api.add smgr.solver lit } := by
  obtain ⟨name, optstr, solver, incr, ini, maxvar, clauses, satcalls, true_lit, verb, api⟩ :=
    smgr
  simp only at hi hl hinc
  subst hi
  have hc : (satcalls == 0 || incr) = true := by
    rcases hinc with h | h <;> simp [h]
  simp only [btor_sat_add, sat_assert_bind, if_true, hl, decide_True, hc, sat_pure_eq_ok]
  by_cases h0 : lit = 0 <;> simp [h0]

/-- What `btor_sat_mgr_next_cnf_id` does on an initialized manager. -/
theorem sat_next_cnf_id_eq (smgr : BtorSATMgr S) (hi : smgr.initialized = true) :
    btor_sat_mgr_next_cnf_id smgr
      = if (smgr.api.inc_max_var smgr.solver).2 ≤ 0 then .abort "CNF id overflow"
        else .ok ({ smgr with
              solver := (smgr.api.inc_max_var smgr.solver).1,
              maxvar := max smgr.maxvar (smgr.api.inc_max_var smgr.solver).2 },
            (smgr.api.inc_max_var smgr.solver).2) := by
  obtain ⟨name, optstr, solver, incr, ini, maxvar, clauses, satcalls, true_lit, verb, api⟩ :=
    smgr
  simp only at hi
  subst hi
  simp only [btor_sat_mgr_next_cnf_id, sat_assert_bind, if_true, btor_abort_bind,
    sat_pure_eq_ok, decide_eq_true_eq]
  by_cases h1 : (api.inc_max_var solver).2 ≤ 0
  · simp only [h1, if_true]
  · have hpos : 0 < (api.inc_max_var solver).2 := by omega
    simp only [h1, if_false, c_abs_of_pos hpos]
    split_ifs with h2
    · simp only [SatOutcome.ok.injEq, Prod.mk.injEq, BtorSATMgr.mk.injEq, true_and, and_true]
      rw [max_eq_right (by omega)]
    · simp only [SatOutcome.ok.injEq, Prod.mk.injEq, BtorSATMgr.mk.injEq, true_and, and_true]
      rw [max_eq_left (by omega)]

/-- What `btor_sat_sat` does on a manager that meets its entry assertions. -/
theorem sat_sat_eq (smgr : BtorSATMgr S) (limit : Int) (hi : smgr.initialized = true)
    (hinc : smgr.satcalls = 0 ∨ smgr.inc_required = true) :
    ∃ s : BtorSATMgr S, s.satcalls = smgr.satcalls + 1 ∧ s.initialized = true ∧
      s.inc_required = smgr.inc_required ∧ s.maxvar = smgr.maxvar ∧ s.api = smgr.api ∧
      btor_sat_sat smgr limit
        = if backend_sat_code smgr limit = 10 then .ok (s, .BTOR_RESULT_SAT)
          else if backend_sat_code smgr limit = 20 then .ok (s, .BTOR_RESULT_UNSAT)
          else if backend_sat_code smgr limit = 0 then .ok (s, .BTOR_RESULT_UNKNOWN)
          else .assert_fail "sat_res == 0" := by
  obtain ⟨name, optstr, solver, incr, ini, maxvar, clauses, satcalls, true_lit, verb, api⟩ :=
    smgr
  simp only at hi hinc
  subst hi
  have hc : (satcalls == 0 || incr) = true := by
    rcases hinc with h | h <;> simp [h]
  cases hst : api.setterm with
  | none =>
    refine ⟨{ name := name, optstr := optstr, solver := (api.sat solver limit).1,
              inc_required := incr, initialized := true, maxvar := maxvar,
              clauses := clauses, satcalls := satcalls + 1, true_lit := true_lit,
              verbosity := verb, api := api }, rfl, rfl, rfl, rfl, rfl, ?_⟩
    simp only [btor_sat_sat, backend_sat_code, sat_assert_bind, if_true, hc, hst,
      sat_pure_eq_ok, beq_iff_eq]
  | some f =>
    refine ⟨{ name := name, optstr := optstr, solver := (api.sat (f solver) limit).1,
              inc_required := incr, initialized := true, maxvar := maxvar,
              clauses := clauses, satcalls := satcalls + 1, true_lit := true_lit,
              verbosity := verb, api := api }, rfl, rfl, rfl, rfl, rfl, ?_⟩
    simp only [btor_sat_sat, backend_sat_code, sat_assert_bind, if_true, hc, hst,
      sat_pure_eq_ok, beq_iff_eq]

/-- What `btor_sat_init` does on a manager that is not initialized: with `r`
the first variable of the fresh backend instance, it stops on `r <= 0` and
otherwise returns the manager initialized, with the unit clause of the true
literal `r` added. -/
theorem sat_init_eq (smgr : BtorSATMgr S) (hi : smgr.initialized = false) :
    btor_sat_init smgr
      = if (smgr.api.inc_max_var
              (smgr.api.enable_verbosity smgr.api.init smgr.verbosity)).2 ≤ 0 then
          .abort "CNF id overflow"
        else
          .ok { smgr with
            solver :=
              smgr.api.set_prefix
                (smgr.api.set_output
                  (smgr.api.add
                    (smgr.api.add
                      (smgr.api.inc_max_var
                        (smgr.api.enable_verbosity smgr.api.init smgr.verbosity)).1
                      (smgr.api.inc_max_var
                        (smgr.api.enable_verbosity smgr.api.init smgr.verbosity)).2)
                    0))
                ("[" ++ smgr.name.map Char.toLower ++ "] "),
            inc_required := true,
            initialized := true,
            maxvar := max smgr.maxvar
              (smgr.api.inc_max_var
                (smgr.api.enable_verbosity smgr.api.init smgr.verbosity)).2,
            clauses := smgr.clauses + 1,
            true_lit := (smgr.api.inc_max_var
              (smgr.api.enable_verbosity smgr.api.init smgr.verbosity)).2 } := by
  obtain ⟨name, optstr, solver, incr, ini, maxvar, clauses, satcalls, true_lit, verb, api⟩ :=
    smgr
  simp only at hi
  subst hi
  simp only [btor_sat_init, Bool.not_false, sat_assert_bind, if_true]
  rw [sat_next_cnf_id_eq _ rfl]
  simp only
  by_cases h1 : (api.inc_max_var (api.enable_verbosity api.init verb)).2 ≤ 0
  · simp only [h1, if_true, sat_abort_bind]
  · have hpos : 0 < (api.inc_max_var (api.enable_verbosity api.init verb)).2 := by omega
    simp only [h1, if_false, sat_ok_bind]
    rw [sat_add_eq _ _ rfl (by simp only [c_abs_of_pos hpos]; exact le_max_right _ _)
      (Or.inr rfl)]
    simp only [sat_ok_bind]
    rw [sat_add_eq _ _ rfl
      (by show c_abs 0 ≤ max maxvar _; exact le_trans (by decide) (le_trans hpos.le (le_max_right _ _)))
      (Or.inr rfl)]
    simp only [sat_ok_bind, btor_sat_set_output, sat_assert_bind, if_true, sat_pure_eq_ok,
      if_neg (ne_of_gt hpos)]

/-- On a manager that is not initialized `btor_sat_init` returns, with the
manager initialized, whenever the backend hands out a positive first
variable. -/
theorem sat_init_returns (s : BtorSATMgr S) (hi : s.initialized = false)
    (hpos : 0 < first_cnf_id s) :
    ∃ s2, btor_sat_init s = .ok s2 ∧ s2.initialized = true := by
  rw [sat_init_eq s hi]
  have hn : ¬ (s.api.inc_max_var (s.api.enable_verbosity s.api.init s.verbosity)).2 ≤ 0 := by
    unfold first_cnf_id at hpos
    omega
  rw [if_neg hn]
  exact ⟨_, rfl, rfl⟩

/-- A returning operation keeps the function table, and keeps the fact that an
initialized manager has `inc_required` set. -/
theorem sat_step_inv (s s2 : BtorSATMgr S) (op : SatOp)
    (hinv : s.initialized = true → s.inc_required = true)
    (h : sat_step s op = .ok s2) :
    (s2.initialized = true → s2.inc_required = true) ∧ s2.api = s.api := by
  cases op with
  | init =>
    simp only [sat_step] at h
    cases hi : s.initialized with
    | true =>
      simp [btor_sat_init, hi] at h
    | false =>
      rw [sat_init_eq s hi] at h
      split_ifs at h
      cases h
      exact ⟨fun _ => rfl, rfl⟩
  | add lit =>
    simp only [sat_step, btor_sat_add, sat_assert_bind, sat_pure_eq_ok] at h
    split_ifs at h
    all_goals
      cases h
      exact ⟨hinv, rfl⟩
  | assume lit =>
    simp only [sat_step, btor_sat_assume, sat_assert_bind, sat_pure_eq_ok] at h
    split_ifs at h
    cases h
    exact ⟨hinv, rfl⟩
  | sat limit =>
    simp only [sat_step] at h
    cases hi : s.initialized with
    | false =>
      simp [btor_sat_sat, hi] at h
    | true =>
      cases hc : (s.satcalls == 0 || s.inc_required) with
      | false =>
        simp [btor_sat_sat, hi, hc] at h
      | true =>
        have hinc : s.satcalls = 0 ∨ s.inc_required = true := by
          simpa using hc
        obtain ⟨t, -, -, h3, -, h5, heq⟩ := sat_sat_eq s limit hi hinc
        rw [heq] at h
        split_ifs at h <;> cases h <;> exact ⟨fun _ => (by rw [h3]; exact hinv hi), h5⟩
  | reset =>
    simp only [sat_step, btor_sat_reset, sat_assert_bind, sat_pure_eq_ok] at h
    split_ifs at h <;> cases h <;> exact ⟨fun hf => (by cases hf), rfl⟩

theorem sat_run_inv (ops : List SatOp) :
    ∀ (s s2 : BtorSATMgr S), (s.initialized = true → s.inc_required = true) →
      sat_run s ops = .ok s2 →
      (s2.initialized = true → s2.inc_required = true) ∧ s2.api = s.api := by
  induction ops with
  | nil =>
    intro s s2 hinv h
    cases h
    exact ⟨hinv, rfl⟩
  | cons op ops ih =>
    intro s s2 hinv h
    simp only [sat_run] at h
    cases hstep : sat_step s op with
    | ok s1 =>
      rw [hstep, sat_ok_bind] at h
      obtain ⟨h1, h2⟩ := sat_step_inv s s1 op hinv hstep
      obtain ⟨h3, h4⟩ := ih s1 s2 h1 h
      exact ⟨h3, h4.trans h2⟩
    | assert_fail e => rw [hstep] at h; cases h
    | abort msg => rw [hstep] at h; cases h

/-- The third assertion of `btor_sat_add`, `btor_sat_assume` and `btor_sat_sat`
holds on every initialized manager that has no solve call yet, or has
`inc_required` set, or was reached from a new manager. -/
theorem sat_inc_assertion (smgr : BtorSATMgr S) (hi : smgr.initialized = true)
    (h : smgr.satcalls = 0 ∨ smgr.inc_required = true ∨ SatReachable smgr) :
    smgr.satcalls = 0 ∨ smgr.inc_required = true := by
  rcases h with h | h | ⟨name, api, verbosity, ops, hrun⟩
  · exact Or.inl h
  · exact Or.inr h
  · exact Or.inr ((sat_run_inv ops _ smgr (fun hf => (by cases hf)) hrun).1 hi)

/-- C15 as amended: on an initialized manager, for a literal with `|lit| <= maxvar`,
`btor_sat_add` raises the clause counter by one when `lit` is 0 and leaves it
alone otherwise, hands `lit` to the `add` of the backend, and changes no other
field.  The last hypothesis makes the third assertion of the function hold:
no solve call yet, or `inc_required` set, or, which implies it, a manager
reached from a new one through `init`, `add`, `assume`, `sat` and `reset`. -/
theorem sat_add_effect (smgr : BtorSATMgr S) (lit : Int) (hi : smgr.initialized = true)
    (hl : c_abs lit ≤ smgr.maxvar)
    (hinc : smgr.satcalls = 0 ∨ smgr.inc_required = true ∨ SatReachable smgr) :
    btor_sat_add smgr lit
      = .ok { smgr with
          clauses := if lit = 0 then smgr.clauses + 1 else smgr.clauses,
          solver := smgr.api.add smgr.solver lit } :=
  sat_add_eq smgr lit hi hl (sat_inc_assertion smgr hi hinc)

/-- C15 as amended, at a concrete call: the clause `1 0` is added to an initialized toy
manager with one variable; the literal 1 leaves the counter at 1, the closing
0 takes it to 2. -/
theorem sat_add_effect_witness :
    btor_sat_add { toySmgr with solver := some 1, inc_required := true, initialized := true,
                                maxvar := 1, clauses := 1, true_lit := 1 } 1
      = .ok { toySmgr with solver := some 1, inc_required := true, initialized := true,
                           maxvar := 1, clauses := 1, true_lit := 1 } ∧
    btor_sat_add { toySmgr with solver := some 1, inc_required := true, initialized := true,
                                maxvar := 1, clauses := 1, true_lit := 1 } 0
      = .ok { toySmgr with solver := some 1, inc_required := true, initialized := true,
                           maxvar := 1, clauses := 2, true_lit := 1 } :=
  ⟨sat_add_effect
      { toySmgr with solver := some 1, inc_required := true, initialized := true,
                     maxvar := 1, clauses := 1, true_lit := 1 } 1 rfl (by decide)
      (Or.inl rfl),
   sat_add_effect
      { toySmgr with solver := some 1, inc_required := true, initialized := true,
                     maxvar := 1, clauses := 1, true_lit := 1 } 0 rfl (by decide)
      (Or.inl rfl)⟩

/-- C16 as amended: on an initialized manager `btor_sat_sat` returns `BTOR_RESULT_SAT`
exactly when the backend answers 10, `BTOR_RESULT_UNSAT` exactly when it
answers 20, and `BTOR_RESULT_UNKNOWN` when it answers 0; any other answer
fails the assertion `sat_res == 0`.  Every returning call raises `satcalls` by
exactly one.  The last hypothesis makes the second entry assertion of the
function hold: no solve call yet, or `inc_required` set, or, which implies it,
a manager reached from a new one through `init`, `add`, `assume`, `sat` and
`reset`. -/
theorem sat_sat_result (smgr : BtorSATMgr S) (limit : Int) (hi : smgr.initialized = true)
    (hinc : smgr.satcalls = 0 ∨ smgr.inc_required = true ∨ SatReachable smgr) :
    ((∃ s, btor_sat_sat smgr limit = .ok (s, .BTOR_RESULT_SAT)) ↔
      backend_sat_code smgr limit = 10) ∧
    ((∃ s, btor_sat_sat smgr limit = .ok (s, .BTOR_RESULT_UNSAT)) ↔
      backend_sat_code smgr limit = 20) ∧
    (backend_sat_code smgr limit = 0 →
      ∃ s, btor_sat_sat smgr limit = .ok (s, .BTOR_RESULT_UNKNOWN)) ∧
    (backend_sat_code smgr limit ≠ 0 → backend_sat_code smgr limit ≠ 10 →
      backend_sat_code smgr limit ≠ 20 →
      btor_sat_sat smgr limit = .assert_fail "sat_res == 0") ∧
    (∀ s res, btor_sat_sat smgr limit = .ok (s, res) →
      s.satcalls = smgr.satcalls + 1) := by
  obtain ⟨s, hs, -, -, -, -, heq⟩ :=
    sat_sat_eq smgr limit hi (sat_inc_assertion smgr hi hinc)
  rw [heq]
  refine ⟨?_, ?_, ?_, ?_, ?_⟩
  · constructor
    · rintro ⟨s2, h⟩
      split_ifs at h <;> first | assumption | cases h
    · intro h
      exact ⟨s, by simp [h]⟩
  · constructor
    · rintro ⟨s2, h⟩
      split_ifs at h <;> first | assumption | cases h
    · intro h
      exact ⟨s, by simp [h]⟩
  · intro h
    exact ⟨s, by simp [h]⟩
  · intro h0 h10 h20
    simp [h0, h10, h20]
  · intro s2 res h
    split_ifs at h <;> (cases h; exact hs)

/-- C16 as amended, at a concrete call: the toy backend answers 10 and the call returns
`BTOR_RESULT_SAT`. -/
theorem sat_sat_result_witness :
    ((∃ s, btor_sat_sat { toySmgr with solver := some 1, inc_required := true,
                                       initialized := true, maxvar := 1, clauses := 1,
                                       true_lit := 1 } 0
        = .ok (s, .BTOR_RESULT_SAT)) ↔
      backend_sat_code { toySmgr with solver := some 1, inc_required := true,
                                      initialized := true, maxvar := 1, clauses := 1,
                                      true_lit := 1 } 0 = 10) ∧
    backend_sat_code { toySmgr with solver := some 1, inc_required := true,
                                    initialized := true, maxvar := 1, clauses := 1,
                                    true_lit := 1 } 0 = 10 :=
  ⟨(sat_sat_result
      { toySmgr with solver := some 1, inc_required := true, initialized := true,
                     maxvar := 1, clauses := 1, true_lit := 1 } 0 rfl (Or.inl rfl)).1,
   rfl⟩

/-- C17: on an initialized manager whose backend hands out `r` as the next
variable, `btor_sat_mgr_next_cnf_id` returns `r` when `r > 0`, with `maxvar`
then the maximum of the old `maxvar` and `r` (so it never decreases) and the
other counters untouched; when `r <= 0` it stops with the fatal error
CNF id overflow and returns nothing. -/
theorem next_cnf_id_result (smgr : BtorSATMgr S) (hi : smgr.initialized = true) :
    (0 < (smgr.api.inc_max_var smgr.solver).2 →
      ∃ s, btor_sat_mgr_next_cnf_id smgr = .ok (s, (smgr.api.inc_max_var smgr.solver).2) ∧
        s.maxvar = max smgr.maxvar (smgr.api.inc_max_var smgr.solver).2 ∧
        smgr.maxvar ≤ s.maxvar ∧ s.clauses = smgr.clauses ∧ s.satcalls = smgr.satcalls ∧
        s.initialized = true) ∧
    ((smgr.api.inc_max_var smgr.solver).2 ≤ 0 →
      btor_sat_mgr_next_cnf_id smgr = .abort "CNF id overflow") := by
  rw [sat_next_cnf_id_eq smgr hi]
  constructor
  · intro hpos
    have hn : ¬ (smgr.api.inc_max_var smgr.solver).2 ≤ 0 := by omega
    exact ⟨{ smgr with
              solver := (smgr.api.inc_max_var smgr.solver).1,
              maxvar := max smgr.maxvar (smgr.api.inc_max_var smgr.solver).2 },
      by simp only [hn, if_false], rfl, le_max_left _ _, rfl, rfl, hi⟩
  · intro hle
    simp only [hle, if_true]

/-- C17 at a concrete call: the toy backend with one variable hands out 2. -/
theorem next_cnf_id_result_witness :
    btor_sat_mgr_next_cnf_id
        { toySmgr with solver := some 1, inc_required := true, initialized := true,
                       maxvar := 1, clauses := 1, true_lit := 1 }
      = .ok ({ toySmgr with solver := some 2, inc_required := true, initialized := true,
                            maxvar := 2, clauses := 1, true_lit := 1 }, 2) ∧
    (∃ s, btor_sat_mgr_next_cnf_id
        { toySmgr with solver := some 1, inc_required := true, initialized := true,
                       maxvar := 1, clauses := 1, true_lit := 1 } = .ok (s, 2) ∧
      s.maxvar = max 1 2) :=
  ⟨rfl,
   let ⟨s, h1, h2, _⟩ := (next_cnf_id_result
      { toySmgr with solver := some 1, inc_required := true, initialized := true,
                     maxvar := 1, clauses := 1, true_lit := 1 } rfl).1 (by decide)
   ⟨s, h1, h2⟩⟩


/-- C18 as amended: the SAT manager follows the state machine on its `initialized` flag.
A new manager is not initialized; a returning `btor_sat_init` leaves it
initialized; a returning `btor_sat_reset` leaves it not initialized, with a
null backend handle; and in every state reached from a new manager through
`init`, `add`, `assume`, `sat` and `reset`, each of `add`, `assume`, `sat`,
`deref`, `repr`, `failed`, `fixed` and `reset`, given a literal within
`maxvar`, is accepted exactly when the manager is initialized (for `sat`: with
a backend that answers solve calls with 0, 10 or 20). -/
theorem sat_mgr_state_machine (name : String) (api : BtorSATApi S) (verbosity : Int) :
    (btor_sat_mgr_new name api verbosity).initialized = false ∧
    (∀ s s2 : BtorSATMgr S, btor_sat_init s = .ok s2 → s2.initialized = true) ∧
    (∀ s s2 : BtorSATMgr S, btor_sat_reset s = .ok s2 →
      s2.initialized = false ∧ s2.solver = none) ∧
    (∀ (ops : List SatOp) (s : BtorSATMgr S),
      sat_run (btor_sat_mgr_new name api verbosity) ops = .ok s →
      ∀ lit limit : Int, c_abs lit ≤ s.maxvar →
        (btor_sat_add s lit).accepted = s.initialized ∧
        (btor_sat_assume s lit).accepted = s.initialized ∧
        (BackendCodes api → (btor_sat_sat s limit).accepted = s.initialized) ∧
        (btor_sat_deref s lit).accepted = s.initialized ∧
        (btor_sat_repr s lit).accepted = s.initialized ∧
        (btor_sat_failed s lit).accepted = s.initialized ∧
        (btor_sat_fixed s lit).accepted = s.initialized ∧
        (btor_sat_reset s).accepted = s.initialized) := by
  refine ⟨rfl, ?_, ?_, ?_⟩
  · intro s s2 h
    cases hi : s.initialized with
    | true => simp [btor_sat_init, hi] at h
    | false =>
      rw [sat_init_eq s hi] at h
      split_ifs at h
      cases h
      rfl
  · intro s s2 h
    simp only [btor_sat_reset, sat_assert_bind, sat_pure_eq_ok] at h
    split_ifs at h <;> cases h <;> exact ⟨rfl, rfl⟩
  · intro ops s hrun lit limit hl
    obtain ⟨hinv, hapi⟩ :=
      sat_run_inv ops (btor_sat_mgr_new name api verbosity) s (fun hf => (by cases hf)) hrun
    cases hi : s.initialized with
    | false =>
      simp [btor_sat_add, btor_sat_assume, btor_sat_sat, btor_sat_deref, btor_sat_repr,
        btor_sat_failed, btor_sat_fixed, btor_sat_reset, hi, SatOutcome.accepted]
    | true =>
      have hinc : s.satcalls = 0 ∨ s.inc_required = true := Or.inr (hinv hi)
      have hc : (s.satcalls == 0 || s.inc_required) = true := by simp [hinv hi]
      refine ⟨?_, ?_, ?_, ?_, ?_, ?_, ?_, ?_⟩
      · rw [sat_add_eq s lit hi hl hinc]
        rfl
      · simp [btor_sat_assume, hi, hl, hc, SatOutcome.accepted]
      · intro hback
        obtain ⟨t, -, -, -, -, -, heq⟩ := sat_sat_eq s limit hi hinc
        rw [heq]
        have hcode : backend_sat_code s limit = 0 ∨ backend_sat_code s limit = 10 ∨
            backend_sat_code s limit = 20 := by
          unfold backend_sat_code
          rw [hapi]
          exact hback _ _
        rcases hcode with h | h | h <;> simp [h, SatOutcome.accepted]
      · simp [btor_sat_deref, hi, hl, SatOutcome.accepted]
      · simp [btor_sat_repr, hi, hl, SatOutcome.accepted]
      · simp [btor_sat_failed, hi, hl, SatOutcome.accepted]
      · simp [btor_sat_fixed, hi, hl, SatOutcome.accepted]
      · simp [btor_sat_reset, hi, SatOutcome.accepted]

/-- C18 as amended, at a concrete run: the toy manager is initialized, takes the clause
`1 0`, solves and is reset; in the state reached the operations are rejected,
the manager not being initialized. -/
theorem sat_mgr_state_machine_witness :
    sat_run toySmgr [.init, .add 1, .add 0, .sat 0, .reset]
      = .ok { toySmgr with inc_required := true, maxvar := 1, clauses := 2, satcalls := 1,
                           true_lit := 1 } ∧
    (btor_sat_add { toySmgr with inc_required := true, maxvar := 1, clauses := 2,
                                 satcalls := 1, true_lit := 1 } 1).accepted = false ∧
    (btor_sat_sat { toySmgr with inc_required := true, maxvar := 1, clauses := 2,
                                 satcalls := 1, true_lit := 1 } 0).accepted = false :=
  ⟨rfl,
   ((sat_mgr_state_machine "Toy" toyApi 0).2.2.2
      [.init, .add 1, .add 0, .sat 0, .reset]
      { toySmgr with inc_required := true, maxvar := 1, clauses := 2, satcalls := 1,
                     true_lit := 1 } rfl 1 0 (by decide)).1,
   ((sat_mgr_state_machine "Toy" toyApi 0).2.2.2
      [.init, .add 1, .add 0, .sat 0, .reset]
      { toySmgr with inc_required := true, maxvar := 1, clauses := 2, satcalls := 1,
                     true_lit := 1 } rfl 1 0 (by decide)).2.2.1
      (fun _ _ => Or.inr (Or.inl rfl))⟩

/-- C20, the claim refuted at a concrete manager: after `btor_sat_init` on the
new toy manager the clause counter is 1, not 0. -/
theorem sat_init_clauses_counterexample :
    btor_sat_init (btor_sat_mgr_new "Toy" toyApi 0)
      = .ok { (btor_sat_mgr_new "Toy" toyApi 0) with
          solver := some 1, inc_required := true, initialized := true, maxvar := 1,
          clauses := 1, true_lit := 1 } ∧
    ¬ (∀ s, btor_sat_init (btor_sat_mgr_new "Toy" toyApi 0) = .ok s →
        s.initialized = true ∧ s.clauses = 0) := by
  refine ⟨rfl, ?_⟩
  intro h
  have h2 := (h _ rfl).2
  exact absurd h2 (by decide)

/-- C20 as amended: after a returning `btor_sat_init` on a newly created
manager the `initialized` flag is set and the clause counter is 1, for the
unit clause of the true literal that `btor_sat_init` adds; the call returns
whenever the backend hands out a positive first variable. -/
theorem sat_init_new_state (name : String) (api : BtorSATApi S) (verbosity : Int) :
    (∀ s, btor_sat_init (btor_sat_mgr_new name api verbosity) = .ok s →
      s.initialized = true ∧ s.clauses = 1) ∧
    (0 < first_cnf_id (btor_sat_mgr_new name api verbosity) →
      ∃ s, btor_sat_init (btor_sat_mgr_new name api verbosity) = .ok s) := by
  constructor
  · intro s h
    rw [sat_init_eq _ rfl] at h
    split_ifs at h
    cases h
    exact ⟨rfl, rfl⟩
  · intro hpos
    obtain ⟨s2, h, -⟩ := sat_init_returns (btor_sat_mgr_new name api verbosity) rfl hpos
    exact ⟨s2, h⟩

/-- C20 as amended, at the new toy manager. -/
theorem sat_init_new_state_witness :
    ∃ s, btor_sat_init (btor_sat_mgr_new "Toy" toyApi 0) = .ok s ∧
      s.initialized = true ∧ s.clauses = 1 :=
  let ⟨s, h⟩ := (sat_init_new_state "Toy" toyApi 0).2 (by decide)
  ⟨s, h, (sat_init_new_state "Toy" toyApi 0).1 s h⟩

/-! ## Claims on reset, release and cloning of the SAT manager -/

/-- What `btor_sat_reset` does on an initialized manager: it gives up the
backend instance and the option string and clears the flag; no other field is
written. -/
theorem sat_reset_eq (smgr : BtorSATMgr S) (hi : smgr.initialized = true) :
    btor_sat_reset smgr
      = .ok { smgr with solver := none, optstr := none, initialized := false } := by
  obtain ⟨name, optstr, solver, incr, ini, maxvar, clauses, satcalls, true_lit, verb, api⟩ :=
    smgr
  simp only at hi
  subst hi
  cases optstr <;> rfl

/-- C21, the claim refuted at a concrete manager: the toy manager after
`btor_sat_init` has one clause and `maxvar = 1`, and after `btor_sat_reset`
both counters still are 1, not 0. -/
theorem sat_reset_counters_counterexample :
    sat_run toySmgr [.init]
      = .ok { toySmgr with solver := some 1, inc_required := true, initialized := true,
                           maxvar := 1, clauses := 1, true_lit := 1 } ∧
    btor_sat_reset { toySmgr with solver := some 1, inc_required := true,
                                  initialized := true, maxvar := 1, clauses := 1,
                                  true_lit := 1 }
      = .ok { toySmgr with solver := none, inc_required := true, initialized := false,
                           maxvar := 1, clauses := 1, true_lit := 1 } ∧
    ¬ (∀ s, btor_sat_reset { toySmgr with solver := some 1, inc_required := true,
                                          initialized := true, maxvar := 1, clauses := 1,
                                          true_lit := 1 } = .ok s →
        s.clauses = 0 ∧ s.maxvar = 0) := by
  refine ⟨rfl, rfl, ?_⟩
  intro h
  have h2 := (h _ rfl).1
  exact absurd h2 (by decide)

/-- C21 as amended: on every initialized manager `btor_sat_reset` returns and
leaves the clause counter and `maxvar` (and the other counters) as they were;
it clears the backend handle, the option string and the `initialized` flag. -/
theorem sat_reset_keeps_counters (smgr : BtorSATMgr S) (hi : smgr.initialized = true) :
    ∃ s, btor_sat_reset smgr = .ok s ∧
      s.clauses = smgr.clauses ∧ s.maxvar = smgr.maxvar ∧
      s.satcalls = smgr.satcalls ∧ s.true_lit = smgr.true_lit ∧
      s.inc_required = smgr.inc_required ∧
      s.initialized = false ∧ s.solver = none ∧ s.optstr = none :=
  ⟨_, sat_reset_eq smgr hi, rfl, rfl, rfl, rfl, rfl, rfl, rfl, rfl⟩

/-- C21 as amended, at the initialized manager `cloneSmgr`: the counters stay
at one clause and `maxvar = 2`. -/
theorem sat_reset_keeps_counters_witness :
    ∃ s, btor_sat_reset cloneSmgr = .ok s ∧ s.clauses = 1 ∧ s.maxvar = 2 ∧
      s.initialized = false :=
  let ⟨s, h, hc, hm, _, _, _, hi, _, _⟩ := sat_reset_keeps_counters cloneSmgr rfl
  ⟨s, h, hc, hm, hi⟩

/-- C22 as amended: for a literal within `maxvar` (the assertion of the function on an
initialized manager) `btor_sat_mgr_release_cnf_id` returns; it hands the
literal to the backend function `melt` when the manager is initialized, the
literal is not the true literal and the backend has a `melt`, and in every
other case it returns the manager as it was; the scalar state is never
changed. -/
theorem release_cnf_id_effect (smgr : BtorSATMgr S) (lit : Int)
    (hl : smgr.initialized = true → c_abs lit ≤ smgr.maxvar) :
    (∀ melt, smgr.initialized = true → c_abs lit ≠ smgr.true_lit →
        smgr.api.melt = some melt →
        btor_sat_mgr_release_cnf_id smgr lit
          = .ok { smgr with solver := melt smgr.solver lit }) ∧
    ((smgr.initialized = false ∨ c_abs lit = smgr.true_lit ∨ smgr.api.melt = none) →
        btor_sat_mgr_release_cnf_id smgr lit = .ok smgr) ∧
    (∃ s, btor_sat_mgr_release_cnf_id smgr lit = .ok s ∧
        s.maxvar = smgr.maxvar ∧ s.clauses = smgr.clauses ∧
        s.satcalls = smgr.satcalls ∧ s.true_lit = smgr.true_lit ∧
        s.initialized = smgr.initialized) := by
  obtain ⟨name, optstr, solver, incr, ini, maxvar, clauses, satcalls, true_lit, verb, api⟩ :=
    smgr
  simp only at hl
  cases ini with
  | false =>
    refine ⟨fun _ h => (by cases h), fun _ => rfl, ⟨_, rfl, rfl, rfl, rfl, rfl, rfl⟩⟩
  | true =>
    have hl2 := hl rfl
    by_cases ht : c_abs lit = true_lit
    · have hl3 : true_lit ≤ maxvar := ht ▸ hl2
      have e : btor_sat_mgr_release_cnf_id
          (⟨name, optstr, solver, incr, true, maxvar, clauses, satcalls, true_lit, verb, api⟩ :
            BtorSATMgr S) lit
          = .ok ⟨name, optstr, solver, incr, true, maxvar, clauses, satcalls, true_lit, verb,
              api⟩ := by
        simp [btor_sat_mgr_release_cnf_id, hl3, ht]
      refine ⟨fun _ _ h => absurd ht h, fun _ => e, ⟨_, e, rfl, rfl, rfl, rfl, rfl⟩⟩
    · cases hm : api.melt with
      | none =>
        have e : btor_sat_mgr_release_cnf_id
            (⟨name, optstr, solver, incr, true, maxvar, clauses, satcalls, true_lit, verb,
              api⟩ : BtorSATMgr S) lit
            = .ok ⟨name, optstr, solver, incr, true, maxvar, clauses, satcalls, true_lit, verb,
                api⟩ := by
          simp [btor_sat_mgr_release_cnf_id, hl2, ht, hm]
        refine ⟨fun m _ _ h => (by cases h), fun _ => e, ⟨_, e, rfl, rfl, rfl, rfl, rfl⟩⟩
      | some f =>
        have e : btor_sat_mgr_release_cnf_id
            (⟨name, optstr, solver, incr, true, maxvar, clauses, satcalls, true_lit, verb,
              api⟩ : BtorSATMgr S) lit
            = .ok ⟨name, optstr, f solver lit, incr, true, maxvar, clauses, satcalls, true_lit,
                verb, api⟩ := by
          simp [btor_sat_mgr_release_cnf_id, hl2, ht, hm]
        refine ⟨fun m _ _ h => ?_, fun h => ?_, ⟨_, e, rfl, rfl, rfl, rfl, rfl⟩⟩
        · cases h
          exact e
        · rcases h with h | h | h
          · cases h
          · exact absurd h ht
          · cases h

/-- C22 as amended, at the initialized manager `cloneSmgr`: variable 2 is handed to `melt`
(the backend instance goes from 2 to 102), the true literal 1 is not. -/
theorem release_cnf_id_effect_witness :
    btor_sat_mgr_release_cnf_id cloneSmgr 2 = .ok { cloneSmgr with solver := some 102 } ∧
    btor_sat_mgr_release_cnf_id cloneSmgr 1 = .ok cloneSmgr :=
  ⟨(release_cnf_id_effect cloneSmgr 2 (fun _ => by decide)).1 _ rfl (by decide) rfl,
   (release_cnf_id_effect cloneSmgr 1 (fun _ => by decide)).2.1 (Or.inr (Or.inl (by decide)))⟩

/-- C24: when `btor_sat_mgr_clone` returns, the copy has the name, the option
string, the function table and every scalar state field of the source
manager, its backend instance is the one the backend function `clone` made of
the source instance, and the source manager is as before the call. -/
theorem sat_mgr_clone_state (msg : Int) (smgr src res : BtorSATMgr S)
    (h : btor_sat_mgr_clone msg smgr = .ok (src, res)) :
    res.name = smgr.name ∧ res.inc_required = smgr.inc_required ∧
    res.initialized = smgr.initialized ∧ res.maxvar = smgr.maxvar ∧
    res.clauses = smgr.clauses ∧ res.satcalls = smgr.satcalls ∧
    res.true_lit = smgr.true_lit ∧ res.optstr = smgr.optstr ∧ res.api = smgr.api ∧
    (∃ f, smgr.api.clone = some f ∧ res.solver = f smgr.solver) ∧
    src = smgr := by
  cases hc : smgr.api.clone with
  | none =>
    simp [btor_sat_mgr_clone, btor_sat_mgr_has_clone_support, hc] at h
  | some f =>
    simp only [btor_sat_mgr_clone, btor_sat_mgr_has_clone_support, hc, Option.isSome_some,
      sat_assert_bind, if_true, Bool.not_true, btor_abort_bind, Bool.false_eq_true, if_false,
      sat_pure_eq_ok, SatOutcome.ok.injEq, Prod.mk.injEq] at h
    obtain ⟨h1, h2⟩ := h
    subst h1 h2
    exact ⟨rfl, rfl, rfl, rfl, rfl, rfl, rfl, rfl, rfl, ⟨f, rfl, rfl⟩, rfl⟩

/-- C24 at the manager `cloneSmgr`, whose backend copies the instance: the
copy has one clause, `maxvar = 2`, true literal 1 and is initialized. -/
theorem sat_mgr_clone_state_witness :
    btor_sat_mgr_clone 0 cloneSmgr = .ok (cloneSmgr, cloneSmgr) ∧
    cloneSmgr.name = "Toy" ∧ cloneSmgr.maxvar = 2 ∧ cloneSmgr.clauses = 1 :=
  ⟨rfl, (sat_mgr_clone_state 0 cloneSmgr cloneSmgr cloneSmgr rfl).1,
    (sat_mgr_clone_state 0 cloneSmgr cloneSmgr cloneSmgr rfl).2.2.2.1,
    (sat_mgr_clone_state 0 cloneSmgr cloneSmgr cloneSmgr rfl).2.2.2.2.1⟩

/-! ## Variables handed out by the SAT manager -/

/-- A returning operation never lowers `maxvar`, and `btor_sat_init` leaves a
true literal between 1 and `maxvar`. -/
theorem sat_step_maxvar (s s2 : BtorSATMgr S) (op : SatOp) (h : sat_step s op = .ok s2) :
    s.maxvar ≤ s2.maxvar ∧
    (op = .init → 1 ≤ s2.true_lit ∧ s2.true_lit ≤ s2.maxvar) := by
  cases op with
  | init =>
    simp only [sat_step] at h
    cases hi : s.initialized with
    | true =>
      simp [btor_sat_init, hi] at h
    | false =>
      rw [sat_init_eq s hi] at h
      split_ifs at h with h1
      cases h
      refine ⟨le_max_left _ _, fun _ => ⟨?_, le_max_right _ _⟩⟩
      show 1 ≤ (s.api.inc_max_var (s.api.enable_verbosity s.api.init s.verbosity)).2
      omega
  | add lit =>
    simp only [sat_step, btor_sat_add, sat_assert_bind, sat_pure_eq_ok] at h
    split_ifs at h
    all_goals
      cases h
      exact ⟨le_refl _, fun hf => (by cases hf)⟩
  | assume lit =>
    simp only [sat_step, btor_sat_assume, sat_assert_bind, sat_pure_eq_ok] at h
    split_ifs at h
    cases h
    exact ⟨le_refl _, fun hf => (by cases hf)⟩
  | sat limit =>
    simp only [sat_step] at h
    cases hi : s.initialized with
    | false =>
      simp [btor_sat_sat, hi] at h
    | true =>
      cases hc : (s.satcalls == 0 || s.inc_required) with
      | false =>
        simp [btor_sat_sat, hi, hc] at h
      | true =>
        have hinc : s.satcalls = 0 ∨ s.inc_required = true := by
          simpa using hc
        obtain ⟨t, -, -, -, h4, -, heq⟩ := sat_sat_eq s limit hi hinc
        rw [heq] at h
        split_ifs at h <;> cases h <;> exact ⟨h4.ge, fun hf => (by cases hf)⟩
  | reset =>
    simp only [sat_step, btor_sat_reset, sat_assert_bind, sat_pure_eq_ok] at h
    split_ifs at h <;> cases h <;> exact ⟨le_refl _, fun hf => (by cases hf)⟩

/-- A returning `btor_sat_mgr_release_cnf_id` writes the backend instance
only. -/
theorem sat_release_cnf_id_frame (s s2 : BtorSATMgr S) (lit : Int)
    (h : btor_sat_mgr_release_cnf_id s lit = .ok s2) :
    s2.maxvar = s.maxvar ∧ s2.initialized = s.initialized ∧
    s2.inc_required = s.inc_required := by
  unfold btor_sat_mgr_release_cnf_id at h
  simp only [sat_assert_bind, sat_pure_eq_ok] at h
  split_ifs at h
  · cases h
    exact ⟨rfl, rfl, rfl⟩
  · cases h
    exact ⟨rfl, rfl, rfl⟩
  · split at h <;> cases h <;> exact ⟨rfl, rfl, rfl⟩

/-- One returning operation keeps the invariant of the variables handed out:
`maxvar` does not go down, the ids handed out by the operation lie between 1
and the new `maxvar`, and an initialized manager has `inc_required` set. -/
theorem cnf_step_inv (s s2 : BtorSATMgr S) (op : CnfOp) (ids : List Int)
    (hinv : s.initialized = true → s.inc_required = true)
    (h : cnf_step s op = .ok (s2, ids)) :
    (s2.initialized = true → s2.inc_required = true) ∧ s.maxvar ≤ s2.maxvar ∧
    ∀ id ∈ ids, 1 ≤ id ∧ id ≤ s2.maxvar := by
  cases op with
  | op o =>
    simp only [cnf_step] at h
    cases hstep : sat_step s o with
    | ok s1 =>
      rw [hstep, sat_ok_bind] at h
      obtain ⟨h1, -⟩ := sat_step_inv s s1 o hinv hstep
      obtain ⟨h2, h3⟩ := sat_step_maxvar s s1 o hstep
      cases o <;> simp only [sat_pure_eq_ok, SatOutcome.ok.injEq, Prod.mk.injEq] at h <;>
        obtain ⟨e1, e2⟩ := h <;> subst e1 e2
      · refine ⟨h1, h2, fun id hid => ?_⟩
        simp only [List.mem_singleton] at hid
        subst hid
        exact h3 rfl
      all_goals exact ⟨h1, h2, fun id hid => (by cases hid)⟩
    | assert_fail e => rw [hstep] at h; cases h
    | abort msg => rw [hstep] at h; cases h
  | next_cnf_id =>
    simp only [cnf_step] at h
    cases hi : s.initialized with
    | false =>
      simp [btor_sat_mgr_next_cnf_id, hi] at h
    | true =>
      rw [sat_next_cnf_id_eq s hi] at h
      split_ifs at h with h1
      · cases h
      · simp only [sat_ok_bind, sat_pure_eq_ok, SatOutcome.ok.injEq, Prod.mk.injEq] at h
        obtain ⟨e1, e2⟩ := h
        subst e1 e2
        refine ⟨fun _ => hinv hi, le_max_left _ _, fun id hid => ?_⟩
        simp only [List.mem_singleton] at hid
        subst hid
        exact ⟨by omega, le_max_right _ _⟩
  | release_cnf_id lit =>
    simp only [cnf_step] at h
    cases hstep : btor_sat_mgr_release_cnf_id s lit with
    | ok s1 =>
      rw [hstep] at h
      simp only [sat_ok_bind, sat_pure_eq_ok, SatOutcome.ok.injEq, Prod.mk.injEq] at h
      obtain ⟨e1, e2⟩ := h
      subst e1 e2
      obtain ⟨h1, h2, h3⟩ := sat_release_cnf_id_frame s s1 lit hstep
      exact ⟨fun hi => (by rw [h3]; exact hinv (h2 ▸ hi)), h1.ge, fun id hid => (by cases hid)⟩
    | assert_fail e => rw [hstep] at h; cases h
    | abort msg => rw [hstep] at h; cases h

theorem cnf_run_inv (ops : List CnfOp) :
    ∀ (s s2 : BtorSATMgr S) (ids : List Int),
      (s.initialized = true → s.inc_required = true) →
      cnf_run s ops = .ok (s2, ids) →
      (s2.initialized = true → s2.inc_required = true) ∧ s.maxvar ≤ s2.maxvar ∧
      ∀ id ∈ ids, 1 ≤ id ∧ id ≤ s2.maxvar := by
  induction ops with
  | nil =>
    intro s s2 ids hinv h
    cases h
    exact ⟨hinv, le_refl _, fun id hid => (by cases hid)⟩
  | cons op ops ih =>
    intro s s2 ids hinv h
    simp only [cnf_run] at h
    cases hstep : cnf_step s op with
    | ok r1 =>
      obtain ⟨s1, ids1⟩ := r1
      rw [hstep, sat_ok_bind] at h
      cases hrun : cnf_run s1 ops with
      | ok r2 =>
        obtain ⟨s3, ids2⟩ := r2
        rw [hrun] at h
        simp only [sat_ok_bind, sat_pure_eq_ok, SatOutcome.ok.injEq, Prod.mk.injEq] at h
        obtain ⟨e1, e2⟩ := h
        subst e1 e2
        obtain ⟨h1, h2, h3⟩ := cnf_step_inv s s1 op ids1 hinv hstep
        obtain ⟨h4, h5, h6⟩ := ih s1 s3 ids2 h1 hrun
        refine ⟨h4, le_trans h2 h5, fun id hid => ?_⟩
        rcases List.mem_append.mp hid with hm | hm
        · exact ⟨(h3 id hm).1, le_trans (h3 id hm).2 h5⟩
        · exact h6 id hm
      | assert_fail e => rw [hrun] at h; cases h
      | abort msg => rw [hrun] at h; cases h
    | assert_fail e => rw [hstep] at h; cases h
    | abort msg => rw [hstep] at h; cases h

/-- C28: in every state reached from a new manager through `btor_sat_init`,
`btor_sat_mgr_next_cnf_id`, `btor_sat_add`, `btor_sat_assume`, `btor_sat_sat`,
`btor_sat_mgr_release_cnf_id` and `btor_sat_reset`, every id handed out so far
(the true literal included) lies between 1 and `maxvar`; `btor_sat_init` on a
manager that is not initialized fails no assertion, so none of its own unit
clause; and on an initialized manager every id handed out is accepted by
`btor_sat_add`, `btor_sat_assume`, `btor_sat_deref`, `btor_sat_repr`,
`btor_sat_failed` and `btor_sat_fixed`. -/
theorem issued_cnf_ids_legal (name : String) (api : BtorSATApi S) (verbosity : Int)
    (ops : List CnfOp) (s : BtorSATMgr S) (ids : List Int)
    (h : cnf_run (btor_sat_mgr_new name api verbosity) ops = .ok (s, ids)) :
    (∀ id ∈ ids, 1 ≤ id ∧ id ≤ s.maxvar) ∧
    (s.initialized = false → (btor_sat_init s).violation = false) ∧
    (s.initialized = true → ∀ id ∈ ids,
      (btor_sat_add s id).accepted = true ∧ (btor_sat_assume s id).accepted = true ∧
      (btor_sat_deref s id).accepted = true ∧ (btor_sat_repr s id).accepted = true ∧
      (btor_sat_failed s id).accepted = true ∧ (btor_sat_fixed s id).accepted = true) := by
  obtain ⟨h1, -, h3⟩ := cnf_run_inv ops _ s ids (fun hf => (by cases hf)) h
  refine ⟨h3, fun hi => ?_, fun hi id hid => ?_⟩
  · rw [sat_init_eq s hi]
    split_ifs <;> rfl
  · obtain ⟨hpos, hle⟩ := h3 id hid
    have hl : c_abs id ≤ s.maxvar := by
      rw [c_abs_of_pos (by omega)]
      exact hle
    have hinc := h1 hi
    refine ⟨?_, ?_, ?_, ?_, ?_, ?_⟩
    · rw [sat_add_eq s id hi hl (Or.inr hinc)]
      rfl
    · simp [btor_sat_assume, hi, hl, hinc, SatOutcome.accepted]
    · simp [btor_sat_deref, hi, hl, SatOutcome.accepted]
    · simp [btor_sat_repr, hi, hl, SatOutcome.accepted]
    · simp [btor_sat_failed, hi, hl, SatOutcome.accepted]
    · simp [btor_sat_fixed, hi, hl, SatOutcome.accepted]

/-- C28 on the toy backend: after `btor_sat_init`, two further variables, a
release, a reset and a second `btor_sat_init` the ids handed out are 1, 2, 3
and 1, and `maxvar` is 3. -/
theorem issued_cnf_ids_legal_witness :
    cnf_run (btor_sat_mgr_new "Toy" toyApi 0)
        [.op .init, .next_cnf_id, .next_cnf_id, .release_cnf_id 2, .op .reset, .op .init]
      = .ok ({ toySmgr with solver := some 1, inc_required := true, initialized := true,
                            maxvar := 3, clauses := 2, true_lit := 1 }, [1, 2, 3, 1]) ∧
    ∀ id ∈ [(1 : Int), 2, 3, 1], 1 ≤ id ∧ id ≤ 3 :=
  ⟨rfl,
   (issued_cnf_ids_legal "Toy" toyApi 0
      [.op .init, .next_cnf_id, .next_cnf_id, .release_cnf_id 2, .op .reset, .op .init]
      { toySmgr with solver := some 1, inc_required := true, initialized := true,
                     maxvar := 3, clauses := 2, true_lit := 1 } [1, 2, 3, 1] rfl).1⟩

/-! ## The rewrite level -/

/-- C27: `boolector_set_rewrite_level` returns exactly when the level is in
[0,3] and the node id table holds at most 2 entries, and then stores the
level; a level outside [0,3] is a usage error raised in the state of the
call, with the stored rewrite level as it was. -/
theorem set_rewrite_level_accepts (nodes_id_table_count : G → Int) (b : Btor G)
    (level : Int) :
    ((boolector_set_rewrite_level nodes_id_table_count (some b) level).accepted = true ↔
      (0 ≤ level ∧ level ≤ 3) ∧ nodes_id_table_count b.graph ≤ 2) ∧
    ((0 ≤ level ∧ level ≤ 3) ∧ nodes_id_table_count b.graph ≤ 2 →
      boolector_set_rewrite_level nodes_id_table_count (some b) level
        = .ok { b with rewrite_level := level }) ∧
    (level < 0 ∨ 3 < level →
      boolector_set_rewrite_level nodes_id_table_count (some b) level
        = .abort (some b) "\x27rewrite_level\x27 has to be in [0,3]") := by
  simp only [boolector_set_rewrite_level, null_btor_some, ok_bind, trapi_some, abort_cond_bind,
    btor_set_rewrite_level_btor, pure_eq_ok, Bool.or_eq_true, decide_eq_true_eq]
  refine ⟨?_, ?_, ?_⟩
  · split_ifs with h1 h2
    · simp only [Outcome.accepted, Bool.false_eq_true, false_iff, not_and, not_le]
      intro h
      omega
    · simp only [Outcome.accepted, Bool.false_eq_true, false_iff, not_and, not_le]
      intro _
      exact h2
    · simp only [Outcome.accepted, true_iff]
      exact ⟨by omega, by omega⟩
  · intro h
    rw [if_neg (by omega), if_neg (by omega)]
  · intro h
    rw [if_pos h]

/-! ## Generated symbols -/

theorem digitChar_toNat (d : Nat) (h : d < 10) : (Nat.digitChar d).toNat - 48 = d := by
  interval_cases d <;> rfl

theorem digitChar_ne_minus (d : Nat) (h : d < 10) : Nat.digitChar d ≠ '-' := by
  interval_cases d <;> decide

/-- Reading the digits that `Nat.toDigitsCore` puts in front of `ds` gives
back the number. -/
theorem toDigitsCore_value (fuel : Nat) :
    ∀ (n : Nat) (ds : List Char), n < fuel →
      (Nat.toDigitsCore 10 fuel n ds).foldl (fun a c => 10 * a + (c.toNat - 48)) 0
        = ds.foldl (fun a c => 10 * a + (c.toNat - 48)) n := by
  induction fuel with
  | zero => intro n ds h; omega
  | succ fuel ih =>
    intro n ds h
    simp only [Nat.toDigitsCore]
    split_ifs with h0
    · have hn : n < 10 := by
        by_contra hc
        have : 1 ≤ n / 10 := Nat.div_pos (by omega) (by decide)
        omega
      simp only [List.foldl_cons, Nat.mul_zero, Nat.zero_add]
      rw [digitChar_toNat _ (Nat.mod_lt _ (by decide)), Nat.mod_eq_of_lt hn]
    · have hlt : n / 10 < fuel := by
        have : n / 10 < n := Nat.div_lt_self (by omega) (by decide)
        omega
      rw [ih (n / 10) _ hlt]
      simp only [List.foldl_cons]
      rw [digitChar_toNat _ (Nat.mod_lt _ (by decide))]
      congr 1
      omega

theorem toDigitsCore_no_minus (fuel : Nat) :
    ∀ (n : Nat) (ds : List Char), (∀ c ∈ ds, c ≠ '-') →
      ∀ c ∈ Nat.toDigitsCore 10 fuel n ds, c ≠ '-' := by
  induction fuel with
  | zero => intro n ds h; simpa [Nat.toDigitsCore] using h
  | succ fuel ih =>
    intro n ds h
    simp only [Nat.toDigitsCore]
    have hd : ∀ c ∈ Nat.digitChar (n % 10) :: ds, c ≠ '-' := by
      intro c hc
      rcases List.mem_cons.mp hc with rfl | hc
      · exact digitChar_ne_minus _ (Nat.mod_lt _ (by decide))
      · exact h c hc
    split_ifs with h0
    · exact hd
    · exact ih _ _ hd

theorem nat_repr_injective (a b : Nat) (h : Nat.repr a = Nat.repr b) : a = b := by
  have h2 : Nat.toDigits 10 a = Nat.toDigits 10 b := congrArg String.data h
  have ha := toDigitsCore_value (a + 1) a [] (by omega)
  have hb := toDigitsCore_value (b + 1) b [] (by omega)
  simp only [List.foldl_nil] at ha hb
  unfold Nat.toDigits at h2
  rw [← ha, ← hb, h2]

theorem string_append_left_cancel (p s t : String) (h : p ++ s = p ++ t) : s = t := by
  have h2 := congrArg String.data h
  simp only [String.data_append] at h2
  exact String.ext (List.append_cancel_left h2)

/-- The decimal form of an integer (the conversion `%d`) determines the
integer. -/
theorem int_toString_injective (a b : Int) (h : toString a = toString b) : a = b := by
  cases a with
  | ofNat m =>
    cases b with
    | ofNat n =>
      have : Nat.repr m = Nat.repr n := h
      rw [nat_repr_injective m n this]
    | negSucc n =>
      exfalso
      have h1 : Nat.repr m = "-" ++ Nat.repr (n + 1) := h
      have h2 := congrArg String.data h1
      simp only [String.data_append, Nat.repr, List.asString] at h2
      have hm := toDigitsCore_no_minus (m + 1) m [] (fun c hc => (by cases hc)) '-'
        (by unfold Nat.toDigits at h2; rw [h2]; simp)
      exact hm rfl
  | negSucc m =>
    cases b with
    | ofNat n =>
      exfalso
      have h1 : "-" ++ Nat.repr (m + 1) = Nat.repr n := h
      have h2 := congrArg String.data h1
      simp only [String.data_append, Nat.repr, List.asString] at h2
      have hm := toDigitsCore_no_minus (n + 1) n [] (fun c hc => (by cases hc)) '-'
        (by unfold Nat.toDigits at h2; rw [← h2]; simp)
      exact hm rfl
    | negSucc n =>
      have h1 : "-" ++ Nat.repr (m + 1) = "-" ++ Nat.repr (n + 1) := h
      have h2 := nat_repr_injective _ _ (string_append_left_cancel _ _ _ h1)
      have : m = n := by omega
      rw [this]

/-- Symbols generated from different counter values differ. -/
theorem generated_symbol_ne (p : String) (a b : Int) (h : a ≠ b) :
    p ++ toString a ≠ p ++ toString b :=
  fun he => h (int_toString_injective a b (string_append_left_cancel p _ _ he))

theorem idsStep_bind {b : Btor G} {α β : Type} {st : β → Btor G}
    (m : Outcome G α) (f : α → Outcome G β)
    (h : ∀ a, IdsStep b st (f a)) : IdsStep b st (m >>= f) := by
  intro r hr
  cases m with
  | ok a => exact h a r hr
  | abort s msg => cases hr
  | fault => cases hr

theorem idsStep_fault {b : Btor G} {α : Type} {st : α → Btor G} :
    IdsStep b st (Outcome.fault : Outcome G α) := by
  intro r hr
  cases hr

theorem idsStep_call {b b2 : Btor G} (x : ExpLayer G) (fn : String) (args : List ExpArg)
    (h1 : b.dvn_id ≤ b2.dvn_id) (h2 : b.dan_id ≤ b2.dan_id) (h3 : b.dpn_id ≤ b2.dpn_id) :
    IdsStep b Prod.fst
      (pure (call_exp x fn (inc_external_refs b2) args) : Outcome G (Btor G × BtorRef)) := by
  intro r hr
  cases hr
  exact ⟨h1, h2, h3⟩

theorem idsStep_ret_node {b : Btor G} {o : Outcome G (Btor G × BtorRef)}
    (h : IdsStep b Prod.fst o) : IdsStep b Prod.fst (ret_node o) := by
  intro r hr
  cases o with
  | ok a =>
    cases hr
    exact h a rfl
  | abort s msg => cases hr
  | fault => cases hr

theorem idsStep_ret_void {b : Btor G} {o : Outcome G (Btor G)}
    (h : IdsStep b (fun s => s) o) : IdsStep b Prod.fst (ret_void o) := by
  intro r hr
  cases o with
  | ok a =>
    cases hr
    exact h a rfl
  | abort s msg => cases hr
  | fault => cases hr

/-- No call lowers a name counter. -/
theorem run_call_ids (x : ExpLayer G) (b : Btor G) (c : ApiCall) :
    IdsStep b Prod.fst (run_call x (some b) c) := by
  cases hc : c.returns_node with
  | false =>
    cases c <;> cases hc
    simp only [run_call]
    apply idsStep_ret_void
    simp only [boolector_release, null_btor_some, ok_bind]
    refine idsStep_bind _ _ (fun _ => ?_)
    refine idsStep_bind _ _ (fun _ => ?_)
    refine idsStep_bind _ _ (fun _ => ?_)
    intro r hr
    cases hr
    exact ⟨le_refl _, le_refl _, le_refl _⟩
  | true =>
    cases c <;> cases hc
    all_goals apply idsStep_ret_node
    all_goals simp only [boolector_const, boolector_zero, boolector_false, boolector_ones,
      boolector_true, boolector_one, boolector_unsigned_int, boolector_int,
      boolector_var, boolector_array, boolector_not, boolector_neg,
      boolector_redor, boolector_redxor, boolector_redand, boolector_slice,
      boolector_uext, boolector_sext, boolector_implies, boolector_iff,
      boolector_xor, boolector_xnor, boolector_and, boolector_nand,
      boolector_or, boolector_nor, boolector_eq, boolector_ne,
      boolector_add, boolector_uaddo, boolector_saddo, boolector_mul,
      boolector_umulo, boolector_smulo, boolector_ult, boolector_slt,
      boolector_ulte, boolector_slte, boolector_ugt, boolector_sgt,
      boolector_ugte, boolector_sgte, boolector_sll, boolector_srl,
      boolector_sra, boolector_rol, boolector_ror, boolector_sub,
      boolector_usubo, boolector_ssubo, boolector_udiv, boolector_sdiv,
      boolector_sdivo, boolector_urem, boolector_srem, boolector_smod,
      boolector_concat, boolector_read, boolector_write, boolector_cond,
      boolector_lambda, boolector_param, boolector_fun, boolector_apply,
      boolector_inc, boolector_dec, boolector_copy,
      null_btor_some, ok_bind]
    all_goals try split
    all_goals
      repeat (first
        | exact idsStep_call _ _ _ (by simp) (by simp) (by simp)
        | exact idsStep_fault
        | refine idsStep_bind _ _ (fun _ => ?_))

theorem run_calls_ids (x : ExpLayer G) (cs : List ApiCall) :
    ∀ (b b2 : Btor G), run_calls x b cs = .ok b2 →
      b.dvn_id ≤ b2.dvn_id ∧ b.dan_id ≤ b2.dan_id ∧ b.dpn_id ≤ b2.dpn_id := by
  induction cs with
  | nil =>
    intro b b2 h
    cases h
    exact ⟨le_refl _, le_refl _, le_refl _⟩
  | cons c cs ih =>
    intro b b2 h
    simp only [run_calls] at h
    cases hrc : run_call x (some b) c with
    | ok r =>
      rw [hrc, ok_bind] at h
      obtain ⟨h1, h2, h3⟩ := run_call_ids x b c r hrc
      obtain ⟨h4, h5, h6⟩ := ih r.1 b2 h
      exact ⟨le_trans h1 h4, le_trans h2 h5, le_trans h3 h6⟩
    | abort s msg => rw [hrc] at h; cases h
    | fault => rw [hrc] at h; cases h

/-- C29: with a null symbol and widths of at least 1, `boolector_var` names
the variable `DVN` followed by the decimal value of `dvn_id` before the call
and leaves `dvn_id` one higher, and the symbol generated for any anonymous
variable made later on the same solver (the one of the counter then) differs
from it; the same holds of `boolector_array` with `DAN` and `dan_id` and of
`boolector_param` with `DPN` and `dpn_id`; a call with a non-null symbol
leaves the counter as it was. -/
theorem generated_symbols_distinct (x : ExpLayer G) (b : Btor G) (width index_width : Int)
    (hw : 1 ≤ width) (hi : 1 ≤ index_width) :
    (boolector_var x (some b) width none
        = .ok (call_exp x "btor_var_exp" (inc_external_refs { b with dvn_id := b.dvn_id + 1 })
            [.int width, .str ("DVN" ++ toString b.dvn_id)]) ∧
      boolector_array x (some b) width index_width none
        = .ok (call_exp x "btor_array_exp" (inc_external_refs { b with dan_id := b.dan_id + 1 })
            [.int width, .int index_width, .str ("DAN" ++ toString b.dan_id)]) ∧
      boolector_param x (some b) width none
        = .ok (call_exp x "btor_param_exp" (inc_external_refs { b with dpn_id := b.dpn_id + 1 })
            [.int width, .str ("DPN" ++ toString b.dpn_id)])) ∧
    (∀ r, boolector_var x (some b) width none = .ok r →
      r.1.dvn_id = b.dvn_id + 1 ∧
      ∀ cs b2, run_calls x r.1 cs = .ok b2 →
        "DVN" ++ toString b2.dvn_id ≠ "DVN" ++ toString b.dvn_id) ∧
    (∀ r, boolector_array x (some b) width index_width none = .ok r →
      r.1.dan_id = b.dan_id + 1 ∧
      ∀ cs b2, run_calls x r.1 cs = .ok b2 →
        "DAN" ++ toString b2.dan_id ≠ "DAN" ++ toString b.dan_id) ∧
    (∀ r, boolector_param x (some b) width none = .ok r →
      r.1.dpn_id = b.dpn_id + 1 ∧
      ∀ cs b2, run_calls x r.1 cs = .ok b2 →
        "DPN" ++ toString b2.dpn_id ≠ "DPN" ++ toString b.dpn_id) ∧
    (∀ sym r, boolector_var x (some b) width (some sym) = .ok r → r.1.dvn_id = b.dvn_id) ∧
    (∀ sym r, boolector_array x (some b) width index_width (some sym) = .ok r →
      r.1.dan_id = b.dan_id) ∧
    (∀ sym r, boolector_param x (some b) width (some sym) = .ok r → r.1.dpn_id = b.dpn_id) := by
  have hw2 : ¬ width < 1 := by omega
  have hi2 : ¬ index_width < 1 := by omega
  have e1 : boolector_var x (some b) width none
        = .ok (call_exp x "btor_var_exp" (inc_external_refs { b with dvn_id := b.dvn_id + 1 })
            [.int width, .str ("DVN" ++ toString b.dvn_id)]) := by
    simp [boolector_var, hw2]
  have e2 : boolector_array x (some b) width index_width none
        = .ok (call_exp x "btor_array_exp" (inc_external_refs { b with dan_id := b.dan_id + 1 })
            [.int width, .int index_width, .str ("DAN" ++ toString b.dan_id)]) := by
    simp [boolector_array, hw2, hi2]
  have e3 : boolector_param x (some b) width none
        = .ok (call_exp x "btor_param_exp" (inc_external_refs { b with dpn_id := b.dpn_id + 1 })
            [.int width, .str ("DPN" ++ toString b.dpn_id)]) := by
    simp [boolector_param, hw2]
  refine ⟨⟨e1, e2, e3⟩, ?_, ?_, ?_, ?_, ?_, ?_⟩
  · intro r hr
    rw [e1] at hr
    cases hr
    refine ⟨rfl, fun cs b2 h => ?_⟩
    have h1 := (run_calls_ids x cs _ b2 h).1
    have h2 : b.dvn_id + 1 ≤ b2.dvn_id := h1
    exact generated_symbol_ne _ _ _ (by omega)
  · intro r hr
    rw [e2] at hr
    cases hr
    refine ⟨rfl, fun cs b2 h => ?_⟩
    have h1 := (run_calls_ids x cs _ b2 h).2.1
    have h2 : b.dan_id + 1 ≤ b2.dan_id := h1
    exact generated_symbol_ne _ _ _ (by omega)
  · intro r hr
    rw [e3] at hr
    cases hr
    refine ⟨rfl, fun cs b2 h => ?_⟩
    have h1 := (run_calls_ids x cs _ b2 h).2.2
    have h2 : b.dpn_id + 1 ≤ b2.dpn_id := h1
    exact generated_symbol_ne _ _ _ (by omega)
  · intro sym r hr
    simp [boolector_var, hw2] at hr
    rw [← hr]
    rfl
  · intro sym r hr
    simp [boolector_array, hw2, hi2] at hr
    rw [← hr]
    rfl
  · intro sym r hr
    simp [boolector_param, hw2] at hr
    rw [← hr]
    rfl

/-- C29 on the toy solver: the first anonymous variable is named `DVN0`, and
after a named variable and a second anonymous one the counter is 2. -/
theorem generated_symbols_distinct_witness :
    boolector_var toyLayer (some toyBtor) 8 none
      = .ok (call_exp toyLayer "btor_var_exp"
          (inc_external_refs { toyBtor with dvn_id := 1 }) [.int 8, .str "DVN0"]) ∧
    run_calls toyLayer { toyBtor with dvn_id := 1, external_refs := 1, graph := 1 }
        [.boolector_var 8 (some "v"), .boolector_var 8 none]
      = .ok { toyBtor with dvn_id := 2, external_refs := 3, graph := 3 } ∧
    "DVN" ++ toString (2 : Int) ≠ "DVN" ++ toString (0 : Int) :=
  ⟨(generated_symbols_distinct toyLayer toyBtor 8 8 (by decide) (by decide)).1.1,
   rfl,
   ((generated_symbols_distinct toyLayer toyBtor 8 8 (by decide) (by decide)).2.1 _ rfl).2
     [.boolector_var 8 (some "v"), .boolector_var 8 none]
     { toyBtor with dvn_id := 2, external_refs := 3, graph := 3 } rfl⟩

/-! ## Clone checking: facts -/

@[simp] theorem chk_ok_bind {α β : Type} (a : α) (f : α → ChkOutcome G β) :
    (ChkOutcome.ok a >>= f) = f a := rfl

@[simp] theorem chk_abort_bind {α β : Type} (st : Option (Btor G)) (msg : String)
    (f : α → ChkOutcome G β) :
    ((ChkOutcome.abort st msg : ChkOutcome G α) >>= f) = ChkOutcome.abort st msg := rfl

@[simp] theorem chk_fault_bind {α β : Type} (f : α → ChkOutcome G β) :
    ((ChkOutcome.fault : ChkOutcome G α) >>= f) = ChkOutcome.fault := rfl

@[simp] theorem chk_assert_fail_bind {α β : Type} (e : String) (f : α → ChkOutcome G β) :
    ((ChkOutcome.assert_fail e : ChkOutcome G α) >>= f) = ChkOutcome.assert_fail e := rfl

@[simp] theorem chk_pure_eq_ok {α : Type} (a : α) :
    (pure a : ChkOutcome G α) = ChkOutcome.ok a := rfl

@[simp] theorem chk_assert_bind {β : Type} (c : Bool) (e : String)
    (f : Unit → ChkOutcome G β) :
    (chk_assert c e >>= f) = if c then f () else .assert_fail e := by
  unfold chk_assert
  split <;> rfl

/-- Without a twin a node-returning wrapper ends as its body does. -/
theorem node_wrapper_none (body replay : Option (Btor G) → Outcome G (Btor G × BtorRef))
    (b : Btor G) :
    node_wrapper body replay ⟨b, none⟩
      = (do let r ← (ret_node (body (some b))).chk
            return (⟨r.1, none⟩, r.2)) := by
  unfold node_wrapper ret_node
  cases body (some b) <;> rfl

theorem void_wrapper_none (body replay : Option (Btor G) → Outcome G (Btor G))
    (b : Btor G) :
    void_wrapper body replay ⟨b, none⟩
      = (do let r ← (ret_void (body (some b))).chk
            return (⟨r.1, none⟩, r.2)) := by
  unfold void_wrapper ret_void
  cases body (some b) <;> rfl

theorem int_wrapper_none (body replay : Option (Btor G) → Outcome G (Btor G × Int))
    (b : Btor G) :
    int_wrapper body replay ⟨b, none⟩
      = (do let r ← (body (some b)).chk
            return (⟨r.1, none⟩, r.2)) := by
  unfold int_wrapper
  cases body (some b) <;> rfl

theorem string_wrapper_none (body replay : Option (Btor G) → Outcome G (Btor G × String))
    (b : Btor G) :
    string_wrapper body replay ⟨b, none⟩
      = (do let r ← (body (some b)).chk
            return (⟨r.1, none⟩, r.2)) := by
  unfold string_wrapper
  cases body (some b) <;> rfl

theorem cq_void_none (body replay : Option (Btor G) → Outcome G (Btor G)) (b : Btor G) :
    cq_void (void_wrapper body replay ⟨b, none⟩)
      = (do let r ← (q_void (body (some b))).chk
            return (r.1.map (fun b2 => (⟨b2, none⟩ : BtorChk G)), r.2)) := by
  unfold cq_void void_wrapper q_void
  cases body (some b) <;> rfl

theorem cq_int_none (body replay : Option (Btor G) → Outcome G (Btor G × Int)) (b : Btor G) :
    cq_int (int_wrapper body replay ⟨b, none⟩)
      = (do let r ← (q_int (body (some b))).chk
            return (r.1.map (fun b2 => (⟨b2, none⟩ : BtorChk G)), r.2)) := by
  unfold cq_int int_wrapper q_int
  cases body (some b) <;> rfl

theorem cq_str_none (body replay : Option (Btor G) → Outcome G (Btor G × String))
    (b : Btor G) :
    cq_str (string_wrapper body replay ⟨b, none⟩)
      = (do let r ← (q_str (body (some b))).chk
            return (r.1.map (fun b2 => (⟨b2, none⟩ : BtorChk G)), r.2)) := by
  unfold cq_str string_wrapper q_str
  cases body (some b) <;> rfl

/-- C25 evaluated: on a solver with no twin attached each of the five
clone-check steps returns at once and leaves the solver as it is, and every
call of the API with a closing step other than `boolector_delete` (the
node-returning functions and `boolector_release`, and the 22 other wrappers
with an `int`, a string or no result) ends as the call without the step: same
result, same solver state, still no twin.  `boolector_delete` does not: its
body returns, the solver freed, and the closing step then reads `btor->clone`
from the freed record, a fault, where the call without the step returns. -/
theorem chkclone_absent_noop_except_delete (x : ExpLayer G) (c : CoreLayer G)
    (a : AuxLayer G) (nodes_id_table_count : G → Int) (b : Btor G) :
    (BTOR_CHKCLONE (⟨b, none⟩ : BtorChk G) = .ok () ∧
      (∀ fn, BTOR_CHKCLONENORES fn ⟨b, none⟩ = .ok ⟨b, none⟩) ∧
      (∀ fn res, BTOR_CHKCLONERES fn res ⟨b, none⟩ = .ok ⟨b, none⟩) ∧
      (∀ fn res, BTOR_CHKCLONERESP fn res ⟨b, none⟩ = .ok ⟨b, none⟩) ∧
      (∀ fn res, BTOR_CHKCLONERESS fn res ⟨b, none⟩ = .ok ⟨b, none⟩)) ∧
    (∀ call, chk_run_call x ⟨b, none⟩ call
      = (do let r ← (run_call x (some b) call).chk
            return (⟨r.1, none⟩, r.2))) ∧
    (∀ q, q ≠ ApiQuery.boolector_delete →
      chk_run_query x c a nodes_id_table_count ⟨b, none⟩ q
        = (do let r ← (run_query x c a nodes_id_table_count (some b) q).chk
              return (r.1.map (fun b2 => (⟨b2, none⟩ : BtorChk G)), r.2))) ∧
    run_query x c a nodes_id_table_count (some b) .boolector_delete = .ok (none, .unit) ∧
    chk_run_query x c a nodes_id_table_count ⟨b, none⟩ .boolector_delete = .fault := by
  refine ⟨⟨rfl, fun _ => rfl, fun _ _ => rfl, fun _ _ => rfl, fun _ _ => rfl⟩, ?_, ?_, rfl,
    rfl⟩
  · intro call
    cases call
    case boolector_lambda param exp =>
      simp only [chk_run_call, run_call, ret_node]
      cases boolector_lambda x (some b) param exp <;> rfl
    case boolector_release exp =>
      simp only [chk_run_call, run_call]
      exact void_wrapper_none _ _ _
    all_goals
      simp only [chk_run_call, run_call]
      exact node_wrapper_none _ _ _
  · intro q hq
    cases q
    case boolector_delete => exact absurd rfl hq
    case boolector_array_assignment e_array indices values size =>
      simp only [chk_run_query, run_query]
      cases boolector_array_assignment x c (some b) e_array indices values size <;> rfl
    all_goals
      simp only [chk_run_query, run_query]
      first
        | exact cq_void_none _ _ _
        | exact cq_int_none _ _ _
        | exact cq_str_none _ _ _

/-- When `btor_chkclone_exp` passes, the two references have the same polarity
and the two nodes the same id, width, reference count and number of children,
and, unless the node is a parameter, children that agree pairwise in polarity
and id. -/
theorem chkclone_exp_ok (exp clone : BtorRef)
    (h : (btor_chkclone_exp exp clone : ChkOutcome G Unit) = .ok ()) :
    exp.inverted = clone.inverted ∧ clone.node.id = exp.node.id ∧
    clone.node.len = exp.node.len ∧ clone.node.refs = exp.node.refs ∧
    clone.node.e.length = exp.node.e.length ∧
    (exp.node.is_param = false →
      ∀ p ∈ List.zip exp.node.e clone.node.e, p.2.1 = p.1.1 ∧ p.1.2.id = p.2.2.id) := by
  simp only [btor_chkclone_exp, BTOR_REAL_ADDR_NODE, chk_assert_bind] at h
  split_ifs at h with h1 h2 h3 h4 h5 h6 h7
  · simp only [beq_iff_eq] at h1 h3 h4 h5 h6
    refine ⟨h1, h4, h5, h6, h3, fun hp p hm => ?_⟩
    simp only [hp, Bool.false_or, List.all_eq_true] at h7
    have := h7 p hm
    simpa [BTOR_CHKCLONE_EXP_TAGGED] using this

/-- C26 evaluated: with a twin attached, `boolector_lambda` ends as the call
without any clone check, the twin untouched and the result compared with
nothing, whereas a sibling such as `boolector_copy` replays the call on the
twin and compares.  On the toy solver with a faithful twin `boolector_copy`
advances solver and twin alike; `boolector_lambda` advances the solver alone,
and the next checked call then fails the comparison of the node ids. -/
theorem lambda_skips_clone_check :
    (∀ (x : ExpLayer G) (b cl : Btor G) (param exp : Option BtorRef),
      chk_run_call x ⟨b, some cl⟩ (.boolector_lambda param exp)
        = (do let r ← (run_call x (some b) (.boolector_lambda param exp)).chk
              return (⟨r.1, some cl⟩, r.2))) ∧
    chk_run_call toyLayer ⟨toyBtor, some toyBtor⟩ (.boolector_copy (some (bvRef 8)))
      = .ok (⟨{ toyBtor with external_refs := 1, graph := 1 },
              some { toyBtor with external_refs := 1, graph := 1 }⟩,
             some ⟨false, .mk 1 1 8 0 false false false []⟩) ∧
    chk_run_call toyLayer ⟨toyBtor, some toyBtor⟩
        (.boolector_lambda (some (paramRef 8)) (some (bvRef 8)))
      = .ok (⟨{ toyBtor with external_refs := 1, graph := 1 }, some toyBtor⟩,
             some ⟨false, .mk 1 1 8 0 false false false []⟩) ∧
    chk_run_call toyLayer ⟨{ toyBtor with external_refs := 1, graph := 1 }, some toyBtor⟩
        (.boolector_copy (some (bvRef 8)))
      = .assert_fail "real_clone->id == real_exp->id" := by
  refine ⟨fun x b cl param exp => ?_, rfl, rfl, rfl⟩
  simp only [chk_run_call, run_call, ret_node]
  cases boolector_lambda x (some b) param exp <;> rfl

/-! ## The example `bubblesortmem`: facts -/

@[simp] theorem push_returned (l : Ledger) (fn : String) (args : List Nat) :
    (l.push fn args).returned = l.returned + 1 := rfl

@[simp] theorem release_returned (l : Ledger) (h : Nat) :
    (l.release h).returned = l.returned := rfl

theorem holds_call (pre : List Nat) {post : List Nat} {l : Ledger} {fn : String}
    {args : List Nat} {h : Nat} (hn : h = l.returned) (H : Holds l (pre ++ post)) :
    Holds (l.push fn args) (pre ++ h :: post) := by
  subst hn
  obtain ⟨h1, h2, h3, h4, h5⟩ := H
  refine ⟨h1, ?_, ?_, ?_, ?_⟩
  · show (l.returned :: l.held).Perm (pre ++ l.returned :: post)
    exact ((List.Perm.cons _ h2).trans List.perm_middle.symm)
  · show l.returned + 1 = l.released + (pre ++ l.returned :: post).length
    simp only [List.length_append, List.length_cons] at h3 ⊢
    omega
  · show (l.log ++ [RefEvent.call fn args l.returned]).countP RefEvent.is_call
      = l.returned + 1
    rw [List.countP_append, h4]
    rfl
  · show (l.log ++ [RefEvent.call fn args l.returned]).countP (fun e => !e.is_call)
      = l.released
    rw [List.countP_append, h5]
    rfl

theorem holds_release {h : Nat} {hs : List Nat} {l : Ledger} (H : Holds l (h :: hs)) :
    Holds (l.release h) hs := by
  obtain ⟨h1, h2, h3, h4, h5⟩ := H
  have hm : h ∈ l.held := h2.symm.subset (List.mem_cons_self _ _)
  refine ⟨?_, ?_, ?_, ?_, ?_⟩
  · show (l.valid && decide (h ∈ l.held)) = true
    simp [h1, hm]
  · show (l.held.erase h).Perm hs
    have := List.Perm.erase h h2
    simpa using this
  · show l.returned = l.released + 1 + hs.length
    simp only [List.length_cons] at h3
    omega
  · show (l.log ++ [RefEvent.release h]).countP RefEvent.is_call = l.returned
    rw [List.countP_append, h4]
    rfl
  · show (l.log ++ [RefEvent.release h]).countP (fun e => !e.is_call) = l.released + 1
    rw [List.countP_append, h5]
    rfl

theorem holds_perm {l : Ledger} {hs hs2 : List Nat} (H : Holds l hs) (hp : hs.Perm hs2) :
    Holds l hs2 :=
  ⟨H.1, H.2.1.trans hp, by rw [H.2.2.1, hp.length_eq], H.2.2.2.1, H.2.2.2.2⟩

theorem for_loop_inv {σ : Type} (P : σ → Prop) (body : Int → σ → σ)
    (hb : ∀ i s, P s → P (body i s)) :
    ∀ (n : Nat) (i : Int) (s : σ), P s → P (for_loop body n i s) := by
  intro n
  induction n with
  | zero => intro i s h; exact h
  | succ n ih => intro i s h; exact ih (i + 1) (body i s) (hb i s h)

theorem c_for_inv {σ : Type} (P : σ → Prop) (body : Int → σ → σ)
    (hb : ∀ i s, P s → P (body i s)) (lo hi : Int) (s : σ) (h : P s) :
    P (c_for lo hi body s) :=
  for_loop_inv P body hb _ _ s h

set_option linter.unusedTactic false in
set_option linter.unreachableTactic false in
/-- One pass of the inner loop keeps the ledger in order: the references of
`pos`, `pos_p_1` and `mem` are replaced by new ones. -/
theorem swap_step_holds (one : Nat) (rest : List Nat) (s : Ledger × Nat × Nat × Nat)
    (H : Holds s.1 (s.2.2.1 :: s.2.2.2 :: s.2.1 :: rest)) :
    Holds (swap_step one s).1
      ((swap_step one s).2.2.1 :: (swap_step one s).2.2.2 :: (swap_step one s).2.1 :: rest) := by
  obtain ⟨l, mem, pos, pos_p_1⟩ := s
  simp only at H
  simp only [swap_step, Ledger.call, push_returned, release_returned]
  repeat (first
    | with_reducible refine holds_release ?_
    | (refine holds_call [] ?_ ?_; · rfl)
    | (refine holds_call [_] ?_ ?_; · rfl)
    | (refine holds_call [_, _] ?_ ?_; · rfl)
    | (refine holds_call [_, _, _] ?_ ?_; · rfl)
    | (refine holds_call [_, _, _, _] ?_ ?_; · rfl)
    | (refine holds_call [_, _, _, _, _] ?_ ?_; · rfl)
    | (refine holds_call [_, _, _, _, _, _] ?_ ?_; · rfl)
    | (refine holds_call [_, _, _, _, _, _, _] ?_ ?_; · rfl)
    | (refine holds_call [_, _, _, _, _, _, _, _] ?_ ?_; · rfl)
    | (refine holds_call [_, _, _, _, _, _, _, _, _] ?_ ?_; · rfl)
    | (refine holds_call [_, _, _, _, _, _, _, _, _, _] ?_ ?_; · rfl)
    | (refine holds_call [_, _, _, _, _, _, _, _, _, _, _] ?_ ?_; · rfl)
    | (refine holds_call [_, _, _, _, _, _, _, _, _, _, _, _] ?_ ?_; · rfl))
  refine holds_perm H ?_
  rw [List.perm_iff_count]
  intro x
  simp only [List.append_eq, List.nil_append, List.cons_append, List.count_cons]
  omega

/-- One pass of the outer loop keeps the ledger in order: the reference of
`mem` is replaced by a new one. -/
theorem sort_pass_holds (num_elements : Int) (start one : Nat) (rest : List Nat) (i : Int)
    (s : Ledger × Nat) (H : Holds s.1 (s.2 :: rest)) :
    Holds (sort_pass num_elements start one i s).1
      ((sort_pass num_elements start one i s).2 :: rest) := by
  obtain ⟨l, mem⟩ := s
  simp only at H
  simp only [sort_pass, Ledger.call, push_returned, release_returned]
  have H2 : Holds ((l.push "boolector_copy" [start]).push "boolector_add" [l.returned, one])
      (l.returned :: (l.returned + 1) :: mem :: rest) :=
    holds_call [_] rfl (holds_call [] rfl H)
  have H3 := c_for_inv
    (fun s : Ledger × Nat × Nat × Nat => Holds s.1 (s.2.2.1 :: s.2.2.2 :: s.2.1 :: rest))
    (fun _ s => swap_step one s) (fun _ s h => swap_step_holds one rest s h)
    0 (num_elements - i)
    ((l.push "boolector_copy" [start]).push "boolector_add" [l.returned, one], mem,
      l.returned, l.returned + 1) H2
  simp only at H3
  generalize c_for 0 (num_elements - i) (fun _ s => swap_step one s)
    ((l.push "boolector_copy" [start]).push "boolector_add" [l.returned, one], mem,
      l.returned, l.returned + 1) = X at H3 ⊢
  obtain ⟨l2, mem2, pos2, pos_p_1_2⟩ := X
  exact holds_release (holds_release H3)

set_option linter.unusedTactic false in
set_option linter.unreachableTactic false in
/-- One pass of the loop that states sortedness keeps the ledger in order. -/
theorem sorted_step_holds (mem one : Nat) (rest : List Nat) (s : Ledger × Nat × Nat × Nat)
    (H : Holds s.1 (s.2.2.1 :: s.2.2.2 :: s.2.1 :: rest)) :
    Holds (sorted_step mem one s).1
      ((sorted_step mem one s).2.2.1 :: (sorted_step mem one s).2.2.2
        :: (sorted_step mem one s).2.1 :: rest) := by
  obtain ⟨l, sorted, pos, pos_p_1⟩ := s
  simp only at H
  simp only [sorted_step, Ledger.call, push_returned, release_returned]
  repeat (first
    | with_reducible refine holds_release ?_
    | (refine holds_call [] ?_ ?_; · rfl)
    | (refine holds_call [_] ?_ ?_; · rfl)
    | (refine holds_call [_, _] ?_ ?_; · rfl)
    | (refine holds_call [_, _, _] ?_ ?_; · rfl)
    | (refine holds_call [_, _, _, _] ?_ ?_; · rfl)
    | (refine holds_call [_, _, _, _, _] ?_ ?_; · rfl)
    | (refine holds_call [_, _, _, _, _, _] ?_ ?_; · rfl)
    | (refine holds_call [_, _, _, _, _, _, _] ?_ ?_; · rfl)
    | (refine holds_call [_, _, _, _, _, _, _, _] ?_ ?_; · rfl)
    | (refine holds_call [_, _, _, _, _, _, _, _, _] ?_ ?_; · rfl)
    | (refine holds_call [_, _, _, _, _, _, _, _, _, _] ?_ ?_; · rfl)
    | (refine holds_call [_, _, _, _, _, _, _, _, _, _, _] ?_ ?_; · rfl)
    | (refine holds_call [_, _, _, _, _, _, _, _, _, _, _, _] ?_ ?_; · rfl))
  refine holds_perm H ?_
  rw [List.perm_iff_count]
  intro x
  simp only [List.append_eq, List.nil_append, List.cons_append, List.count_cons]
  omega

set_option linter.unusedTactic false in
set_option linter.unreachableTactic false in
/-- One pass of the loop over the elements keeps the ledger in order. -/
theorem diff_step_holds (mem old_element one : Nat) (rest : List Nat)
    (s : Ledger × Nat × Nat) (H : Holds s.1 (s.2.2 :: s.2.1 :: rest)) :
    Holds (diff_step mem old_element one s).1
      ((diff_step mem old_element one s).2.2 :: (diff_step mem old_element one s).2.1
        :: rest) := by
  obtain ⟨l, no_diff_element, pos⟩ := s
  simp only at H
  simp only [diff_step, Ledger.call, push_returned, release_returned]
  repeat (first
    | with_reducible refine holds_release ?_
    | (refine holds_call [] ?_ ?_; · rfl)
    | (refine holds_call [_] ?_ ?_; · rfl)
    | (refine holds_call [_, _] ?_ ?_; · rfl)
    | (refine holds_call [_, _, _] ?_ ?_; · rfl)
    | (refine holds_call [_, _, _, _] ?_ ?_; · rfl)
    | (refine holds_call [_, _, _, _, _] ?_ ?_; · rfl)
    | (refine holds_call [_, _, _, _, _, _] ?_ ?_; · rfl)
    | (refine holds_call [_, _, _, _, _, _, _] ?_ ?_; · rfl)
    | (refine holds_call [_, _, _, _, _, _, _, _] ?_ ?_; · rfl)
    | (refine holds_call [_, _, _, _, _, _, _, _, _] ?_ ?_; · rfl)
    | (refine holds_call [_, _, _, _, _, _, _, _, _, _] ?_ ?_; · rfl)
    | (refine holds_call [_, _, _, _, _, _, _, _, _, _, _] ?_ ?_; · rfl)
    | (refine holds_call [_, _, _, _, _, _, _, _, _, _, _, _] ?_ ?_; · rfl))
  refine holds_perm H ?_
  rw [List.perm_iff_count]
  intro x
  simp only [List.append_eq, List.nil_append, List.cons_append, List.count_cons]
  omega

theorem holds_new : Holds Ledger.new [] :=
  ⟨rfl, List.Perm.refl _, rfl, rfl, rfl⟩

@[simp] theorem new_returned : Ledger.new.returned = 0 := rfl

set_option linter.unusedTactic false in
set_option linter.unreachableTactic false in
/-- For two elements or more `main` reaches `boolector_delete` with the
ledger in order and no reference held. -/
theorem bubblesortmem_holds (num_elements : Int) (h : 2 ≤ num_elements) :
    ∃ l, bubblesortmem num_elements = some l ∧ Holds l [] := by
  unfold bubblesortmem
  rw [if_neg (by omega)]
  simp only [Ledger.call, push_returned, release_returned, new_returned, Nat.reduceAdd]
  generalize hX1 : c_for 1 num_elements (sort_pass num_elements _ _) _ = X1
  have H1 : Holds X1.1 (X1.2 :: [9, 8, 5, 4, 3, 2, 0]) := by
    rw [← hX1]
    refine c_for_inv (fun s : Ledger × Nat => Holds s.1 (s.2 :: [9, 8, 5, 4, 3, 2, 0])) _
      (fun i s h => sort_pass_holds _ _ _ _ i s h) _ _ _ ?_
    simp only
    repeat (first
      | with_reducible refine holds_release ?_
      | (refine holds_call [] ?_ ?_; · rfl)
      | (refine holds_call [_] ?_ ?_; · rfl)
      | (refine holds_call [_, _] ?_ ?_; · rfl)
      | (refine holds_call [_, _, _] ?_ ?_; · rfl)
      | (refine holds_call [_, _, _, _] ?_ ?_; · rfl)
      | (refine holds_call [_, _, _, _, _] ?_ ?_; · rfl)
      | (refine holds_call [_, _, _, _, _, _] ?_ ?_; · rfl)
      | (refine holds_call [_, _, _, _, _, _, _] ?_ ?_; · rfl)
      | (refine holds_call [_, _, _, _, _, _, _, _] ?_ ?_; · rfl)
      | (refine holds_call [_, _, _, _, _, _, _, _, _] ?_ ?_; · rfl)
      | (refine holds_call [_, _, _, _, _, _, _, _, _, _] ?_ ?_; · rfl)
      | (refine holds_call [_, _, _, _, _, _, _, _, _, _, _] ?_ ?_; · rfl)
      | (refine holds_call [_, _, _, _, _, _, _, _, _, _, _, _] ?_ ?_; · rfl))
    exact holds_new
  clear hX1
  obtain ⟨l1, mem1⟩ := X1
  simp only [push_returned, release_returned] at H1 ⊢
  generalize hX2 : c_for 0 (num_elements - 1) (fun _ s => sorted_step mem1 _ s) _ = X2
  have H2 : Holds X2.1 (X2.2.2.1 :: X2.2.2.2 :: X2.2.1 :: mem1 :: [9, 8, 5, 4, 3, 2, 0]) := by
    rw [← hX2]
    refine c_for_inv (fun s : Ledger × Nat × Nat × Nat =>
        Holds s.1 (s.2.2.1 :: s.2.2.2 :: s.2.1 :: mem1 :: [9, 8, 5, 4, 3, 2, 0])) _
      (fun _ s h => sorted_step_holds _ _ _ s h) _ _ _ ?_
    simp only
    repeat (first
      | with_reducible refine holds_release ?_
      | (refine holds_call [] ?_ ?_; · rfl)
      | (refine holds_call [_] ?_ ?_; · rfl)
      | (refine holds_call [_, _] ?_ ?_; · rfl)
      | (refine holds_call [_, _, _] ?_ ?_; · rfl)
      | (refine holds_call [_, _, _, _] ?_ ?_; · rfl)
      | (refine holds_call [_, _, _, _, _] ?_ ?_; · rfl)
      | (refine holds_call [_, _, _, _, _, _] ?_ ?_; · rfl)
      | (refine holds_call [_, _, _, _, _, _, _] ?_ ?_; · rfl)
      | (refine holds_call [_, _, _, _, _, _, _, _] ?_ ?_; · rfl)
      | (refine holds_call [_, _, _, _, _, _, _, _, _] ?_ ?_; · rfl)
      | (refine holds_call [_, _, _, _, _, _, _, _, _, _] ?_ ?_; · rfl)
      | (refine holds_call [_, _, _, _, _, _, _, _, _, _, _] ?_ ?_; · rfl)
      | (refine holds_call [_, _, _, _, _, _, _, _, _, _, _, _] ?_ ?_; · rfl))
    exact H1
  clear hX2
  obtain ⟨l2, sorted2, pos2, pos_p_1_2⟩ := X2
  simp only [push_returned, release_returned] at H2 ⊢
  generalize hX3 : c_for 0 num_elements (fun _ s => diff_step mem1 _ _ s) _ = X3
  have H3 : Holds X3.1 (X3.2.2 :: X3.2.1 :: sorted2 :: mem1 :: [9, 8, 5, 4, 3, 2, 0]) := by
    rw [← hX3]
    refine c_for_inv (fun s : Ledger × Nat × Nat =>
        Holds s.1 (s.2.2 :: s.2.1 :: sorted2 :: mem1 :: [9, 8, 5, 4, 3, 2, 0])) _
      (fun _ s h => diff_step_holds _ _ _ _ s h) _ _ _ ?_
    simp only
    repeat (first
      | with_reducible refine holds_release ?_
      | (refine holds_call [] ?_ ?_; · rfl)
      | (refine holds_call [_] ?_ ?_; · rfl)
      | (refine holds_call [_, _] ?_ ?_; · rfl)
      | (refine holds_call [_, _, _] ?_ ?_; · rfl)
      | (refine holds_call [_, _, _, _] ?_ ?_; · rfl)
      | (refine holds_call [_, _, _, _, _] ?_ ?_; · rfl)
      | (refine holds_call [_, _, _, _, _, _] ?_ ?_; · rfl)
      | (refine holds_call [_, _, _, _, _, _, _] ?_ ?_; · rfl)
      | (refine holds_call [_, _, _, _, _, _, _, _] ?_ ?_; · rfl)
      | (refine holds_call [_, _, _, _, _, _, _, _, _] ?_ ?_; · rfl)
      | (refine holds_call [_, _, _, _, _, _, _, _, _, _] ?_ ?_; · rfl)
      | (refine holds_call [_, _, _, _, _, _, _, _, _, _, _] ?_ ?_; · rfl)
      | (refine holds_call [_, _, _, _, _, _, _, _, _, _, _, _] ?_ ?_; · rfl))
    exact H2
  clear hX3
  obtain ⟨l3, no_diff_element3, pos3⟩ := X3
  simp only [push_returned, release_returned] at H3 ⊢
  refine ⟨_, rfl, ?_⟩
  repeat (first
    | with_reducible refine holds_release ?_
    | (refine holds_call [] ?_ ?_; · rfl)
    | (refine holds_call [_] ?_ ?_; · rfl)
    | (refine holds_call [_, _] ?_ ?_; · rfl)
    | (refine holds_call [_, _, _] ?_ ?_; · rfl)
    | (refine holds_call [_, _, _, _] ?_ ?_; · rfl)
    | (refine holds_call [_, _, _, _, _] ?_ ?_; · rfl)
    | (refine holds_call [_, _, _, _, _, _] ?_ ?_; · rfl)
    | (refine holds_call [_, _, _, _, _, _, _] ?_ ?_; · rfl)
    | (refine holds_call [_, _, _, _, _, _, _, _] ?_ ?_; · rfl)
    | (refine holds_call [_, _, _, _, _, _, _, _, _] ?_ ?_; · rfl)
    | (refine holds_call [_, _, _, _, _, _, _, _, _, _] ?_ ?_; · rfl)
    | (refine holds_call [_, _, _, _, _, _, _, _, _, _, _] ?_ ?_; · rfl)
    | (refine holds_call [_, _, _, _, _, _, _, _, _, _, _, _] ?_ ?_; · rfl))
  refine holds_perm H3 ?_
  rw [List.perm_iff_count]
  intro x
  simp only [List.append_eq, List.nil_append, List.cons_append, List.count_cons]
  omega

/-- C30: for every `num_elements >= 2` the example reaches `boolector_delete`,
and the calls it has made by then are balanced: the node-returning calls are
as many as the calls of `boolector_release`, every release was given a
reference that was held, no reference is held any more, and in every run of
the API that makes calls of these kinds in this order on a solver without
references and returns from each, the counter of external references ends
at 0. -/
theorem bubblesortmem_balanced (num_elements : Int) (h : 2 ≤ num_elements) :
    ∃ l, bubblesortmem num_elements = some l ∧
      l.returned = l.released ∧ l.valid = true ∧ l.held = [] ∧
      l.log.countP RefEvent.is_call = l.returned ∧
      l.log.countP (fun e => !e.is_call) = l.released ∧
      ∀ (T : Type) (x : ExpLayer T) (b b2 : Btor T) (cs : List ApiCall),
        b.external_refs = 0 →
        cs.map ApiCall.returns_node = l.log.map RefEvent.is_call →
        run_calls x b cs = .ok b2 → b2.external_refs = 0 := by
  obtain ⟨l, hl, h1, h2, h3, h4, h5⟩ := bubblesortmem_holds num_elements h
  have hbal : l.returned = l.released := by simpa using h3
  refine ⟨l, hl, hbal, h1, h2.eq_nil, h4, h5, ?_⟩
  intro T x b b2 cs hb hcs hrun
  have hr := run_calls_refs x cs b b2 hrun
  have e1 : count_returned cs = l.returned := by
    rw [← h4]
    unfold count_returned
    rw [← List.countP_eq_length_filter]
    have := congrArg (List.countP id) hcs
    simpa [List.countP_map, Function.comp_def] using this
  have e2 : count_released cs = l.released := by
    rw [← h5]
    unfold count_released
    rw [← List.countP_eq_length_filter]
    have := congrArg (List.countP (fun v => !v)) hcs
    simpa [List.countP_map, Function.comp_def] using this
  rw [hr, hb, e1, e2, hbal]
  omega

/-- C30 for two elements: 44 node-returning calls and 44 releases, every
release on a held reference, nothing held at the end. -/
theorem bubblesortmem_balanced_witness :
    (2 : Int) ≤ 2 ∧
    (bubblesortmem 2).map (fun l => (l.returned, l.released, l.held, l.valid))
      = some (44, 44, [], true) ∧
    ∃ l, bubblesortmem 2 = some l ∧ l.returned = l.released ∧ l.valid = true ∧ l.held = [] :=
  ⟨by decide, rfl,
   let ⟨l, hl, h1, h2, h3, _⟩ := bubblesortmem_balanced 2 (by decide)
   ⟨l, hl, h1, h2, h3⟩⟩

/-! ## The assertions on solve calls and on the range of literals -/

/-- C15, the claim refuted at a concrete manager: `staleSmgr` is initialized
and the literal 0 lies within `maxvar`, but a solve call has been made and
`inc_required` is not set, so `btor_sat_add` fails its third assertion: no
clause is counted and nothing is handed to the backend. -/
theorem sat_add_assertion_counterexample :
    staleSmgr.initialized = true ∧ c_abs 0 ≤ staleSmgr.maxvar ∧
    btor_sat_add staleSmgr 0 = .assert_fail "!smgr->satcalls || smgr->inc_required" ∧
    ¬ (∃ s, btor_sat_add staleSmgr 0 = .ok s ∧ s.clauses = staleSmgr.clauses + 1) := by
  refine ⟨rfl, by decide, rfl, ?_⟩
  rintro ⟨s, h, -⟩
  have e : btor_sat_add staleSmgr 0
      = .assert_fail "!smgr->satcalls || smgr->inc_required" := rfl
  rw [e] at h
  cases h

/-- C16, the claim refuted at a concrete manager: `staleSmgr` is initialized
and its backend answers 10, but a solve call has been made and `inc_required`
is not set, so `btor_sat_sat` fails its entry assertion: it returns no
result, and `satcalls` is not raised. -/
theorem sat_sat_assertion_counterexample :
    staleSmgr.initialized = true ∧ backend_sat_code staleSmgr 0 = 10 ∧
    btor_sat_sat staleSmgr 0 = .assert_fail "!smgr->satcalls || smgr->inc_required" ∧
    ¬ ((∃ s, btor_sat_sat staleSmgr 0 = .ok (s, .BTOR_RESULT_SAT)) ↔
        backend_sat_code staleSmgr 0 = 10) := by
  refine ⟨rfl, rfl, rfl, ?_⟩
  intro h
  obtain ⟨s, hs⟩ := h.2 rfl
  have e : btor_sat_sat staleSmgr 0
      = .assert_fail "!smgr->satcalls || smgr->inc_required" := rfl
  rw [e] at hs
  cases hs

/-- C18, the claim refuted at a reachable state: after `btor_sat_init` the toy
manager is initialized with `maxvar = 1`, and `btor_sat_add`,
`btor_sat_assume` and `btor_sat_deref` reject the literal 2 although the
manager is initialized. -/
theorem sat_state_machine_literal_counterexample :
    sat_run toySmgr [.init]
      = .ok { toySmgr with solver := some 1, inc_required := true, initialized := true,
                           maxvar := 1, clauses := 1, true_lit := 1 } ∧
    btor_sat_add { toySmgr with solver := some 1, inc_required := true, initialized := true,
                                maxvar := 1, clauses := 1, true_lit := 1 } 2
      = .assert_fail "abs (lit) <= smgr->maxvar" ∧
    (btor_sat_assume { toySmgr with solver := some 1, inc_required := true,
                                    initialized := true, maxvar := 1, clauses := 1,
                                    true_lit := 1 } 2).accepted = false ∧
    (btor_sat_deref { toySmgr with solver := some 1, inc_required := true,
                                   initialized := true, maxvar := 1, clauses := 1,
                                   true_lit := 1 } 2).accepted = false ∧
    ¬ (∀ (s : BtorSATMgr Nat) (lit : Int), sat_run toySmgr [.init] = .ok s →
        (btor_sat_add s lit).accepted = s.initialized) := by
  refine ⟨rfl, rfl, rfl, rfl, ?_⟩
  intro h
  have h2 := h _ 2 rfl
  exact absurd h2 (by decide)

/-- C22, the claim refuted at a concrete manager: `cloneSmgr` is initialized,
has a `melt`, and 5 is not its true literal, but 5 lies beyond `maxvar = 2`,
so `btor_sat_mgr_release_cnf_id` fails its assertion: `melt` is not called,
and the call is no no-op either, for it does not return. -/
theorem release_cnf_id_range_counterexample :
    cloneSmgr.initialized = true ∧ c_abs 5 ≠ cloneSmgr.true_lit ∧
    cloneSmgr.api.melt.isSome = true ∧
    btor_sat_mgr_release_cnf_id cloneSmgr 5 = .assert_fail "abs (lit) <= smgr->maxvar" ∧
    ¬ (∃ s, btor_sat_mgr_release_cnf_id cloneSmgr 5 = .ok s) := by
  refine ⟨rfl, by decide, rfl, rfl, ?_⟩
  rintro ⟨s, h⟩
  have e : btor_sat_mgr_release_cnf_id cloneSmgr 5
      = .assert_fail "abs (lit) <= smgr->maxvar" := rfl
  rw [e] at h
  cases h

end Boolector
